import Mathlib

/-!
# hidapi, Windows backend (`windows/hid.c`): error registry and report I/O

A shallow embedding of the session level functions of `windows/hid.c`.

Conventions of the embedding

* A `HANDLE` is a natural number, `0` being `NULL`.
* A byte is a natural number; a C buffer is the list of the bytes it holds.
  A pointer argument that may be `NULL` is an `Option`.
* A wide string is a `String`; a `wchar_t *` that may be `NULL` is an
  `Option String`.
* `size_t` and `DWORD` values are natural numbers. A cast to `DWORD` is
  `DWORD n = n % 2^32`, a conversion to the C `int` that a function returns is
  `to_int`.
* The operating system and the C runtime are not executed. Every value they
  hand back during one API call (return values, byte counts, transferred
  bytes, `GetLastError()`, the text of `FormatMessageW`) is a field of an
  environment record that the embedded function receives as an argument, and
  every call made to the device or to a wait primitive is appended to a trace
  (`os_call`).
* A heap allocation can fail exactly where the source tests its result
  (`malloc` of the staging buffers, `calloc` of the message buffer); an
  allocation whose result the source uses untested is taken to succeed.
* The thread local list `device_error` of the calling thread is passed in and
  returned explicitly.
-/

namespace Hidapi

/-! ## Constants and machine integers -/

/-- Win32 error code `ERROR_IO_PENDING`. -/
def ERROR_IO_PENDING : Nat := 997

/-- Win32 wait result `WAIT_OBJECT_0`. -/
def WAIT_OBJECT_0 : Nat := 0

/-- Win32 timeout value `INFINITE`. -/
def INFINITE : Nat := 0xFFFFFFFF

/-- Member `EC_SUCCESS` of `enum ErrorCode`. -/
def EC_SUCCESS : Int := 0

/-- Member `EC_UNKNOWN_FAILURE` of `enum ErrorCode`. -/
def EC_UNKNOWN_FAILURE : Int := -1

/-- Control code `IOCTL_HID_GET_FEATURE`, that is `HID_OUT_CTL_CODE(100)`. -/
def IOCTL_HID_GET_FEATURE : Nat := 0xB0192

/-- Control code `IOCTL_HID_GET_INPUT_REPORT`, that is `HID_OUT_CTL_CODE(104)`. -/
def IOCTL_HID_GET_INPUT_REPORT : Nat := 0xB01A2

/-- The cast `(DWORD) n`: reduction modulo `2^32`. -/
def DWORD (n : Nat) : Nat := n % 2 ^ 32

/-- Conversion of an unsigned value to the 32 bit C `int`: the value modulo
`2^32`, read as a two's complement number. -/
def to_int (n : Nat) : Int :=
  if n % 2 ^ 32 < 2 ^ 31 then ((n % 2 ^ 32 : Nat) : Int)
  else ((n % 2 ^ 32 : Nat) : Int) - 2 ^ 32

/-- The C library `memcpy(dst, src, n)`: the first `n` bytes of `dst` are
replaced by the first `n` bytes of `src`. -/
def memcpy (dst src : List Nat) (n : Nat) : List Nat :=
  src.take n ++ dst.drop n

/-- The C library `memset(dst + off, val, n)`: `n` bytes of `dst`, starting at
offset `off`, are replaced by `val`. -/
def memset (dst : List Nat) (off val n : Nat) : List Nat :=
  dst.take off ++ List.replicate n val ++ dst.drop (off + n)

/-! ## Data model -/

/-- One node of the per thread list `struct device_error`. -/
structure device_error where
  /-- Field `device_handle`: the key; `0` (`NULL`) is the global record. -/
  device_handle : Nat
  /-- Field `last_error_str`: `none` is `NULL`. -/
  last_error_str : Option String
  /-- Field `last_error_code`. -/
  last_error_code : Int
deriving DecidableEq, Repr

/-- The session object `struct hid_device_`. The two `OVERLAPPED` members are
represented by their event handles; `device_info` is not read by the embedded
functions and is left out. -/
structure hid_device where
  device_handle : Nat
  blocking : Bool
  output_report_length : Nat
  write_buf : Option (List Nat)
  input_report_length : Nat
  feature_report_length : Nat
  feature_buf : Option (List Nat)
  read_pending : Bool
  read_buf : List Nat
  ol_hEvent : Nat
  write_ol_hEvent : Nat
  write_timeout_ms : Nat
deriving DecidableEq, Repr

/-- What the C runtime and `FormatMessageW` answer while
`register_winapi_error_to_device` builds a message. -/
structure msg_env where
  /-- Text that `FormatMessageW` stores for an error code (empty when it
  returns 0). -/
  FormatMessageW : Nat → String
  /-- Whether `calloc(msg_len + 1, sizeof (WCHAR))` returns a block. -/
  calloc_ok : Bool
  /-- Whether `swprintf` returns a non negative count. -/
  swprintf_ok : Bool

/-! ## Error registry -/

/-- The test used by `get_device_error` and `find_device_error` to decide
whether the node `current` belongs to `dev`:
`(dev == NULL && current->device_handle == NULL) ||
 (dev != NULL && dev->device_handle == current->device_handle)`. -/
def device_error_matches (dev : Option hid_device) (current : device_error) : Bool :=
  match dev with
  | none => current.device_handle == 0
  | some d => d.device_handle == current.device_handle

/-- The function `register_string_error_to_device`. -/
def register_string_error_to_device (error : device_error)
    (string_error : Option String) : device_error :=
  let error := { error with last_error_code := EC_SUCCESS }
  let error := { error with last_error_str := none }
  match string_error with
  | some s => { error with last_error_code := EC_UNKNOWN_FAILURE, last_error_str := some s }
  | none => error

/-- One upper case hexadecimal digit. -/
def hex_digit (d : Nat) : Char :=
  if d < 10 then Char.ofNat (48 + d) else Char.ofNat (55 + d)

/-- The conversion `%08X` of a `DWORD`: eight upper case hexadecimal digits. -/
def hex08 (n : Nat) : List Char :=
  [7, 6, 5, 4, 3, 2, 1, 0].map (fun k => hex_digit ((n / 16 ^ k) % 16))

/-- The closing loop of `register_winapi_error_to_device`: trailing carriage
returns, line feeds and blanks are cut off. -/
def trim_message (msg : List Char) : List Char :=
  (msg.reverse.dropWhile
    (fun c => c == Char.ofNat 13 || c == Char.ofNat 10 || c == Char.ofNat 32)).reverse

/-- The function `register_winapi_error_to_device`. `last_error` is the value
of `GetLastError()` at the time of the call. -/
def register_winapi_error_to_device (error : device_error) (op : Option String)
    (last_error : Nat) (m : msg_env) : device_error :=
  let error := { error with last_error_code := EC_SUCCESS }
  let error := { error with last_error_str := none }
  match op with
  | none => error
  | some op =>
    let error_code := DWORD last_error
    let error := { error with last_error_code := to_int error_code }
    if !m.calloc_ok then error
    else if !m.swprintf_ok then { error with last_error_str := some "" }
    else
      let msg := op.data ++ ": (0x".data ++ hex08 error_code ++ ") ".data
        ++ (m.FormatMessageW error_code).data
      { error with last_error_str := some (String.mk (trim_message msg)) }

/-- The node that `get_device_error` allocates and initialises when the list
holds no node for `dev`. -/
def new_device_error (dev : Option hid_device) : device_error :=
  { device_handle := match dev with
                     | some d => d.device_handle
                     | none => 0,
    last_error_str := none,
    last_error_code := EC_SUCCESS }

/-- The function `get_device_error`: the thread's list after the call and the
position in it of the node that the function returns. A node for `dev` is
appended at the tail when none matches. -/
def get_device_error (dev : Option hid_device) : List device_error → List device_error × Nat
  | [] => ([new_device_error dev], 0)
  | current :: rest =>
    if device_error_matches dev current then (current :: rest, 0)
    else
      let r := get_device_error dev rest
      (current :: r.1, r.2 + 1)

/-- The function `find_device_error`: the first node that belongs to `dev`, or
`none` (`NULL`). -/
def find_device_error (dev : Option hid_device) : List device_error → Option device_error
  | [] => none
  | current :: rest =>
    if device_error_matches dev current then some current
    else find_device_error dev rest

/-- A write through the pointer that `get_device_error` returned: the node at
position `i` is replaced by its image under `f`. -/
def update_node (f : device_error → device_error) : List device_error → Nat → List device_error
  | [], _ => []
  | e :: rest, 0 => f e :: rest
  | e :: rest, i + 1 => e :: update_node f rest i

/-- The function `register_winapi_error`. -/
def register_winapi_error (dev : Option hid_device) (op : Option String)
    (last_error : Nat) (m : msg_env) (errs : List device_error) : List device_error :=
  let r := get_device_error dev errs
  update_node (fun error => register_winapi_error_to_device error op last_error m) r.1 r.2

/-- The function `register_string_error`. -/
def register_string_error (dev : Option hid_device) (string_error : Option String)
    (errs : List device_error) : List device_error :=
  let r := get_device_error dev errs
  update_node (fun error => register_string_error_to_device error string_error) r.1 r.2

/-- The function `hid_error`. -/
def hid_error (dev : Option hid_device) (errs : List device_error) : String :=
  let error_str := match find_device_error dev errs with
    | some error => error.last_error_str
    | none => none
  match error_str with
  | none => "Success"
  | some s => s

/-- The function `hid_error_code`. -/
def hid_error_code (dev : Option hid_device) (errs : List device_error) : Int :=
  match find_device_error dev errs with
  | some error => error.last_error_code
  | none => EC_SUCCESS

/-! ## Report I/O: environment and trace -/

/-- A call made to the device or to a wait primitive, with the arguments that
matter: handles, the bytes and byte count handed over, timeouts. -/
inductive os_call where
  | WriteFile (hFile : Nat) (buf : List Nat) (nNumberOfBytesToWrite : Nat)
  | ResetEvent (hEvent : Nat)
  | ReadFile (hFile : Nat) (nNumberOfBytesToRead : Nat)
  | CancelIo (hFile : Nat)
  | WaitForSingleObject (hHandle : Nat) (dwMilliseconds : Nat)
  | GetOverlappedResult (hFile : Nat) (bWait : Bool)
  | HidD_SetFeature (hFile : Nat) (buf : List Nat) (len : Nat)
  | HidD_SetOutputReport (hFile : Nat) (buf : List Nat) (len : Nat)
  | DeviceIoControl (hDevice : Nat) (dwIoControlCode : Nat) (buf : List Nat) (nSize : Nat)
deriving DecidableEq, Repr

/-- What an API function leaves behind: its return value, the session, the
caller's buffer, the calling thread's error list and the calls made. -/
structure outcome where
  ret : Int
  dev : hid_device
  data : Option (List Nat)
  errs : List device_error
  calls : List os_call

/-- Answers of the system during one `hid_write`. -/
structure write_env where
  /-- Result of `malloc(dev->output_report_length)`: `none` is `NULL`,
  `some b` a block with indeterminate content `b`. -/
  malloc : Option (List Nat)
  /-- Return value of `WriteFile`. -/
  WriteFile_res : Bool
  /-- Value that `WriteFile` stores in `bytes_written`. -/
  WriteFile_bytes : Nat
  /-- Value of `GetLastError()` after `WriteFile`. -/
  WriteFile_err : Nat
  /-- Return value of `WaitForSingleObject`. -/
  Wait_res : Nat
  /-- Value of `GetLastError()` after `WaitForSingleObject`. -/
  Wait_err : Nat
  /-- Return value of `GetOverlappedResult`. -/
  Overlapped_res : Bool
  /-- Value that `GetOverlappedResult` stores in `bytes_written`. -/
  Overlapped_bytes : Nat
  /-- Value of `GetLastError()` after `GetOverlappedResult`. -/
  Overlapped_err : Nat
  msg : msg_env

/-- Answers of the system during one `hid_read_timeout`. A read that ends
successfully is described by the bytes `raw` it transferred to the start of
`dev->read_buf`; the byte count it reports is `raw.length`. -/
structure read_env where
  /-- Outcome of `ReadFile`: `some raw` when it returns `TRUE`, `none` when it
  returns `FALSE`. -/
  ReadFile : Option (List Nat)
  /-- Value of `GetLastError()` after `ReadFile`. -/
  ReadFile_err : Nat
  /-- Return value of `WaitForSingleObject`. -/
  Wait_res : Nat
  /-- Outcome of `GetOverlappedResult`: `some raw` when it returns `TRUE`,
  `none` when it returns `FALSE`. -/
  Overlapped : Option (List Nat)
  /-- Value of `GetLastError()` after `GetOverlappedResult`. -/
  Overlapped_err : Nat
  msg : msg_env

/-- Answers of the system during one `hid_get_report`. -/
structure report_env where
  /-- Return value of `DeviceIoControl`. -/
  DeviceIoControl_res : Bool
  /-- Value of `GetLastError()` after `DeviceIoControl`. -/
  DeviceIoControl_err : Nat
  /-- Return value of `GetOverlappedResult`. -/
  Overlapped_res : Bool
  /-- Value that `GetOverlappedResult` stores in `bytes_returned`. -/
  bytes_returned : Nat
  /-- Bytes that the exchange stored at the start of the caller's buffer. -/
  transferred : List Nat
  /-- Value of `GetLastError()` after `GetOverlappedResult`. -/
  Overlapped_err : Nat
  msg : msg_env

/-! ## Report I/O: the functions -/

/-- The exit shared by all report functions for `!data || !length`. -/
def zero_buffer (dev : hid_device) (data : Option (List Nat))
    (errs : List device_error) : outcome :=
  { ret := -1, dev := dev, data := data,
    errs := register_string_error (some dev) (some "Zero buffer/length") errs,
    calls := [] }

/-- The part of `hid_write` from the call of `WriteFile` to the end: `buf` and
`length` are the buffer and the length chosen before. -/
def hid_write_transfer (dev : hid_device) (data buf : List Nat) (length : Nat)
    (env : write_env) (errs : List device_error) : outcome :=
  let calls := [os_call.WriteFile dev.device_handle (buf.take (DWORD length)) (DWORD length)]
  if !env.WriteFile_res then
    if env.WriteFile_err != ERROR_IO_PENDING then
      { ret := -1, dev := dev, data := some data,
        errs := register_winapi_error (some dev) (some "WriteFile") env.WriteFile_err env.msg errs,
        calls := calls }
    else
      -- overlapped = TRUE
      let calls := calls ++ [os_call.WaitForSingleObject dev.write_ol_hEvent dev.write_timeout_ms]
      if env.Wait_res != WAIT_OBJECT_0 then
        { ret := -1, dev := dev, data := some data,
          errs := register_winapi_error (some dev) (some "hid_write/WaitForSingleObject")
            env.Wait_err env.msg errs,
          calls := calls }
      else
        let calls := calls ++ [os_call.GetOverlappedResult dev.device_handle false]
        if env.Overlapped_res then
          { ret := to_int env.Overlapped_bytes, dev := dev, data := some data,
            errs := errs, calls := calls }
        else
          { ret := -1, dev := dev, data := some data,
            errs := register_winapi_error (some dev) (some "hid_write/GetOverlappedResult")
              env.Overlapped_err env.msg errs,
            calls := calls }
  else
    { ret := to_int env.WriteFile_bytes, dev := dev, data := some data,
      errs := errs, calls := calls }

/-- The function `hid_write`. -/
def hid_write (dev : hid_device) (data : Option (List Nat)) (length : Nat)
    (env : write_env) (errs : List device_error) : outcome :=
  match data with
  | none => zero_buffer dev none errs
  | some bytes =>
    if length = 0 then zero_buffer dev (some bytes) errs
    else
      let errs := register_string_error (some dev) none errs
      if length ≥ dev.output_report_length then
        hid_write_transfer dev bytes bytes length env errs
      else
        let write_buf := match dev.write_buf with
          | some b => some b
          | none => env.malloc
        match write_buf with
        | none =>
          { ret := -1, dev := dev, data := some bytes,
            errs := register_string_error (some dev) (some "hid_write/malloc") errs,
            calls := [] }
        | some b =>
          let buf := memcpy b bytes length
          let buf := memset buf length 0 (dev.output_report_length - length)
          let dev := { dev with write_buf := some buf }
          let length := dev.output_report_length
          hid_write_transfer dev bytes buf length env errs

/-- The part of `hid_read_timeout` after the wait: `res` and `bytes_read` are
the values left by `ReadFile` or `GetOverlappedResult`. -/
def hid_read_copy (dev : hid_device) (data : List Nat) (length : Nat) (res : Bool)
    (bytes_read : Nat) (env : read_env) (errs : List device_error)
    (calls : List os_call) : outcome :=
  let dev := { dev with read_pending := false }
  let copied : Nat × List Nat :=
    if res && decide (bytes_read > 0) then
      if dev.read_buf.head? = some 0 then
        let bytes_read := bytes_read - 1
        let copy_len := if length > bytes_read then bytes_read else length
        (copy_len, memcpy data (dev.read_buf.drop 1) copy_len)
      else
        let copy_len := if length > bytes_read then bytes_read else length
        (copy_len, memcpy data dev.read_buf copy_len)
    else (0, data)
  let errs := if !res then
      register_winapi_error (some dev) (some "hid_read_timeout/GetOverlappedResult")
        env.Overlapped_err env.msg errs
    else errs
  { ret := if !res then -1 else to_int copied.1,
    dev := dev, data := some copied.2, errs := errs, calls := calls }

/-- The part of `hid_read_timeout` executed when `overlapped` is `TRUE`: the
wait on the event and the collection of the result. -/
def hid_read_wait (dev : hid_device) (data : List Nat) (length : Nat) (milliseconds : Int)
    (env : read_env) (errs : List device_error) (calls : List os_call) : outcome :=
  let calls := calls ++ [os_call.WaitForSingleObject dev.ol_hEvent
    (if milliseconds ≥ 0 then DWORD milliseconds.toNat else INFINITE)]
  if env.Wait_res != WAIT_OBJECT_0 then
    { ret := 0, dev := dev, data := some data, errs := errs, calls := calls }
  else
    let calls := calls ++ [os_call.GetOverlappedResult dev.device_handle false]
    match env.Overlapped with
    | some raw =>
      hid_read_copy { dev with read_buf := memcpy dev.read_buf raw raw.length }
        data length true raw.length env errs calls
    | none => hid_read_copy dev data length false 0 env errs calls

/-- The function `hid_read_timeout`. -/
def hid_read_timeout (dev : hid_device) (data : Option (List Nat)) (length : Nat)
    (milliseconds : Int) (env : read_env) (errs : List device_error) : outcome :=
  match data with
  | none => zero_buffer dev none errs
  | some bytes =>
    if length = 0 then zero_buffer dev (some bytes) errs
    else
      let errs := register_string_error (some dev) none errs
      let ev := dev.ol_hEvent
      if !dev.read_pending then
        let dev := { dev with read_pending := true }
        let dev := { dev with read_buf := memset dev.read_buf 0 0 dev.input_report_length }
        let calls := [os_call.ResetEvent ev,
          os_call.ReadFile dev.device_handle (DWORD dev.input_report_length)]
        match env.ReadFile with
        | some raw =>
          hid_read_copy { dev with read_buf := memcpy dev.read_buf raw raw.length }
            bytes length true raw.length env errs calls
        | none =>
          if env.ReadFile_err != ERROR_IO_PENDING then
            { ret := -1, dev := { dev with read_pending := false }, data := some bytes,
              errs := register_winapi_error (some dev) (some "ReadFile")
                env.ReadFile_err env.msg errs,
              calls := calls ++ [os_call.CancelIo dev.device_handle] }
          else hid_read_wait dev bytes length milliseconds env errs calls
      else hid_read_wait dev bytes length milliseconds env errs []

/-- The function `hid_read`. -/
def hid_read (dev : hid_device) (data : Option (List Nat)) (length : Nat)
    (env : read_env) (errs : List device_error) : outcome :=
  hid_read_timeout dev data length (if dev.blocking then -1 else 0) env errs

/-- The function `hid_get_report`. -/
def hid_get_report (dev : hid_device) (report_type : Nat) (data : Option (List Nat))
    (length : Nat) (env : report_env) (errs : List device_error) : outcome :=
  match data with
  | none => zero_buffer dev none errs
  | some bytes =>
    if length = 0 then zero_buffer dev (some bytes) errs
    else
      let errs := register_string_error (some dev) none errs
      let calls := [os_call.DeviceIoControl dev.device_handle report_type
        (bytes.take (DWORD length)) (DWORD length)]
      if !env.DeviceIoControl_res && env.DeviceIoControl_err != ERROR_IO_PENDING then
        { ret := -1, dev := dev, data := some bytes,
          errs := register_winapi_error (some dev)
            (some "Get Input/Feature Report DeviceIoControl")
            env.DeviceIoControl_err env.msg errs,
          calls := calls }
      else
        let calls := calls ++ [os_call.GetOverlappedResult dev.device_handle true]
        let bytes := memcpy bytes env.transferred env.transferred.length
        if !env.Overlapped_res then
          { ret := -1, dev := dev, data := some bytes,
            errs := register_winapi_error (some dev)
              (some "Get Input/Feature Report GetOverLappedResult")
              env.Overlapped_err env.msg errs,
            calls := calls }
        else
          let bytes_returned := DWORD env.bytes_returned
          let bytes_returned :=
            if bytes.head? = some 0 then DWORD (bytes_returned + 1) else bytes_returned
          { ret := to_int bytes_returned, dev := dev, data := some bytes,
            errs := errs, calls := calls }

/-- The function `hid_get_feature_report`. -/
def hid_get_feature_report (dev : hid_device) (data : Option (List Nat)) (length : Nat)
    (env : report_env) (errs : List device_error) : outcome :=
  hid_get_report dev IOCTL_HID_GET_FEATURE data length env errs

/-- The function `hid_get_input_report`. -/
def hid_get_input_report (dev : hid_device) (data : Option (List Nat)) (length : Nat)
    (env : report_env) (errs : List device_error) : outcome :=
  hid_get_report dev IOCTL_HID_GET_INPUT_REPORT data length env errs

/-! ## Observations and sample values -/

/-- The buffers, with their byte counts, that a trace hands to `WriteFile`. -/
def written (calls : List os_call) : List (List Nat × Nat) :=
  calls.filterMap fun c =>
    match c with
    | os_call.WriteFile _ buf n => some (buf, n)
    | _ => none

/-- The number of `ReadFile` calls of a trace. -/
def reads_issued (calls : List os_call) : Nat :=
  (calls.filter fun c =>
    match c with
    | os_call.ReadFile _ _ => true
    | _ => false).length

/-- A session as `hid_open_path` leaves it, for a device with 8 byte output
and feature reports and 4 byte input reports. -/
def sample_dev : hid_device :=
  { device_handle := 7, blocking := true, output_report_length := 8, write_buf := none,
    input_report_length := 4, feature_report_length := 8, feature_buf := none,
    read_pending := false, read_buf := [9, 9, 9, 9], ol_hEvent := 11, write_ol_hEvent := 12,
    write_timeout_ms := 1000 }

/-- A message environment in which every allocation and conversion succeeds. -/
def sample_msg : msg_env :=
  { FormatMessageW := fun _ => "Overlapped I/O operation is in progress.\r\n",
    calloc_ok := true, swprintf_ok := true }

/-- A write environment: `WriteFile` ends at once and reports 8 bytes. -/
def sample_write_env : write_env :=
  { malloc := some [5, 5, 5, 5, 5, 5, 5, 5], WriteFile_res := true, WriteFile_bytes := 8,
    WriteFile_err := 0, Wait_res := 0, Wait_err := 0, Overlapped_res := true,
    Overlapped_bytes := 8, Overlapped_err := 0, msg := sample_msg }

/-- A write ends successfully with the system reporting `w` bytes written:
either `WriteFile` returns `TRUE` and stores `w`, or it returns `FALSE` with
`ERROR_IO_PENDING`, the wait is signalled and `GetOverlappedResult` returns
`TRUE` and stores `w`. -/
def write_succeeds (env : write_env) (w : Nat) : Prop :=
  (env.WriteFile_res = true ∧ env.WriteFile_bytes = w) ∨
  (env.WriteFile_res = false ∧ env.WriteFile_err = ERROR_IO_PENDING ∧
    env.Wait_res = WAIT_OBJECT_0 ∧ env.Overlapped_res = true ∧ env.Overlapped_bytes = w)

/-- The call reaches the wait on the read event: a read was pending from an
earlier call, or `ReadFile` returns `FALSE` with `ERROR_IO_PENDING`. -/
def read_waits (dev : hid_device) (env : read_env) : Prop :=
  dev.read_pending = true ∨ (env.ReadFile = none ∧ env.ReadFile_err = ERROR_IO_PENDING)

/-- The read ends successfully in this call, having transferred `raw`: either
`ReadFile` is issued and returns `TRUE`, or the call waits, the event is
signalled and `GetOverlappedResult` returns `TRUE`. -/
def read_completes (dev : hid_device) (env : read_env) (raw : List Nat) : Prop :=
  (dev.read_pending = false ∧ env.ReadFile = some raw) ∨
  (read_waits dev env ∧ env.Wait_res = WAIT_OBJECT_0 ∧ env.Overlapped = some raw)

/-- The read fails in this call: `ReadFile` is issued and returns `FALSE` with
an error other than `ERROR_IO_PENDING`, or the call waits, the event is
signalled and `GetOverlappedResult` returns `FALSE`. -/
def read_fails (dev : hid_device) (env : read_env) : Prop :=
  (dev.read_pending = false ∧ env.ReadFile = none ∧ env.ReadFile_err ≠ ERROR_IO_PENDING) ∨
  (read_waits dev env ∧ env.Wait_res = WAIT_OBJECT_0 ∧ env.Overlapped = none)

/-- A read environment: `ReadFile` goes asynchronous and the wait times out
(`WAIT_TIMEOUT` is 258). -/
def sample_read_env : read_env :=
  { ReadFile := none, ReadFile_err := 997, Wait_res := 258, Overlapped := none,
    Overlapped_err := 0, msg := sample_msg }

/-- A read environment: `ReadFile` ends at once with a 4 byte report whose
first byte is the report number 0. -/
def sample_read_done : read_env :=
  { ReadFile := some [0, 5, 6, 7], ReadFile_err := 0, Wait_res := 0, Overlapped := none,
    Overlapped_err := 0, msg := sample_msg }

/-- The sample session with a read left pending by an earlier call. -/
def sample_dev_pending : hid_device :=
  { sample_dev with read_pending := true, read_buf := [0, 0, 0, 0] }

/-- A session for a device without input reports: `InputReportByteLength`
is 0 and the read buffer is empty. -/
def sample_dev_no_input : hid_device :=
  { sample_dev with input_report_length := 0, read_buf := [] }

/-- A read environment: `ReadFile` ends at once, having transferred no byte. -/
def sample_read_empty : read_env :=
  { ReadFile := some [], ReadFile_err := 0, Wait_res := 0, Overlapped := none,
    Overlapped_err := 0, msg := sample_msg }

/-- A read environment: `ReadFile` goes asynchronous and the wait fails
(`WAIT_FAILED` is `0xFFFFFFFF`). -/
def sample_read_wait_failed : read_env :=
  { ReadFile := none, ReadFile_err := 997, Wait_res := 0xFFFFFFFF, Overlapped := none,
    Overlapped_err := 0, msg := sample_msg }

/-- A report environment: the exchange ends at once; the device stored the
report number 0 and two bytes and the system reports 2 bytes returned. -/
def sample_report_env : report_env :=
  { DeviceIoControl_res := true, DeviceIoControl_err := 0, Overlapped_res := true,
    bytes_returned := 2, transferred := [0, 5, 6], Overlapped_err := 0, msg := sample_msg }

/-! ## Hotplug registry and enumeration: data model -/

/-- The value `CR_SUCCESS` of `hidapi_cfgmgr32.h`. -/
def CR_SUCCESS : Nat := 0

/-- The value `CR_BUFFER_SMALL` of `hidapi_cfgmgr32.h`. -/
def CR_BUFFER_SMALL : Nat := 0x1A

/-- The macro `FIRST_HOTPLUG_CALLBACK_HANDLE`. -/
def FIRST_HOTPLUG_CALLBACK_HANDLE : Int := 1

/-- The largest value of the C `int`. -/
def INT_MAX : Int := 2 ^ 31 - 1

/-- Modelled from the spec: enumerator `HID_API_HOTPLUG_EVENT_DEVICE_ARRIVED`
of `hidapi.h`, a header that is not among the sources. The spec names the
"arrived" event of the event mask; the value is the bit `1 << 0`. -/
def HID_API_HOTPLUG_EVENT_DEVICE_ARRIVED : Int := 1

/-- Modelled from the spec: enumerator `HID_API_HOTPLUG_EVENT_DEVICE_LEFT` of
`hidapi.h`, a header that is not among the sources. The spec names the "left"
event of the event mask; the value is the bit `1 << 1`. -/
def HID_API_HOTPLUG_EVENT_DEVICE_LEFT : Int := 2

/-- Modelled from the spec: enumerator `HID_API_HOTPLUG_ENUMERATE` of
`hidapi.h`, a header that is not among the sources. The spec names the flag
that asks for the notification of the devices already present; the value is
the bit `1 << 0`. -/
def HID_API_HOTPLUG_ENUMERATE : Int := 1

/-- The 32 bit two's complement pattern of a C `int`. -/
def bits (z : Int) : Nat := (z % 2 ^ 32).toNat

/-- The C operator `a & b` on `int`. -/
def int_and (a b : Int) : Int := to_int (Nat.land (bits a) (bits b))

/-- The C operator `a | b` on `int`. -/
def int_or (a b : Int) : Int := to_int (Nat.lor (bits a) (bits b))

/-- The C operator `~a` on `int`. -/
def int_not (a : Int) : Int := to_int (2 ^ 32 - 1 - bits a)

/-- The value of an `int` expression taken modulo `2^32` as a signed 32 bit
value: what `next_handle++` stores when the sum leaves the range of `int`. -/
def int_wrap (z : Int) : Int := to_int (bits z)

/-- Modelled from the spec: `struct hid_device_info` of `hidapi.h`, a header
that is not among the sources. The members are those the spec lists for the
Device Descriptor; the `next` link is the order of the list that holds the
record. `none` is a `NULL` string. -/
structure hid_device_info where
  path : Option String
  vendor_id : Nat
  product_id : Nat
  serial_number : Option String
  release_number : Nat
  manufacturer_string : Option String
  product_string : Option String
  usage_page : Nat
  usage : Nat
  interface_number : Int
  bus_type : Nat
deriving DecidableEq, Repr

/-- The node `struct hid_hotplug_callback`. The member `callback` is the
address of the user's function, `0` being `NULL`; `user_data` is an address. -/
structure hid_hotplug_callback where
  handle : Int
  vendor_id : Nat
  product_id : Nat
  events : Int
  user_data : Nat
  callback : Nat
deriving DecidableEq, Repr

/-- The global `hid_hotplug_context` without its critical section object. -/
structure hid_hotplug_context where
  /-- Member `notify_handle`: `0` is `NULL`. -/
  notify_handle : Nat
  critical_section_ready : Bool
  next_handle : Int
  hotplug_cbs : List hid_hotplug_callback
  devs : List hid_device_info
deriving DecidableEq, Repr

/-- The static initialiser of the global `hid_hotplug_context`. -/
def hid_hotplug_context_init : hid_hotplug_context :=
  { notify_handle := 0, critical_section_ready := false,
    next_handle := FIRST_HOTPLUG_CALLBACK_HANDLE, hotplug_cbs := [], devs := [] }

/-- The process wide variables that the registry functions read and write:
the flag `hidapi_initialized` and the global `hid_hotplug_context`. -/
structure globals where
  hidapi_initialized : Bool
  hotplug : hid_hotplug_context
deriving DecidableEq, Repr

/-- The globals when the library is loaded. -/
def globals_init : globals :=
  { hidapi_initialized := false, hotplug := hid_hotplug_context_init }

/-- One call of a user callback: the function called and its four arguments. -/
structure invocation where
  callback : Nat
  handle : Int
  device : hid_device_info
  event : Int
  user_data : Nat
deriving DecidableEq, Repr

/-- The behaviour of the user's callbacks: the value a call returns, given the
calls made before it during the same API call or notification. The callbacks
do not enter the registry functions. -/
abbrev user_code := List invocation → invocation → Int

/-- Answers of the system during one `hid_init`. -/
structure init_env where
  /-- Whether `lookup_functions` returns 0. -/
  lookup_functions_ok : Bool
  /-- Value of `GetLastError()` after `lookup_functions` failed. -/
  last_error : Nat
  msg : msg_env

/-- Answers of the system during one `hid_internal_get_device_info`. The
members other than the identifiers are taken as the property queries, the
string conversions and the bus specific code leave them. -/
structure device_info_env where
  /-- Whether `calloc(1, sizeof(struct hid_device_info))` returns a block. -/
  calloc_ok : Bool
  /-- `VendorID` and `ProductID` when `HidD_GetAttributes` returns `TRUE`. -/
  attributes : Option (Nat × Nat)
  /-- The record as filled in otherwise. -/
  described : hid_device_info

/-- Answers of the system for one device interface visited by
`hid_enumerate`. -/
structure interface_answer where
  /-- Whether `open_device` returns a valid handle. -/
  open_ok : Bool
  /-- `VendorID` and `ProductID` when `HidD_GetAttributes` returns `TRUE`. -/
  attributes : Option (Nat × Nat)
  info : device_info_env

/-- Answers of the system to the retrieval loop of `hid_enumerate`: the
rounds that end with `CR_BUFFER_SMALL` and are retried, then the last round. -/
inductive interface_list_answer where
  /-- `CM_Get_Device_Interface_List_SizeW` returns a failure. -/
  | size_failed
  /-- The `calloc` of the list returns `NULL`. -/
  | calloc_failed
  /-- `CM_Get_Device_Interface_ListW` returns a failure other than
  `CR_BUFFER_SMALL`. -/
  | list_failed
  /-- `CM_Get_Device_Interface_ListW` returns `CR_BUFFER_SMALL`; the loop
  goes round again. -/
  | buffer_small (next : interface_list_answer)
  /-- `CM_Get_Device_Interface_ListW` returns `CR_SUCCESS` with this list. -/
  | ok (interfaces : List interface_answer)

/-- Answers of the system during one `hid_enumerate`. -/
structure enumerate_env where
  init : init_env
  list : interface_list_answer

/-- Answers of the system during one `hid_internal_hotplug_cleanup`. -/
structure cleanup_env where
  /-- Whether `CM_Unregister_Notification` returns `CR_SUCCESS`. -/
  unregister_ok : Bool

/-- Answers of the system during one `hid_hotplug_register_callback`. -/
structure register_env where
  /-- Whether `calloc(1, sizeof(struct hid_hotplug_callback))` returns a
  block. -/
  calloc_ok : Bool
  enumerate : enumerate_env
  /-- `CM_Register_Notification`: `some h` when it returns `CR_SUCCESS` and
  stores the handle `h`, `none` when it fails and stores nothing. -/
  CM_Register_Notification : Option Nat
  user : user_code

/-- What a registry function leaves behind: its return value, the globals,
the calling thread's error list, the content of `*callback_handle` and the
calls of user callbacks made, in order. -/
structure hotplug_outcome where
  ret : Int
  g : globals
  errs : List device_error
  callback_handle : Option Int
  invoked : List invocation

/-- The argument `event_data` of the notification callback, as far as the
callback reads it. -/
structure notify_event_data where
  FilterType : Nat
  /-- Member `u.DeviceInterface.SymbolicLink`. -/
  SymbolicLink : String

/-- Answers of the system during one `hid_internal_notify_callback`. -/
structure notify_env where
  /-- Whether `open_device` returns a valid handle (arrival). -/
  open_ok : Bool
  info : device_info_env
  /-- Result of `hid_internal_UTF16toUTF8` for the symbolic link (removal). -/
  path : Option String
  cleanup : cleanup_env
  user : user_code

/-- The value `CM_NOTIFY_FILTER_TYPE_DEVICEINTERFACE`. -/
def CM_NOTIFY_FILTER_TYPE_DEVICEINTERFACE : Nat := 0

/-- The value `CM_NOTIFY_ACTION_DEVICEINTERFACEARRIVAL`. -/
def CM_NOTIFY_ACTION_DEVICEINTERFACEARRIVAL : Nat := 0

/-- The value `CM_NOTIFY_ACTION_DEVICEINTERFACEREMOVAL`. -/
def CM_NOTIFY_ACTION_DEVICEINTERFACEREMOVAL : Nat := 1

/-! ## Hotplug registry and enumeration: the functions -/

/-- The function `register_global_error`. -/
def register_global_error (string_error : Option String)
    (errs : List device_error) : List device_error :=
  let r := get_device_error none errs
  update_node (fun error => register_string_error_to_device error string_error) r.1 r.2

/-- The function `register_global_winapi_error`. -/
def register_global_winapi_error (op : Option String) (last_error : Nat) (m : msg_env)
    (errs : List device_error) : List device_error :=
  let r := get_device_error none errs
  update_node (fun error => register_winapi_error_to_device error op last_error m) r.1 r.2

/-- The function `hid_init`: return value, the flag `hidapi_initialized` and
the error list afterwards. -/
def hid_init (hidapi_initialized : Bool) (env : init_env)
    (errs : List device_error) : Int × Bool × List device_error :=
  let errs := register_global_error none errs
  if !hidapi_initialized then
    if !env.lookup_functions_ok then
      (-1, hidapi_initialized,
        register_global_winapi_error (some "resolve DLL functions") env.last_error env.msg errs)
    else (0, true, errs)
  else (0, hidapi_initialized, errs)

/-- The function `hid_internal_match_device_id`. -/
def hid_internal_match_device_id (vendor_id product_id expected_vendor_id
    expected_product_id : Nat) : Bool :=
  (expected_vendor_id == 0 || vendor_id == expected_vendor_id) &&
  (expected_product_id == 0 || product_id == expected_product_id)

/-- The function `hid_internal_get_device_info`: `none` is `NULL`. The record
comes zeroed from `calloc`; the identifiers are set when `HidD_GetAttributes`
succeeds. -/
def hid_internal_get_device_info (env : device_info_env) : Option hid_device_info :=
  if !env.calloc_ok then none
  else
    match env.attributes with
    | some a => some { env.described with vendor_id := a.1, product_id := a.2 }
    | none => some { env.described with vendor_id := 0, product_id := 0 }

/-- The `for` loop of `hid_enumerate` over the device interfaces: the records
created, in the order of the interfaces. -/
def hid_enumerate_interfaces (vendor_id product_id : Nat) :
    List interface_answer → List hid_device_info
  | [] => []
  | i :: rest =>
    if !i.open_ok then hid_enumerate_interfaces vendor_id product_id rest
    else
      match i.attributes with
      | none => hid_enumerate_interfaces vendor_id product_id rest
      | some attrib =>
        if hid_internal_match_device_id attrib.1 attrib.2 vendor_id product_id then
          match hid_internal_get_device_info i.info with
          | none => hid_enumerate_interfaces vendor_id product_id rest
          | some tmp => tmp :: hid_enumerate_interfaces vendor_id product_id rest
        else hid_enumerate_interfaces vendor_id product_id rest

/-- The `do ... while (cr == CR_BUFFER_SMALL)` loop of `hid_enumerate` with
what follows it: the list returned and the error list. -/
def hid_enumerate_list (vendor_id product_id : Nat) :
    interface_list_answer → List device_error → List hid_device_info × List device_error
  | interface_list_answer.size_failed, errs =>
    ([], register_global_error (some "Failed to get size of HID device interface list") errs)
  | interface_list_answer.calloc_failed, errs =>
    ([], register_global_error
      (some "Failed to allocate memory for HID device interface list") errs)
  | interface_list_answer.list_failed, errs =>
    ([], register_global_error (some "Failed to get HID device interface list") errs)
  | interface_list_answer.buffer_small next, errs =>
    hid_enumerate_list vendor_id product_id next errs
  | interface_list_answer.ok interfaces, errs =>
    let root := hid_enumerate_interfaces vendor_id product_id interfaces
    if root = [] then
      if vendor_id = 0 ∧ product_id = 0 then
        (root, register_global_error (some "No HID devices found in the system.") errs)
      else
        (root, register_global_error
          (some "No HID devices with requested VID/PID found in the system.") errs)
    else (root, errs)

/-- The function `hid_enumerate`: the list returned (`[]` is `NULL`), the flag
`hidapi_initialized` and the error list afterwards. -/
def hid_enumerate (vendor_id product_id : Nat) (hidapi_initialized : Bool)
    (env : enumerate_env) (errs : List device_error) :
    List hid_device_info × Bool × List device_error :=
  let i := hid_init hidapi_initialized env.init errs
  if i.1 < 0 then ([], i.2.1, i.2.2)
  else
    let r := hid_enumerate_list vendor_id product_id env.list i.2.2
    (r.1, i.2.1, r.2)

/-- The function `hid_internal_hotplug_cleanup`. -/
def hid_internal_hotplug_cleanup (ctx : hid_hotplug_context) (env : cleanup_env)
    (errs : List device_error) : hid_hotplug_context × List device_error :=
  if ctx.hotplug_cbs ≠ [] then (ctx, errs)
  else
    let ctx := if ctx.devs ≠ [] then { ctx with devs := [] } else ctx
    let errs :=
      if ctx.notify_handle ≠ 0 then
        if !env.unregister_ok then
          register_global_error
            (some "CM_Unregister_Notification failed for Hotplug notification") errs
        else errs
      else errs
    ({ ctx with notify_handle := 0 }, errs)

/-- The function `hid_internal_hotplug_exit`. -/
def hid_internal_hotplug_exit (ctx : hid_hotplug_context) (env : cleanup_env)
    (errs : List device_error) : hid_hotplug_context × List device_error :=
  if !ctx.critical_section_ready then (ctx, errs)
  else
    let ctx := { ctx with hotplug_cbs := [] }
    let c := hid_internal_hotplug_cleanup ctx env errs
    ({ c.1 with critical_section_ready := false }, c.2)

/-- The loop of `hid_hotplug_deregister_callback` and of the removal branch of
the notification callback as a list operation: the first element that
satisfies `p` is unlinked. -/
def unlink_first {α : Type} (p : α → Bool) : List α → List α
  | [] => []
  | x :: rest => if p x then rest else x :: unlink_first p rest

/-- The registration time pass over the cached devices: the calls of the new
callback, one per matching device, in the order of the list. -/
def enumerate_pass (hotplug_cb : hid_hotplug_callback) :
    List hid_device_info → List invocation
  | [] => []
  | device :: rest =>
    if hid_internal_match_device_id device.vendor_id device.product_id
        hotplug_cb.vendor_id hotplug_cb.product_id then
      { callback := hotplug_cb.callback, handle := hotplug_cb.handle, device := device,
        event := HID_API_HOTPLUG_EVENT_DEVICE_ARRIVED, user_data := hotplug_cb.user_data }
        :: enumerate_pass hotplug_cb rest
    else enumerate_pass hotplug_cb rest

/-- The end of `hid_hotplug_register_callback`, from the test of the
`HID_API_HOTPLUG_ENUMERATE` flag to `return 0`. -/
def hid_hotplug_register_finish (g : globals) (ctx : hid_hotplug_context)
    (hotplug_cb : hid_hotplug_callback) (events flags : Int)
    (callback_handle : Option Int) (errs : List device_error) : hotplug_outcome :=
  { ret := 0, g := { g with hotplug := ctx }, errs := errs,
    callback_handle := callback_handle,
    invoked :=
      if int_and flags HID_API_HOTPLUG_ENUMERATE ≠ 0 ∧
          int_and events HID_API_HOTPLUG_EVENT_DEVICE_ARRIVED ≠ 0 then
        enumerate_pass hotplug_cb ctx.devs
      else [] }

/-- The function `hid_hotplug_register_callback`. The argument
`callback_handle` is the content of the location the pointer designates,
`none` for a null pointer. -/
def hid_hotplug_register_callback (g : globals) (vendor_id product_id : Nat)
    (events flags : Int) (callback user_data : Nat) (callback_handle : Option Int)
    (env : register_env) (errs : List device_error) : hotplug_outcome :=
  if events = 0
      ∨ int_and events (int_not (int_or HID_API_HOTPLUG_EVENT_DEVICE_ARRIVED
          HID_API_HOTPLUG_EVENT_DEVICE_LEFT)) ≠ 0
      ∨ int_and flags (int_not HID_API_HOTPLUG_ENUMERATE) ≠ 0
      ∨ callback = 0 then
    { ret := -1, g := g, errs := errs, callback_handle := callback_handle, invoked := [] }
  else if !env.calloc_ok then
    { ret := -1, g := g, errs := errs, callback_handle := callback_handle, invoked := [] }
  else
    let hotplug_cb : hid_hotplug_callback :=
      { handle := 0, vendor_id := vendor_id, product_id := product_id, events := events,
        user_data := user_data, callback := callback }
    -- hid_internal_hotplug_init
    let ctx : hid_hotplug_context := { g.hotplug with critical_section_ready := true }
    let hotplug_cb : hid_hotplug_callback := { hotplug_cb with handle := ctx.next_handle }
    let ctx : hid_hotplug_context :=
      { ctx with next_handle := int_wrap (ctx.next_handle + 1) }
    let ctx : hid_hotplug_context :=
      if ctx.next_handle < 0 then { ctx with next_handle := 1 } else ctx
    let callback_handle := match callback_handle with
      | some _ => some hotplug_cb.handle
      | none => none
    if ctx.hotplug_cbs ≠ [] then
      let ctx := { ctx with hotplug_cbs := ctx.hotplug_cbs ++ [hotplug_cb] }
      hid_hotplug_register_finish g ctx hotplug_cb events flags callback_handle errs
    else
      let e := hid_enumerate 0 0 g.hidapi_initialized env.enumerate errs
      let g := { g with hidapi_initialized := e.2.1 }
      let errs := e.2.2
      let ctx := { ctx with devs := e.1 }
      let ctx := { ctx with hotplug_cbs := [hotplug_cb] }
      if ctx.notify_handle ≠ 0 then
        { ret := -1, g := { g with hotplug := ctx },
          errs := register_global_error
            (some "Device notification have already been registered") errs,
          callback_handle := callback_handle, invoked := [] }
      else
        match env.CM_Register_Notification with
        | none =>
          { ret := -1, g := { g with hotplug := ctx },
            errs := register_global_error
              (some "hid_hotplug_register_callback/CM_Register_Notification") errs,
            callback_handle := callback_handle, invoked := [] }
        | some h =>
          let ctx := { ctx with notify_handle := h }
          hid_hotplug_register_finish g ctx hotplug_cb events flags callback_handle errs

/-- The function `hid_hotplug_deregister_callback`. -/
def hid_hotplug_deregister_callback (g : globals) (callback_handle : Int)
    (env : cleanup_env) (errs : List device_error) : hotplug_outcome :=
  if callback_handle ≤ 0 ∨ !g.hotplug.critical_section_ready then
    { ret := -1, g := g, errs := errs, callback_handle := none, invoked := [] }
  else if g.hotplug.hotplug_cbs = [] then
    { ret := -1, g := g, errs := errs, callback_handle := none, invoked := [] }
  else
    let ctx := { g.hotplug with
      hotplug_cbs := unlink_first (fun c => c.handle == callback_handle) g.hotplug.hotplug_cbs }
    let c := hid_internal_hotplug_cleanup ctx env errs
    { ret := 0, g := { g with hotplug := c.1 }, errs := c.2, callback_handle := none,
      invoked := [] }

/-- The test `_stricmp(a, path) == 0` of the removal branch: equality of the
two strings after the letters `A` to `Z` are turned into lower case. A `NULL`
first argument compares unequal. -/
def stricmp_eq (a : Option String) (path : String) : Bool :=
  match a with
  | none => false
  | some a => a.data.map Char.toLower == path.data.map Char.toLower

/-- The first element of a list that satisfies `p`. -/
def first_match {α : Type} (p : α → Bool) : List α → Option α
  | [] => none
  | x :: rest => if p x then some x else first_match p rest

/-- The `while (*current)` loop of the notification callback: the callback
list it leaves and the calls made. A callback whose event mask and filter
match is called; when it returns a value other than 0 its node is unlinked. -/
def dispatch (user : user_code) (device : hid_device_info) (hotplug_event : Int) :
    List hid_hotplug_callback → List invocation → List hid_hotplug_callback × List invocation
  | [], made => ([], made)
  | callback :: rest, made =>
    if int_and callback.events hotplug_event ≠ 0 ∧
        hid_internal_match_device_id device.vendor_id device.product_id
          callback.vendor_id callback.product_id = true then
      let call : invocation :=
        { callback := callback.callback, handle := callback.handle, device := device,
          event := hotplug_event, user_data := callback.user_data }
      let result := user made call
      if result ≠ 0 then dispatch user device hotplug_event rest (made ++ [call])
      else
        let r := dispatch user device hotplug_event rest (made ++ [call])
        (callback :: r.1, r.2)
    else
      let r := dispatch user device hotplug_event rest made
      (callback :: r.1, r.2)

/-- The first part of `hid_internal_notify_callback`, the update of the
cached device list: the device the notification is about (`none` is `NULL`),
the hotplug event and the context afterwards. -/
def notify_locate (ctx : hid_hotplug_context) (action : Nat) (env : notify_env) :
    Option hid_device_info × Int × hid_hotplug_context :=
  if action = CM_NOTIFY_ACTION_DEVICEINTERFACEARRIVAL then
    if env.open_ok then
      let device := hid_internal_get_device_info env.info
      (device, HID_API_HOTPLUG_EVENT_DEVICE_ARRIVED,
        { ctx with devs := ctx.devs ++ device.toList })
    else (none, HID_API_HOTPLUG_EVENT_DEVICE_ARRIVED, ctx)
  else if action = CM_NOTIFY_ACTION_DEVICEINTERFACEREMOVAL then
    match env.path with
    | some path =>
      (first_match (fun d => stricmp_eq d.path path) ctx.devs,
        HID_API_HOTPLUG_EVENT_DEVICE_LEFT,
        { ctx with devs := unlink_first (fun d => stricmp_eq d.path path) ctx.devs })
    | none => (none, HID_API_HOTPLUG_EVENT_DEVICE_LEFT, ctx)
  else (none, 0, ctx)

/-- The second part of `hid_internal_notify_callback`, from `if (device)` to
the end: the calls of the callbacks and the cleanup. -/
def notify_dispatch (g : globals) (device : Option hid_device_info) (hotplug_event : Int)
    (ctx : hid_hotplug_context) (env : notify_env) (errs : List device_error) :
    hotplug_outcome :=
  match device with
  | none =>
    { ret := 0, g := { g with hotplug := ctx }, errs := errs, callback_handle := none,
      invoked := [] }
  | some device =>
    let d := dispatch env.user device hotplug_event ctx.hotplug_cbs []
    let ctx : hid_hotplug_context := { ctx with hotplug_cbs := d.1 }
    let c := hid_internal_hotplug_cleanup ctx env.cleanup errs
    { ret := 0, g := { g with hotplug := c.1 }, errs := c.2, callback_handle := none,
      invoked := d.2 }

/-- The function `hid_internal_notify_callback`. -/
def hid_internal_notify_callback (g : globals) (action : Nat)
    (event_data : Option notify_event_data) (env : notify_env)
    (errs : List device_error) : hotplug_outcome :=
  match event_data with
  | none => { ret := 0, g := g, errs := errs, callback_handle := none, invoked := [] }
  | some event_data =>
    if event_data.FilterType ≠ CM_NOTIFY_FILTER_TYPE_DEVICEINTERFACE then
      { ret := 0, g := g, errs := errs, callback_handle := none, invoked := [] }
    else
      let found := notify_locate g.hotplug action env
      notify_dispatch g found.1 found.2.1 found.2.2 env errs

/-! ## Registry: operations and reachable states -/

/-- One operation on the registry, with its arguments, the answers of the
system and the error list of the thread that makes it. -/
inductive registry_op where
  | register (vendor_id product_id : Nat) (events flags : Int) (callback user_data : Nat)
      (callback_handle : Option Int) (env : register_env) (errs : List device_error)
  | deregister (callback_handle : Int) (env : cleanup_env) (errs : List device_error)
  | notify (action : Nat) (event_data : Option notify_event_data) (env : notify_env)
      (errs : List device_error)
  | exit (env : cleanup_env) (errs : List device_error)

/-- The globals after one operation. The operation `exit` is `hid_exit`,
which clears `hidapi_initialized` and calls `hid_internal_hotplug_exit`. -/
def registry_step (g : globals) : registry_op → globals
  | registry_op.register vendor_id product_id events flags callback user_data
      callback_handle env errs =>
    (hid_hotplug_register_callback g vendor_id product_id events flags callback user_data
      callback_handle env errs).g
  | registry_op.deregister callback_handle env errs =>
    (hid_hotplug_deregister_callback g callback_handle env errs).g
  | registry_op.notify action event_data env errs =>
    (hid_internal_notify_callback g action event_data env errs).g
  | registry_op.exit env errs =>
    { hidapi_initialized := false,
      hotplug := (hid_internal_hotplug_exit g.hotplug env errs).1 }

/-- The globals after a sequence of operations. -/
def registry_run (ops : List registry_op) (g : globals) : globals :=
  ops.foldl registry_step g

/-- The states that a sequence of operations reaches from the initial
globals. -/
def registry_reachable (g : globals) : Prop :=
  ∃ ops, registry_run ops globals_init = g

/-- The handles of the registered callbacks, in list order. -/
def handles (g : globals) : List Int :=
  g.hotplug.hotplug_cbs.map fun c => c.handle

/-! ## Registry: sample values -/

/-- A device record: vendor `0x1234`, product `0x5678`. -/
def sample_info_a : hid_device_info :=
  { path := some "hid#vid_1234&pid_5678#a", vendor_id := 0x1234, product_id := 0x5678,
    serial_number := some "A1", release_number := 1, manufacturer_string := some "",
    product_string := some "", usage_page := 1, usage := 6, interface_number := 0,
    bus_type := 1 }

/-- A device record: vendor `0x1111`, product `0x2222`. -/
def sample_info_b : hid_device_info :=
  { path := some "hid#vid_1111&pid_2222#b", vendor_id := 0x1111, product_id := 0x2222,
    serial_number := some "B1", release_number := 1, manufacturer_string := some "",
    product_string := some "", usage_page := 1, usage := 2, interface_number := 0,
    bus_type := 1 }

/-- The answers for a device interface that opens and describes itself as the
given record. -/
def sample_interface (d : hid_device_info) : interface_answer :=
  { open_ok := true, attributes := some (d.vendor_id, d.product_id),
    info := { calloc_ok := true, attributes := some (d.vendor_id, d.product_id),
              described := d } }

/-- An initialisation in which the library functions are found. -/
def sample_init_env : init_env :=
  { lookup_functions_ok := true, last_error := 0, msg := sample_msg }

/-- An enumeration that finds the two sample devices. -/
def sample_enumerate_env : enumerate_env :=
  { init := sample_init_env,
    list := interface_list_answer.ok [sample_interface sample_info_a,
      sample_interface sample_info_b] }

/-- An enumeration that finds no device. -/
def sample_enumerate_none : enumerate_env :=
  { init := sample_init_env, list := interface_list_answer.ok [] }

/-- User callbacks that always return 0. -/
def sample_user : user_code := fun _ _ => 0

/-- A registration in which every step succeeds; the subscription handle
stored is 77. -/
def sample_register_env : register_env :=
  { calloc_ok := true, enumerate := sample_enumerate_env,
    CM_Register_Notification := some 77, user := sample_user }

/-- A registration in which `CM_Register_Notification` fails. -/
def sample_register_failed : register_env :=
  { calloc_ok := true, enumerate := sample_enumerate_env,
    CM_Register_Notification := none, user := sample_user }

/-- A cleanup in which `CM_Unregister_Notification` fails. -/
def sample_cleanup_failed : cleanup_env := { unregister_ok := false }

/-- The globals after one successful registration, from the initial state, of
the callback at address 500 for both events and every device. -/
def sample_globals_one : globals :=
  (hid_hotplug_register_callback globals_init 0 0 3 0 500 9 (some 0)
    sample_register_env []).g

/-! ## Error registry: writes of one thread -/

/-- The key under which the registry files a session: its device handle, or
`NULL` for the global key. -/
def key_handle (dev : Option hid_device) : Nat :=
  match dev with
  | some d => d.device_handle
  | none => 0

/-- One write to the error registry: a call of `register_string_error` or of
`register_winapi_error` with its arguments. -/
inductive error_write where
  | string (dev : Option hid_device) (string_error : Option String)
  | winapi (dev : Option hid_device) (op : Option String) (last_error : Nat) (m : msg_env)

/-- The key that a write addresses. -/
def error_write.key : error_write → Nat
  | error_write.string dev _ => key_handle dev
  | error_write.winapi dev _ _ _ => key_handle dev

/-- The thread's list after one write. -/
def apply_error_write (errs : List device_error) : error_write → List device_error
  | error_write.string dev string_error => register_string_error dev string_error errs
  | error_write.winapi dev op last_error m => register_winapi_error dev op last_error m errs

/-- The thread's list after a sequence of writes, the list being empty when
the thread starts. -/
def error_writes (writes : List error_write) : List device_error :=
  writes.foldl apply_error_write []

/-- The arguments pass the parameter check of
`hid_hotplug_register_callback`. -/
def valid_registration (events flags : Int) (callback : Nat) : Prop :=
  ¬ (events = 0
      ∨ int_and events (int_not (int_or HID_API_HOTPLUG_EVENT_DEVICE_ARRIVED
          HID_API_HOTPLUG_EVENT_DEVICE_LEFT)) ≠ 0
      ∨ int_and flags (int_not HID_API_HOTPLUG_ENUMERATE) ≠ 0
      ∨ callback = 0)

/-- What holds of the globals in every reachable state: callbacks are
registered only while the critical section is ready, every registered handle
is at least 1, and the counter lies between 1 and `INT_MAX`. -/
def registry_inv (g : globals) : Prop :=
  (g.hotplug.hotplug_cbs ≠ [] → g.hotplug.critical_section_ready = true) ∧
  (∀ c ∈ g.hotplug.hotplug_cbs, 1 ≤ c.handle) ∧
  1 ≤ g.hotplug.next_handle ∧ g.hotplug.next_handle ≤ INT_MAX

/-- The counter after `next_handle++` and the overflow test that follows. -/
def next_handle_after (n : Int) : Int :=
  if int_wrap (n + 1) < 0 then 1 else int_wrap (n + 1)

/-- The operation is a registration that passes the parameter check and the
allocation of its node, and so is given a handle. -/
def issues_handle : registry_op → Prop
  | registry_op.register _ _ events flags callback _ _ env _ =>
    valid_registration events flags callback ∧ env.calloc_ok = true
  | _ => False

/-- The operation that produced `sample_globals_one`. -/
def sample_register_op : registry_op :=
  registry_op.register 0 0 3 0 500 9 (some 0) sample_register_env []

/-- The globals after a first registration in which
`CM_Register_Notification` fails. -/
def sample_globals_failed : globals :=
  registry_step globals_init
    (registry_op.register 0x1234 0 1 1 500 9 (some 0) sample_register_failed [])

/-- A registration in which every step succeeds and the enumeration finds no
device. -/
def sample_register_quiet : register_env :=
  { calloc_ok := true, enumerate := sample_enumerate_none,
    CM_Register_Notification := some 77, user := sample_user }

/-- The registration of a second callback, at address 501. -/
def wrap_register : registry_op :=
  registry_op.register 0 0 3 0 501 9 none sample_register_quiet []

/-- The callback is one that a notification about `device` with the event
`hotplug_event` concerns: its event mask contains the event and its
vendor/product filter matches the device. -/
def callback_matches (device : hid_device_info) (hotplug_event : Int)
    (c : hid_hotplug_callback) : Bool :=
  decide (int_and c.events hotplug_event ≠ 0) &&
  hid_internal_match_device_id device.vendor_id device.product_id c.vendor_id c.product_id

/-- The call of the callback `c` for `device` and `hotplug_event`. -/
def call_of (device : hid_device_info) (hotplug_event : Int)
    (c : hid_hotplug_callback) : invocation :=
  { callback := c.callback, handle := c.handle, device := device, event := hotplug_event,
    user_data := c.user_data }

/-- The value that the call of `c` returns during a dispatch in which the
callbacks `front` stand in front of `c` in the callback list: the calls made
before it are those of the matching callbacks of `front`. -/
def returned (user : user_code) (device : hid_device_info) (hotplug_event : Int)
    (front : List hid_hotplug_callback) (c : hid_hotplug_callback) : Int :=
  user ((front.filter (callback_matches device hotplug_event)).map
    (call_of device hotplug_event)) (call_of device hotplug_event c)

/-- The callback list after a dispatch as the spec words it: the list before
minus the callbacks that were invoked and returned a value other than 0, the
others in their order. `front` holds the callbacks already passed. -/
def callbacks_after (user : user_code) (device : hid_device_info) (hotplug_event : Int) :
    List hid_hotplug_callback → List hid_hotplug_callback → List hid_hotplug_callback
  | _, [] => []
  | front, c :: rest =>
    if callback_matches device hotplug_event c = true ∧
        returned user device hotplug_event front c ≠ 0 then
      callbacks_after user device hotplug_event (front ++ [c]) rest
    else c :: callbacks_after user device hotplug_event (front ++ [c]) rest

/-- User callbacks that always return 1. -/
def sample_user_leave : user_code := fun _ _ => 1

/-- A removal notification for the first sample device, its path written in
upper case; every callback called returns 1. -/
def sample_notify_removal : notify_env :=
  { open_ok := true,
    info := { calloc_ok := true, attributes := none, described := sample_info_a },
    path := some "HID#VID_1234&PID_5678#A",
    cleanup := { unregister_ok := true }, user := sample_user_leave }

/-- The event data of a device interface notification. -/
def sample_event_data : notify_event_data :=
  { FilterType := 0, SymbolicLink := "HID#VID_1234&PID_5678#A" }

/-- The globals after two successful registrations: the callback at address
500 and the callback at address 501, both for both events and every device. -/
def sample_globals_two : globals :=
  registry_run [sample_register_op, wrap_register] globals_init

/-- User callbacks of which the first one called returns 1 and the later
ones return 0. -/
def sample_user_first : user_code := fun made _ => if made = [] then 1 else 0

/-- The removal notification `sample_notify_removal` with the callbacks of
`sample_user_first`. -/
def sample_notify_first : notify_env :=
  { sample_notify_removal with user := sample_user_first }

/-- A read environment: `ReadFile` fails at once with
`ERROR_DEVICE_NOT_CONNECTED` (1167). -/
def sample_read_gone : read_env :=
  { ReadFile := none, ReadFile_err := 1167, Wait_res := 0, Overlapped := none,
    Overlapped_err := 0, msg := sample_msg }

/-! ## Enumeration: what the spec says -/

/-- The device interfaces that the retrieval loop of `hid_enumerate` hands to
the `for` loop: those of the round that ends with `CR_SUCCESS`, none when the
retrieval fails. -/
def interfaces_of : interface_list_answer → List interface_answer
  | interface_list_answer.size_failed => []
  | interface_list_answer.calloc_failed => []
  | interface_list_answer.list_failed => []
  | interface_list_answer.buffer_small next => interfaces_of next
  | interface_list_answer.ok interfaces => interfaces

/-- The device behind the interface can be opened and tells its identifiers,
and these pass the filter. -/
def interface_matches (vendor_id product_id : Nat) (i : interface_answer) : Bool :=
  i.open_ok &&
  match i.attributes with
  | some attrib => hid_internal_match_device_id attrib.1 attrib.2 vendor_id product_id
  | none => false

/-- The device behind the interface can be opened and tells its identifiers. -/
def interface_openable (i : interface_answer) : Bool :=
  i.open_ok && i.attributes.isSome

/-- An enumeration that finds the two sample devices after one round that
ends with `CR_BUFFER_SMALL`. -/
def sample_enumerate_retry : enumerate_env :=
  { init := sample_init_env,
    list := interface_list_answer.buffer_small
      (interface_list_answer.ok [sample_interface sample_info_a,
        sample_interface sample_info_b]) }

/-- The registration `sample_register_env` with callbacks that always return
1. -/
def sample_register_leave : register_env :=
  { sample_register_env with user := sample_user_leave }

/-! ## Opening a device -/

/-- The error records of one thread. -/
structure thread_errors where
  /-- The records that the thread local pointer `device_error` leads to, in
  list order; `[]` is `NULL`. The pointer is assigned in `get_device_error`
  only, when the first record is created. -/
  device_error : List device_error
  /-- Whether these records have been handed to `free`. -/
  freed : Bool
deriving DecidableEq, Repr

/-- One node of the list `tls_context.allocated`. The member `data` holds the
pointer `device_error` of the thread that registered the node, whose id is
`thread_id`, and the destructor is `free_error_buffer`. -/
structure tls_allocation where
  thread_id : Nat
deriving DecidableEq, Repr

/-- The global `tls_context` without its critical section object. -/
structure tls_context where
  allocated : List tls_allocation
  critical_section_ready : Bool
deriving DecidableEq, Repr

/-- The state of the process: the globals of the registry, the global
`tls_context` and the error records of every thread, by thread id. -/
structure process where
  g : globals
  tls : tls_context
  threads : Nat → thread_errors

/-- The records of one thread replaced. -/
def set_thread (threads : Nat → thread_errors) (thread_id : Nat) (t : thread_errors) :
    Nat → thread_errors :=
  fun i => if i = thread_id then t else threads i

/-- The process when it starts: the static initialisers, and no record on any
thread. -/
def process_start : process :=
  { g := globals_init,
    tls := { allocated := [], critical_section_ready := false },
    threads := fun _ => { device_error := [], freed := false } }

/-- The function `tls_init_context`. -/
def tls_init_context (tls : tls_context) : tls_context :=
  if !tls.critical_section_ready then { tls with critical_section_ready := true } else tls

/-- The call `DllMain(instance, DLL_PROCESS_ATTACH, reserved)`, which the
loader makes when the library is a DLL. -/
def DllMain_attach (p : process) : process :=
  { p with tls := tls_init_context p.tls }

/-- The function `tls_register`, called by the thread `thread_id`. -/
def tls_register (tls : tls_context) (thread_id : Nat) : tls_context :=
  if !tls.critical_section_ready then tls
  else { tls with allocated := tls.allocated ++ [{ thread_id := thread_id }] }

/-- The function `free_error_buffer` with `all_devices` set, called as the
destructor of a node of `tls_context.allocated`: every record of the list is
freed. The assignment `*error = NULL` clears the member `data` of the node;
the thread local pointer `device_error` is left as it is. -/
def free_error_buffer (t : thread_errors) : thread_errors :=
  { t with freed := true }

/-- The loop of `tls_free(thread_id, NULL, TRUE)`: the nodes that stay in
`tls_context.allocated` and the records of the threads. A node visited has
its member `data` cleared by the destructor and is unlinked. -/
def tls_free_loop (thread_id : Nat) :
    List tls_allocation → (Nat → thread_errors) → List tls_allocation × (Nat → thread_errors)
  | [], threads => ([], threads)
  | current :: rest, threads =>
    if thread_id ≠ 0 ∧ thread_id ≠ current.thread_id then
      let r := tls_free_loop thread_id rest threads
      (current :: r.1, r.2)
    else
      tls_free_loop thread_id rest
        (set_thread threads current.thread_id (free_error_buffer (threads current.thread_id)))

/-- The function `tls_free` with the arguments `dev = NULL` and
`all_devices = TRUE`. -/
def tls_free (thread_id : Nat) (tls : tls_context) (threads : Nat → thread_errors) :
    tls_context × (Nat → thread_errors) :=
  if !tls.critical_section_ready then (tls, threads)
  else
    let r := tls_free_loop thread_id tls.allocated threads
    ({ tls with allocated := r.1 }, r.2)

/-- A write to the error registry by the thread `thread_id`:
`get_device_error` registers the list with `tls_register` when it creates the
first record of the thread. The content of records that were freed is taken as
`free` left it. -/
def thread_write (p : process) (thread_id : Nat) (w : error_write) : process :=
  { p with
    tls := if (p.threads thread_id).device_error = [] then tls_register p.tls thread_id
           else p.tls,
    threads := set_thread p.threads thread_id
      { p.threads thread_id with
        device_error := apply_error_write (p.threads thread_id).device_error w } }

/-- The function `hid_error` called by the thread `thread_id`. The result is
`none`, not defined, when `find_device_error` reads a record that was
freed. -/
def thread_hid_error (p : process) (thread_id : Nat) (dev : Option hid_device) :
    Option String :=
  if (p.threads thread_id).device_error ≠ [] ∧ (p.threads thread_id).freed = true then none
  else some (hid_error dev (p.threads thread_id).device_error)

/-- The function `hid_error_code` called by the thread `thread_id`, `none`
as for `thread_hid_error`. -/
def thread_hid_error_code (p : process) (thread_id : Nat) (dev : Option hid_device) :
    Option Int :=
  if (p.threads thread_id).device_error ≠ [] ∧ (p.threads thread_id).freed = true then none
  else some (hid_error_code dev (p.threads thread_id).device_error)

/-- The function `hid_exit`, called by the thread `thread_id`: the return
value and the process afterwards. The list of the calling thread is registered
when `hid_internal_hotplug_exit` creates its first record. -/
def hid_exit (p : process) (thread_id : Nat) (env : cleanup_env) : Int × process :=
  let t := p.threads thread_id
  let x := hid_internal_hotplug_exit p.g.hotplug env t.device_error
  let tls := if t.device_error = [] ∧ x.2 ≠ [] then tls_register p.tls thread_id else p.tls
  let threads := set_thread p.threads thread_id { t with device_error := x.2 }
  let f := tls_free 0 tls threads
  (0, { g := { hidapi_initialized := false, hotplug := x.1 }, tls := f.1, threads := f.2 })

/-- What holds of the registry while its critical section is not ready:
nothing is registered, cached or subscribed. -/
def registry_idle (g : globals) : Prop :=
  g.hotplug.critical_section_ready = false →
    g.hotplug.hotplug_cbs = [] ∧ g.hotplug.devs = [] ∧ g.hotplug.notify_handle = 0

/-- The writes of two threads before the teardown: thread 1 records the global
error of an enumeration that found nothing, thread 2 records an error of the
sample session. -/
def sample_thread_writes (p : process) : process :=
  thread_write
    (thread_write p 1
      (error_write.string none
        (some "No HID devices with requested VID/PID found in the system.")))
    2 (error_write.string (some sample_dev) (some "Zero buffer/length"))

/-- The process, the library linked statically (`DllMain` is not called),
after the two sample writes and a `hid_exit` by thread 1. -/
def sample_exit_static : process :=
  (hid_exit (sample_thread_writes process_start) 1 { unregister_ok := true }).2

/-- The process, the library loaded as a DLL, after the two sample writes and
a `hid_exit` by thread 1. -/
def sample_exit_dll : process :=
  (hid_exit (sample_thread_writes (DllMain_attach process_start)) 1
    { unregister_ok := true }).2

/-- The removal notification `sample_notify_removal` with callbacks that
always return 0. -/
def sample_notify_stay : notify_env :=
  { sample_notify_removal with user := sample_user }

/-! ## Message buffer not allocated: sample values -/

/-- A message environment in which the `calloc` of the message buffer returns
`NULL`. -/
def sample_msg_nomem : msg_env :=
  { sample_msg with calloc_ok := false }

/-- The read environment `sample_read_gone` with the message buffer not
allocated. -/
def sample_read_gone_nomem : read_env :=
  { sample_read_gone with msg := sample_msg_nomem }

/-- An enumeration of one interface whose identifiers are read by
`hid_enumerate` (`0x1234`, `0x5678`) but not by the second
`HidD_GetAttributes` call, made for the record. -/
def sample_enumerate_flaky : enumerate_env :=
  { init := sample_init_env,
    list := interface_list_answer.ok
      [{ open_ok := true, attributes := some (0x1234, 0x5678),
         info := { calloc_ok := true, attributes := none, described := sample_info_a } }] }

/-- After a write through `get_device_error` that keeps the key of the node,
`find_device_error` returns the written node: the image of the node found
before, or of the fresh node when there was none. -/
theorem find_after_update (dev : Option hid_device) (f : device_error → device_error)
    (hf : ∀ e, (f e).device_handle = e.device_handle) (errs : List device_error) :
    find_device_error dev
        (update_node f (get_device_error dev errs).1 (get_device_error dev errs).2)
      = some (f ((find_device_error dev errs).getD (new_device_error dev))) := by
  induction errs with
  | nil =>
    simp only [get_device_error, update_node, find_device_error, Option.getD_none]
    rw [if_pos]
    cases dev <;> simp [device_error_matches, hf, new_device_error]
  | cons c rest ih =>
    by_cases h : device_error_matches dev c = true
    · have h2 : device_error_matches dev (f c) = true := by
        cases dev <;> simp_all [device_error_matches]
      simp [get_device_error, h, update_node, find_device_error, h2]
    · simp [get_device_error, h, update_node, find_device_error, ih]

/-- The node found after `register_string_error`. -/
theorem find_register_string (dev : Option hid_device) (m : Option String)
    (errs : List device_error) :
    find_device_error dev (register_string_error dev m errs)
      = some (register_string_error_to_device
          ((find_device_error dev errs).getD (new_device_error dev)) m) := by
  unfold register_string_error
  exact find_after_update dev _ (fun e => by cases m <;> rfl) errs

/-- The node found after `register_winapi_error`. -/
theorem find_register_winapi (dev : Option hid_device) (op : Option String) (code : Nat)
    (m : msg_env) (errs : List device_error) :
    find_device_error dev (register_winapi_error dev op code m errs)
      = some (register_winapi_error_to_device
          ((find_device_error dev errs).getD (new_device_error dev)) op code m) := by
  unfold register_winapi_error
  refine find_after_update dev _ (fun e => ?_) errs
  unfold register_winapi_error_to_device
  cases op with
  | none => rfl
  | some o => dsimp only; split_ifs <;> rfl

/-- Two sessions with the same device handle are the same key. -/
theorem find_same_handle (d1 d2 : hid_device) (h : d1.device_handle = d2.device_handle)
    (errs : List device_error) :
    find_device_error (some d1) errs = find_device_error (some d2) errs := by
  induction errs with
  | nil => rfl
  | cons c rest ih => simp [find_device_error, device_error_matches, h, ih]

/-- The message read for a session depends on its device handle only. -/
theorem hid_error_same_handle (d1 d2 : hid_device)
    (h : d1.device_handle = d2.device_handle) (errs : List device_error) :
    hid_error (some d1) errs = hid_error (some d2) errs := by
  simp only [hid_error, find_same_handle d1 d2 h]

/-- The code read for a session depends on its device handle only. -/
theorem hid_error_code_same_handle (d1 d2 : hid_device)
    (h : d1.device_handle = d2.device_handle) (errs : List device_error) :
    hid_error_code (some d1) errs = hid_error_code (some d2) errs := by
  simp only [hid_error_code, find_same_handle d1 d2 h]

/-- After `register_string_error(key, NULL)` the key reads as no error. -/
theorem hid_error_cleared (dev : Option hid_device) (errs : List device_error) :
    hid_error dev (register_string_error dev none errs) = "Success" ∧
    hid_error_code dev (register_string_error dev none errs) = 0 := by
  simp [hid_error, hid_error_code, find_register_string, register_string_error_to_device,
    EC_SUCCESS]

/-- The trimming loop stops at the latest at a first character that is neither
a carriage return, a line feed nor a blank. -/
theorem trim_message_cons (c : Char) (l : List Char)
    (hc : (c == Char.ofNat 13 || c == Char.ofNat 10 || c == Char.ofNat 32) = false) :
    trim_message (c :: l) = c :: trim_message l := by
  have key : ∀ xs : List Char,
      (xs ++ [c]).dropWhile
          (fun c => c == Char.ofNat 13 || c == Char.ofNat 10 || c == Char.ofNat 32)
        = xs.dropWhile
          (fun c => c == Char.ofNat 13 || c == Char.ofNat 10 || c == Char.ofNat 32) ++ [c] := by
    intro xs
    induction xs with
    | nil => simp [List.dropWhile, hc]
    | cons x xs ih =>
      simp only [List.cons_append, List.dropWhile]
      split
      · exact ih
      · rfl
  unfold trim_message
  rw [List.reverse_cons, key, List.reverse_append]
  rfl

/-- A message built by `register_winapi_error_to_device`, its buffer being
allocated, is never the text "Success" when the operation name starts with a
character other than `S` that the trimming loop keeps. -/
theorem winapi_message_ne_success (e : device_error) (o : String) (c : Char)
    (rest : List Char) (code : Nat) (m : msg_env)
    (ho : o.data = c :: rest) (hS : c ≠ 'S')
    (hc : (c == Char.ofNat 13 || c == Char.ofNat 10 || c == Char.ofNat 32) = false)
    (halloc : m.calloc_ok = true) :
    ∃ s, (register_winapi_error_to_device e (some o) code m).last_error_str = some s ∧
      s ≠ "Success" := by
  unfold register_winapi_error_to_device
  by_cases hp : m.swprintf_ok = true
  · refine ⟨_, by simp only [halloc, hp, Bool.not_true, Bool.false_eq_true, if_false]; rfl, ?_⟩
    rw [ho]
    simp only [List.cons_append, trim_message_cons c _ hc]
    intro h
    have h2 := congrArg String.data h
    have h3 : c = 'S' := by
      have h4 := congrArg List.head? h2
      simpa using h4
    exact hS h3
  · have hp2 : m.swprintf_ok = false := by simpa using hp
    exact ⟨"", by simp [halloc, hp2], by decide⟩

/-- After `register_winapi_error` for an operation as in
`winapi_message_ne_success`, the key does not read "Success". -/
theorem hid_error_winapi_ne_success (dev : Option hid_device) (o : String) (c : Char)
    (rest : List Char) (code : Nat) (m : msg_env) (errs : List device_error)
    (ho : o.data = c :: rest) (hS : c ≠ 'S')
    (hc : (c == Char.ofNat 13 || c == Char.ofNat 10 || c == Char.ofNat 32) = false)
    (halloc : m.calloc_ok = true) :
    hid_error dev (register_winapi_error dev (some o) code m errs) ≠ "Success" := by
  obtain ⟨s, hs, hne⟩ := winapi_message_ne_success
    ((find_device_error dev errs).getD (new_device_error dev)) o c rest code m ho hS hc halloc
  simp only [hid_error, find_register_winapi, hs]
  exact hne

/-- After `register_winapi_error` for an operation the key's code is the last
error, converted to `int`. -/
theorem hid_error_code_winapi (dev : Option hid_device) (o : String) (code : Nat)
    (m : msg_env) (errs : List device_error) :
    hid_error_code dev (register_winapi_error dev (some o) code m errs)
      = to_int (DWORD code) := by
  simp only [hid_error_code, find_register_winapi]
  unfold register_winapi_error_to_device
  dsimp only
  split_ifs <;> rfl

/-- After `register_winapi_error` whose message buffer is not allocated the
key reads "Success". -/
theorem hid_error_winapi_nomem (dev : Option hid_device) (o : String) (code : Nat)
    (m : msg_env) (errs : List device_error) (halloc : m.calloc_ok = false) :
    hid_error dev (register_winapi_error dev (some o) code m errs) = "Success" := by
  simp only [hid_error, find_register_winapi]
  unfold register_winapi_error_to_device
  simp [halloc]

/-- Whatever the system answers, the trace of `hid_write_transfer` holds one
`WriteFile`, for the first `(DWORD) length` bytes of `buf`. -/
theorem written_transfer (dev : hid_device) (data buf : List Nat) (length : Nat)
    (env : write_env) (errs : List device_error) :
    written (hid_write_transfer dev data buf length env errs).calls
      = [(buf.take (DWORD length), DWORD length)] := by
  unfold hid_write_transfer
  cases env.WriteFile_res <;> simp [written]
  split_ifs <;> simp

/-- The staging buffer after `memcpy` and `memset`, cut to the report length:
the payload followed by zero bytes. -/
theorem staged_take (b data : List Nat) (length n : Nat) (hbuf : length ≤ data.length)
    (hlt : length < n) :
    (memset (memcpy b data length) length 0 (n - length)).take n
      = data.take length ++ List.replicate (n - length) 0 := by
  have h1 : (data.take length).length = length := by simp [hbuf]
  have h2 : (memcpy b data length).take length = data.take length := by
    unfold memcpy
    rw [List.take_append_of_le_length (by omega)]
    rw [List.take_of_length_le (by omega)]
  unfold memset
  rw [h2, List.append_assoc, List.take_append_eq_append_take,
    List.take_of_length_le (by omega), h1, List.take_append_eq_append_take]
  simp

/-- C1: for a non-empty payload shorter than `output_report_length`, the one
buffer that `hid_write` hands to `WriteFile` is the payload followed by
`output_report_length - length` zero bytes, `output_report_length` bytes in
all (no write is made when the staging buffer cannot be allocated); for a
payload of at least `output_report_length` bytes the caller's bytes are handed
over unchanged with the caller's length. -/
theorem hid_write_hands_padded (dev : hid_device) (data : List Nat) (length : Nat)
    (env : write_env) (errs : List device_error)
    (hpos : 0 < length) (hbuf : length ≤ data.length)
    (hushort : dev.output_report_length < 2 ^ 16) :
    (length < dev.output_report_length → (dev.write_buf ≠ none ∨ env.malloc ≠ none) →
      written (hid_write dev (some data) length env errs).calls
          = [(data.take length ++ List.replicate (dev.output_report_length - length) 0,
              dev.output_report_length)] ∧
      (data.take length ++ List.replicate (dev.output_report_length - length) 0).length
          = dev.output_report_length) ∧
    (length < dev.output_report_length → dev.write_buf = none → env.malloc = none →
      (hid_write dev (some data) length env errs).calls = []) ∧
    (dev.output_report_length ≤ length → length < 2 ^ 32 →
      written (hid_write dev (some data) length env errs).calls
          = [(data.take length, length)]) := by
  have hne : length ≠ 0 := by omega
  refine ⟨fun hlt hstage => ⟨?_, ?_⟩, fun hlt hw hm => ?_, fun hge h32 => ?_⟩
  · have hd : DWORD dev.output_report_length = dev.output_report_length := by
      unfold DWORD; omega
    have hnot : ¬ length ≥ dev.output_report_length := by omega
    cases hwb : dev.write_buf with
    | some b =>
      simp only [hid_write, hne, if_false, hnot, hwb, written_transfer, hd, staged_take _ _ _ _ hbuf hlt]
    | none =>
      cases hm : env.malloc with
      | none => simp [hwb, hm] at hstage
      | some b =>
        simp only [hid_write, hne, if_false, hnot, hwb, hm, written_transfer, hd, staged_take _ _ _ _ hbuf hlt]
  · simp [hbuf]; omega
  · have hnot : ¬ length ≥ dev.output_report_length := by omega
    simp [hid_write, hne, hnot, hw, hm]
  · have hd : DWORD length = length := by unfold DWORD; omega
    have hge2 : length ≥ dev.output_report_length := hge
    simp only [hid_write, hne, if_false, hge2, if_true, written_transfer, hd]

/-- Witness of C1: a 3 byte payload on a device with 8 byte output reports. -/
theorem hid_write_hands_padded_witness :
    (0 < 3 ∧ 3 ≤ [1, 2, 3].length ∧ sample_dev.output_report_length < 2 ^ 16) ∧
    written (hid_write sample_dev (some [1, 2, 3]) 3 sample_write_env []).calls
      = [([1, 2, 3, 0, 0, 0, 0, 0], 8)] :=
  ⟨by decide,
   ((hid_write_hands_padded sample_dev [1, 2, 3] 3 sample_write_env []
      (by decide) (by decide) (by decide)).1 (by decide) (by decide)).1⟩

/-- C2, as stated, fails: `hid_write` of 3 bytes on a device with 8 byte
output reports, the system reporting the 8 transmitted bytes as written,
returns 8 and not 3. -/
theorem hid_write_returns_eight :
    (hid_write sample_dev (some [1, 2, 3]) 3 sample_write_env []).ret = 8 ∧
    (hid_write sample_dev (some [1, 2, 3]) 3 sample_write_env []).ret ≠ 3 := by
  decide

/-- C2, amended: a successful `hid_write` of a non-empty payload shorter than
`output_report_length` returns the byte count that the system reports as
written for the padded buffer (a count that fits an `int`), whether the
write finished at once or after the wait. -/
theorem hid_write_returns_bytes_written (dev : hid_device) (data : List Nat) (length : Nat)
    (env : write_env) (errs : List device_error) (w : Nat)
    (hpos : 0 < length) (hlt : length < dev.output_report_length)
    (hstage : dev.write_buf ≠ none ∨ env.malloc ≠ none)
    (hok : write_succeeds env w) (hfit : w < 2 ^ 31) :
    (hid_write dev (some data) length env errs).ret = (w : Int) := by
  have hne : length ≠ 0 := by omega
  have hnot : ¬ length ≥ dev.output_report_length := by omega
  have hw : to_int w = (w : Int) := by
    unfold to_int
    have : w % 2 ^ 32 = w := by omega
    rw [this, if_pos hfit]
  have key : ∀ d buf n e, (hid_write_transfer d data buf n env e).ret = (w : Int) := by
    intro d buf n e
    unfold hid_write_transfer
    rcases hok with ⟨h1, h2⟩ | ⟨h1, h2, h3, h4, h5⟩
    · simp [h1, h2, hw]
    · simp [h1, h2, h3, h4, h5, hw]
  cases hwb : dev.write_buf with
  | some b => simp only [hid_write, hne, if_false, hnot, hwb, key]
  | none =>
    cases hm : env.malloc with
    | none => simp [hwb, hm] at hstage
    | some b => simp only [hid_write, hne, if_false, hnot, hwb, hm, key]

/-- Witness of the amended C2. -/
theorem hid_write_returns_bytes_written_witness :
    (0 < 3 ∧ 3 < sample_dev.output_report_length ∧
      (sample_dev.write_buf ≠ none ∨ sample_write_env.malloc ≠ none) ∧
      write_succeeds sample_write_env 8 ∧ 8 < 2 ^ 31) ∧
    (hid_write sample_dev (some [1, 2, 3]) 3 sample_write_env []).ret = 8 :=
  ⟨⟨by decide, by decide, Or.inr (by decide), Or.inl ⟨rfl, rfl⟩, by decide⟩,
   hid_write_returns_bytes_written sample_dev [1, 2, 3] 3 sample_write_env [] 8
     (by decide) (by decide) (Or.inr (by decide)) (Or.inl ⟨rfl, rfl⟩) (by decide)⟩

/-- The conversion to `int` keeps a value below `2^31`. -/
theorem to_int_small (n : Nat) (h : n < 2 ^ 31) : to_int n = (n : Int) := by
  unfold to_int
  have : n % 2 ^ 32 = n := by omega
  rw [this, if_pos h]

/-- What `hid_read_copy` returns and delivers for a successful read that
transferred `raw`, with at least one byte, to the start of the read buffer. -/
theorem hid_read_copy_ok (dev : hid_device) (data raw rest : List Nat) (L : Nat)
    (env : read_env) (errs : List device_error) (calls : List os_call)
    (hbuf : dev.read_buf = raw ++ rest) (hn : 1 ≤ raw.length) :
    (raw.head? = some 0 →
      (hid_read_copy dev data L true raw.length env errs calls).ret
          = to_int (min L (raw.length - 1)) ∧
      (hid_read_copy dev data L true raw.length env errs calls).data
          = some ((raw.drop 1).take (min L (raw.length - 1))
              ++ data.drop (min L (raw.length - 1)))) ∧
    (raw.head? ≠ some 0 →
      (hid_read_copy dev data L true raw.length env errs calls).ret
          = to_int (min L raw.length) ∧
      (hid_read_copy dev data L true raw.length env errs calls).data
          = some (raw.take (min L raw.length) ++ data.drop (min L raw.length))) := by
  obtain ⟨a, t, rfl⟩ : ∃ a t, raw = a :: t := by
    cases raw with
    | nil => simp at hn
    | cons a t => exact ⟨a, t, rfl⟩
  have hpos : (a :: t).length > 0 := by simp
  constructor
  · intro h0
    have ha : a = 0 := by simpa using h0
    subst ha
    have hmin : (if L > (0 :: t).length - 1 then (0 :: t).length - 1 else L)
        = min L ((0 :: t).length - 1) := by
      rw [Nat.min_def]; split_ifs <;> omega
    simp only [hid_read_copy, hbuf, hpos, decide_True, Bool.and_self, if_true,
      List.cons_append, List.head?_cons, hmin, Bool.not_true, Bool.false_eq_true, if_false,
      memcpy, List.drop_succ_cons, List.drop_zero]
    refine ⟨trivial, ?_⟩
    have : min L ((0 :: t).length - 1) ≤ t.length := by simp
    rw [List.take_append_of_le_length this]
  · intro h0
    have ha : ¬ a = 0 := by simpa using h0
    have hmin : (if L > (a :: t).length then (a :: t).length else L)
        = min L (a :: t).length := by
      rw [Nat.min_def]; split_ifs <;> omega
    have hh : ¬ ((a :: t ++ rest).head? = some 0) := by simpa using ha
    simp only [hid_read_copy, hbuf, hpos, decide_True, Bool.and_self, if_true, hh, if_false,
      hmin, Bool.not_true, Bool.false_eq_true, memcpy]
    refine ⟨trivial, ?_⟩
    have : min L (a :: t).length ≤ (a :: t).length := Nat.min_le_right _ _
    rw [List.take_append_of_le_length this]

/-- The bytes of a finished transfer are at the start of the read buffer. -/
theorem memcpy_all (buf raw : List Nat) :
    memcpy buf raw raw.length = raw ++ buf.drop raw.length := by
  simp [memcpy]

/-- C3: a `hid_read_timeout` that ends successfully in the call with
`n = raw.length ≥ 1` bytes transferred (a count that fits an `int`) and a
caller length `L ≥ 1`. If the first raw byte is 0 the caller's buffer starts
with the raw bytes `1 .. min(L, n-1)` and the call returns `min(L, n-1)`;
otherwise it starts with the raw bytes `0 .. min(L, n)-1` and the call returns
`min(L, n)`. The caller's bytes behind the copy are untouched. -/
theorem hid_read_timeout_delivers (dev : hid_device) (data : List Nat) (L : Nat)
    (milliseconds : Int) (env : read_env) (errs : List device_error) (raw : List Nat)
    (hL : 1 ≤ L) (hdone : read_completes dev env raw)
    (hn : 1 ≤ raw.length) (hfit : raw.length < 2 ^ 31) :
    (raw.head? = some 0 →
      (hid_read_timeout dev (some data) L milliseconds env errs).ret
          = ((min L (raw.length - 1) : Nat) : Int) ∧
      (hid_read_timeout dev (some data) L milliseconds env errs).data
          = some ((raw.drop 1).take (min L (raw.length - 1))
              ++ data.drop (min L (raw.length - 1)))) ∧
    (raw.head? ≠ some 0 →
      (hid_read_timeout dev (some data) L milliseconds env errs).ret
          = ((min L raw.length : Nat) : Int) ∧
      (hid_read_timeout dev (some data) L milliseconds env errs).data
          = some (raw.take (min L raw.length) ++ data.drop (min L raw.length))) := by
  have hne : L ≠ 0 := by omega
  have h1 : to_int (min L (raw.length - 1)) = ((min L (raw.length - 1) : Nat) : Int) :=
    to_int_small _ (by have := Nat.min_le_right L (raw.length - 1); omega)
  have h2 : to_int (min L raw.length) = ((min L raw.length : Nat) : Int) :=
    to_int_small _ (by have := Nat.min_le_right L raw.length; omega)
  rw [← h1, ← h2]
  rcases hdone with ⟨hp, hr⟩ | ⟨hw, hs, ho⟩
  · simp only [hid_read_timeout, hne, if_false, hp, Bool.not_false, if_true, hr]
    exact hid_read_copy_ok _ data raw _ L env _ _ (memcpy_all _ _) hn
  · by_cases hp : dev.read_pending = true
    · simp only [hid_read_timeout, hne, if_false, hp, Bool.not_true, Bool.false_eq_true,
        hid_read_wait, hs, bne_self_eq_false, ho]
      exact hid_read_copy_ok _ data raw _ L env _ _ (memcpy_all _ _) hn
    · have hp2 : dev.read_pending = false := by simpa using hp
      rcases hw with hw | ⟨hr, he⟩
      · exact absurd hw hp
      · simp only [hid_read_timeout, hne, if_false, hp2, Bool.not_false, if_true, hr, he,
          bne_self_eq_false, Bool.false_eq_true, hid_read_wait, hs, ho]
        exact hid_read_copy_ok _ data raw _ L env _ _ (memcpy_all _ _) hn

/-- Witness of C3: a 4 byte report `0 5 6 7` read into a 2 byte buffer. -/
theorem hid_read_timeout_delivers_witness :
    (1 ≤ 2 ∧ read_completes sample_dev sample_read_done [0, 5, 6, 7] ∧
      1 ≤ [0, 5, 6, 7].length ∧ [0, 5, 6, 7].length < 2 ^ 31) ∧
    (hid_read_timeout sample_dev (some [1, 1]) 2 0 sample_read_done []).ret = 2 ∧
    (hid_read_timeout sample_dev (some [1, 1]) 2 0 sample_read_done []).data = some [5, 6] :=
  ⟨⟨by decide, Or.inl ⟨rfl, rfl⟩, by decide, by decide⟩,
   (hid_read_timeout_delivers sample_dev [1, 1] 2 0 sample_read_done [] [0, 5, 6, 7]
      (by decide) (Or.inl ⟨rfl, rfl⟩) (by decide) (by decide)).1 rfl⟩

/-- A call with a valid buffer that reaches the wait, the wait not being
signalled: it returns 0 with `read_pending` set, the device handle kept, no
`CancelIo` made and the error list as `register_string_error(dev, NULL)` left
it. -/
theorem hid_read_timeout_unsignalled (dev : hid_device) (data : List Nat) (length : Nat)
    (milliseconds : Int) (env : read_env) (errs : List device_error)
    (hpos : 0 < length) (hwait : read_waits dev env)
    (htimeout : env.Wait_res ≠ WAIT_OBJECT_0) :
    (hid_read_timeout dev (some data) length milliseconds env errs).ret = 0 ∧
    (hid_read_timeout dev (some data) length milliseconds env errs).dev.read_pending = true ∧
    (∀ h, os_call.CancelIo h ∉
      (hid_read_timeout dev (some data) length milliseconds env errs).calls) ∧
    (hid_read_timeout dev (some data) length milliseconds env errs).dev.device_handle
      = dev.device_handle ∧
    (hid_read_timeout dev (some data) length milliseconds env errs).errs
      = register_string_error (some dev) none errs := by
  have hne : length ≠ 0 := by omega
  have hw : (env.Wait_res != WAIT_OBJECT_0) = true := by simpa using htimeout
  by_cases hp : dev.read_pending = true
  · simp only [hid_read_timeout, hne, if_false, hp, Bool.not_true, Bool.false_eq_true,
      hid_read_wait, hw, if_true]
    exact ⟨trivial, trivial, by simp, trivial, trivial⟩
  · have hp2 : dev.read_pending = false := by simpa using hp
    rcases hwait with h | ⟨hr, he⟩
    · exact absurd h hp
    · simp only [hid_read_timeout, hne, if_false, hp2, Bool.not_false, if_true, hr, he,
        bne_self_eq_false, Bool.false_eq_true, hid_read_wait, hw]
      exact ⟨trivial, trivial, by simp, trivial, trivial⟩

/-- C4: for a non-empty caller buffer, when the call reaches the wait and the
wait is not signalled within the timeout, `hid_read_timeout` returns 0, leaves
`read_pending` set, does not call `CancelIo`, and the session's error record
reads as no error: `hid_error` is "Success" and `hid_error_code` is 0. -/
theorem hid_read_timeout_no_data (dev : hid_device) (data : List Nat) (length : Nat)
    (milliseconds : Int) (env : read_env) (errs : List device_error)
    (hpos : 0 < length) (hwait : read_waits dev env)
    (htimeout : env.Wait_res ≠ WAIT_OBJECT_0) :
    (hid_read_timeout dev (some data) length milliseconds env errs).ret = 0 ∧
    (hid_read_timeout dev (some data) length milliseconds env errs).dev.read_pending = true ∧
    (∀ h, os_call.CancelIo h ∉
      (hid_read_timeout dev (some data) length milliseconds env errs).calls) ∧
    hid_error (some (hid_read_timeout dev (some data) length milliseconds env errs).dev)
      (hid_read_timeout dev (some data) length milliseconds env errs).errs = "Success" ∧
    hid_error_code (some (hid_read_timeout dev (some data) length milliseconds env errs).dev)
      (hid_read_timeout dev (some data) length milliseconds env errs).errs = 0 := by
  obtain ⟨h1, h2, h3, h4, h5⟩ :=
    hid_read_timeout_unsignalled dev data length milliseconds env errs hpos hwait htimeout
  have hc := hid_error_cleared (some dev) errs
  refine ⟨h1, h2, h3, ?_, ?_⟩
  · rw [hid_error_same_handle _ dev h4, h5]; exact hc.1
  · rw [hid_error_code_same_handle _ dev h4, h5]; exact hc.2

/-- Witness of C4: a fresh read goes asynchronous and the wait times out. -/
theorem hid_read_timeout_no_data_witness :
    (0 < 2 ∧ read_waits sample_dev sample_read_env ∧
      sample_read_env.Wait_res ≠ WAIT_OBJECT_0) ∧
    (hid_read_timeout sample_dev (some [1, 1]) 2 0 sample_read_env []).ret = 0 ∧
    (hid_read_timeout sample_dev (some [1, 1]) 2 0 sample_read_env []).dev.read_pending
      = true :=
  ⟨⟨by decide, Or.inr ⟨rfl, rfl⟩, by decide⟩,
   (hid_read_timeout_no_data sample_dev [1, 1] 2 0 sample_read_env []
      (by decide) (Or.inr ⟨rfl, rfl⟩) (by decide)).1,
   (hid_read_timeout_no_data sample_dev [1, 1] 2 0 sample_read_env []
      (by decide) (Or.inr ⟨rfl, rfl⟩) (by decide)).2.1⟩

/-- The trace of `hid_read_copy` is the trace it is given. -/
theorem hid_read_copy_calls (dev : hid_device) (data : List Nat) (L : Nat) (res : Bool)
    (n : Nat) (env : read_env) (errs : List device_error) (calls : List os_call) :
    (hid_read_copy dev data L res n env errs calls).calls = calls := rfl

/-- The read buffer is not written by `hid_read_copy`. -/
theorem hid_read_copy_read_buf (dev : hid_device) (data : List Nat) (L : Nat) (res : Bool)
    (n : Nat) (env : read_env) (errs : List device_error) (calls : List os_call) :
    (hid_read_copy dev data L res n env errs calls).dev.read_buf = dev.read_buf := rfl

/-- C5: one read in flight per session. A `hid_read_timeout` call made while
`read_pending` is set issues no `ReadFile`; every call it makes is the wait on
the session's read event or the `GetOverlappedResult` of the pending
operation; the read buffer is not cleared: it is unchanged, or holds in front
the bytes that the pending operation transferred. A `ReadFile` is issued only
by a call that starts with `read_pending` clear, such a call with a valid
buffer issues exactly one, and no call issues more than one. -/
theorem hid_read_timeout_one_in_flight (dev : hid_device) (data : Option (List Nat))
    (length : Nat) (milliseconds : Int) (env : read_env) (errs : List device_error) :
    (dev.read_pending = true →
      reads_issued (hid_read_timeout dev data length milliseconds env errs).calls = 0 ∧
      (∀ c ∈ (hid_read_timeout dev data length milliseconds env errs).calls,
        (∃ t, c = os_call.WaitForSingleObject dev.ol_hEvent t) ∨
        c = os_call.GetOverlappedResult dev.device_handle false) ∧
      ((hid_read_timeout dev data length milliseconds env errs).dev.read_buf = dev.read_buf ∨
        ∃ raw, env.Wait_res = WAIT_OBJECT_0 ∧ env.Overlapped = some raw ∧
          (hid_read_timeout dev data length milliseconds env errs).dev.read_buf
            = memcpy dev.read_buf raw raw.length)) ∧
    (0 < reads_issued (hid_read_timeout dev data length milliseconds env errs).calls →
      dev.read_pending = false) ∧
    (dev.read_pending = false → data ≠ none → 0 < length →
      reads_issued (hid_read_timeout dev data length milliseconds env errs).calls = 1) ∧
    reads_issued (hid_read_timeout dev data length milliseconds env errs).calls ≤ 1 := by
  have hpend : dev.read_pending = true →
      reads_issued (hid_read_timeout dev data length milliseconds env errs).calls = 0 ∧
      (∀ c ∈ (hid_read_timeout dev data length milliseconds env errs).calls,
        (∃ t, c = os_call.WaitForSingleObject dev.ol_hEvent t) ∨
        c = os_call.GetOverlappedResult dev.device_handle false) ∧
      ((hid_read_timeout dev data length milliseconds env errs).dev.read_buf = dev.read_buf ∨
        ∃ raw, env.Wait_res = WAIT_OBJECT_0 ∧ env.Overlapped = some raw ∧
          (hid_read_timeout dev data length milliseconds env errs).dev.read_buf
            = memcpy dev.read_buf raw raw.length) := by
    intro hp
    cases data with
    | none => simp [hid_read_timeout, zero_buffer, reads_issued]
    | some bytes =>
      by_cases hl : length = 0
      · simp [hid_read_timeout, hl, zero_buffer, reads_issued]
      · by_cases hw : env.Wait_res = WAIT_OBJECT_0
        · cases ho : env.Overlapped with
          | none =>
            simp [hid_read_timeout, hl, hp, hid_read_wait, hw, ho, hid_read_copy_calls,
              hid_read_copy_read_buf, reads_issued]
          | some raw =>
            simp [hid_read_timeout, hl, hp, hid_read_wait, hw, ho, hid_read_copy_calls,
              hid_read_copy_read_buf, reads_issued]
        · have hw2 : (env.Wait_res != WAIT_OBJECT_0) = true := by simpa using hw
          simp [hid_read_timeout, hl, hp, hid_read_wait, hw2, reads_issued]
  have hfresh : dev.read_pending = false → data ≠ none → 0 < length →
      reads_issued (hid_read_timeout dev data length milliseconds env errs).calls = 1 := by
    intro hp hd hpos
    have hl : length ≠ 0 := by omega
    cases data with
    | none => exact absurd rfl hd
    | some bytes =>
      cases hr : env.ReadFile with
      | some raw =>
        simp [hid_read_timeout, hl, hp, hr, hid_read_copy_calls, reads_issued]
      | none =>
        by_cases he : env.ReadFile_err = ERROR_IO_PENDING
        · by_cases hw : env.Wait_res = WAIT_OBJECT_0
          · cases ho : env.Overlapped <;>
              simp [hid_read_timeout, hl, hp, hr, he, hid_read_wait, hw, ho,
                hid_read_copy_calls, reads_issued]
          · have hw2 : (env.Wait_res != WAIT_OBJECT_0) = true := by simpa using hw
            simp [hid_read_timeout, hl, hp, hr, he, hid_read_wait, hw2, reads_issued]
        · have he2 : (env.ReadFile_err != ERROR_IO_PENDING) = true := by simpa using he
          simp [hid_read_timeout, hl, hp, hr, he2, reads_issued]
  have hle : reads_issued (hid_read_timeout dev data length milliseconds env errs).calls ≤ 1 := by
    by_cases hp : dev.read_pending = true
    · rw [(hpend hp).1]; omega
    · have hp2 : dev.read_pending = false := by simpa using hp
      cases data with
      | none => simp [hid_read_timeout, zero_buffer, reads_issued]
      | some bytes =>
        by_cases hl : length = 0
        · simp [hid_read_timeout, hl, zero_buffer, reads_issued]
        · rw [hfresh hp2 (by simp) (by omega)]
  refine ⟨hpend, fun hpos => ?_, hfresh, hle⟩
  by_cases hp : dev.read_pending = true
  · rw [(hpend hp).1] at hpos; omega
  · simpa using hp

/-- Witness of C5: a call on a session with a pending read, the wait timing
out, makes the wait and nothing else and leaves the read buffer as it was. -/
theorem hid_read_timeout_one_in_flight_witness :
    sample_dev_pending.read_pending = true ∧
    reads_issued
      (hid_read_timeout sample_dev_pending (some [1, 1]) 2 0 sample_read_env []).calls = 0 ∧
    (hid_read_timeout sample_dev_pending (some [1, 1]) 2 0 sample_read_env []).calls
      = [os_call.WaitForSingleObject 11 0] :=
  ⟨rfl,
   ((hid_read_timeout_one_in_flight sample_dev_pending (some [1, 1]) 2 0 sample_read_env []).1
      rfl).1,
   by decide⟩

/-- The conversion to `int` of a `DWORD` value is 0 for the value 0 only. -/
theorem to_int_eq_zero (n : Nat) (h : n < 2 ^ 32) (h0 : to_int n = 0) : n = 0 := by
  unfold to_int at h0
  have hm : n % 2 ^ 32 = n := by omega
  rw [hm] at h0
  split_ifs at h0 <;> omega

/-- A successful `hid_read_copy` returns 0 only when nothing is left to
deliver: no byte was transferred, or only a byte 0. -/
theorem hid_read_copy_zero (dev : hid_device) (data raw rest : List Nat) (L : Nat)
    (env : read_env) (errs : List device_error) (calls : List os_call)
    (hbuf : dev.read_buf = raw ++ rest) (hL : 0 < L) (hfit : raw.length < 2 ^ 32)
    (h0 : (hid_read_copy dev data L true raw.length env errs calls).ret = 0) :
    raw = [] ∨ raw = [0] := by
  cases raw with
  | nil => exact Or.inl rfl
  | cons a t =>
    right
    have hn : 1 ≤ (a :: t).length := by simp
    have hok := hid_read_copy_ok dev data (a :: t) rest L env errs calls hbuf hn
    by_cases ha : a = 0
    · subst ha
      have h := (hok.1 rfl).1
      rw [h] at h0
      have hlt : min L ((0 :: t).length - 1) < 2 ^ 32 := by
        have := Nat.min_le_right L ((0 :: t).length - 1)
        simp only [List.length_cons] at hfit this ⊢
        omega
      have hz := to_int_eq_zero _ hlt h0
      have ht : t.length = 0 := by
        simp only [List.length_cons, Nat.add_sub_cancel] at hz
        by_cases hc : L ≤ t.length
        · rw [Nat.min_eq_left hc] at hz; omega
        · rw [Nat.min_eq_right (by omega)] at hz; exact hz
      have : t = [] := List.length_eq_zero.mp ht
      rw [this]
    · have h := (hok.2 (by simpa using ha)).1
      rw [h] at h0
      have hlt : min L (a :: t).length < 2 ^ 32 := by
        have := Nat.min_le_right L (a :: t).length
        omega
      have hz := to_int_eq_zero _ hlt h0
      simp only [List.length_cons] at hz
      by_cases hc : L ≤ t.length + 1
      · rw [Nat.min_eq_left hc] at hz; omega
      · rw [Nat.min_eq_right (by omega)] at hz; omega

/-- A failed `hid_read_copy` returns -1. -/
theorem hid_read_copy_failed (dev : hid_device) (data : List Nat) (L n : Nat)
    (env : read_env) (errs : List device_error) (calls : List os_call) :
    (hid_read_copy dev data L false n env errs calls).ret = -1 := by
  simp [hid_read_copy]

/-- Every call with a valid buffer ends in one of three ways: the read
completes, the wait is not signalled, or the read fails. -/
theorem read_trichotomy (dev : hid_device) (env : read_env) :
    (∃ raw, read_completes dev env raw) ∨
    (read_waits dev env ∧ env.Wait_res ≠ WAIT_OBJECT_0) ∨
    read_fails dev env := by
  unfold read_completes read_fails read_waits
  by_cases hp : dev.read_pending = true
  · by_cases hw : env.Wait_res = WAIT_OBJECT_0
    · cases ho : env.Overlapped with
      | none => exact Or.inr (Or.inr (Or.inr ⟨Or.inl hp, hw, rfl⟩))
      | some raw => exact Or.inl ⟨raw, Or.inr ⟨Or.inl hp, hw, rfl⟩⟩
    · exact Or.inr (Or.inl ⟨Or.inl hp, hw⟩)
  · have hp2 : dev.read_pending = false := by simpa using hp
    cases hr : env.ReadFile with
    | some raw => exact Or.inl ⟨raw, Or.inl ⟨hp2, rfl⟩⟩
    | none =>
      by_cases he : env.ReadFile_err = ERROR_IO_PENDING
      · by_cases hw : env.Wait_res = WAIT_OBJECT_0
        · cases ho : env.Overlapped with
          | none => exact Or.inr (Or.inr (Or.inr ⟨Or.inr ⟨rfl, he⟩, hw, rfl⟩))
          | some raw => exact Or.inl ⟨raw, Or.inr ⟨Or.inr ⟨rfl, he⟩, hw, rfl⟩⟩
        · exact Or.inr (Or.inl ⟨Or.inr ⟨rfl, he⟩, hw⟩)
      · exact Or.inr (Or.inr (Or.inl ⟨hp2, rfl, he⟩))

/-- A read that fails in the call makes `hid_read_timeout` return -1. -/
theorem hid_read_timeout_failed (dev : hid_device) (data : List Nat) (L : Nat)
    (milliseconds : Int) (env : read_env) (errs : List device_error)
    (hL : 0 < L) (hfail : read_fails dev env) :
    (hid_read_timeout dev (some data) L milliseconds env errs).ret = -1 := by
  have hne : L ≠ 0 := by omega
  rcases hfail with ⟨hp, hr, he⟩ | ⟨hw, hs, ho⟩
  · have he2 : (env.ReadFile_err != ERROR_IO_PENDING) = true := by simpa using he
    simp [hid_read_timeout, hne, hp, hr, he2]
  · by_cases hp : dev.read_pending = true
    · simp only [hid_read_timeout, hne, if_false, hp, Bool.not_true, Bool.false_eq_true,
        hid_read_wait, hs, bne_self_eq_false, ho, hid_read_copy_failed]
    · have hp2 : dev.read_pending = false := by simpa using hp
      rcases hw with hw | ⟨hr, he⟩
      · exact absurd hw hp
      · simp only [hid_read_timeout, hne, if_false, hp2, Bool.not_false, if_true, hr, he,
          bne_self_eq_false, Bool.false_eq_true, hid_read_wait, hs, ho, hid_read_copy_failed]

/-- A read that completes in the call makes `hid_read_timeout` return 0 only
when it transferred no byte or only a byte 0. -/
theorem hid_read_timeout_completed_zero (dev : hid_device) (data : List Nat) (L : Nat)
    (milliseconds : Int) (env : read_env) (errs : List device_error) (raw : List Nat)
    (hL : 0 < L) (hdone : read_completes dev env raw) (hfit : raw.length < 2 ^ 32)
    (h0 : (hid_read_timeout dev (some data) L milliseconds env errs).ret = 0) :
    raw = [] ∨ raw = [0] := by
  have hne : L ≠ 0 := by omega
  rcases hdone with ⟨hp, hr⟩ | ⟨hw, hs, ho⟩
  · simp only [hid_read_timeout, hne, if_false, hp, Bool.not_false, if_true, hr] at h0
    exact hid_read_copy_zero _ data raw _ L env _ _ (memcpy_all _ _) hL hfit h0
  · by_cases hp : dev.read_pending = true
    · simp only [hid_read_timeout, hne, if_false, hp, Bool.not_true, Bool.false_eq_true,
        hid_read_wait, hs, bne_self_eq_false, ho] at h0
      exact hid_read_copy_zero _ data raw _ L env _ _ (memcpy_all _ _) hL hfit h0
    · have hp2 : dev.read_pending = false := by simpa using hp
      rcases hw with hw | ⟨hr, he⟩
      · exact absurd hw hp
      · simp only [hid_read_timeout, hne, if_false, hp2, Bool.not_false, if_true, hr, he,
          bne_self_eq_false, Bool.false_eq_true, hid_read_wait, hs, ho] at h0
        exact hid_read_copy_zero _ data raw _ L env _ _ (memcpy_all _ _) hL hfit h0

/-- C6, as stated, fails. A read that completes at once without a byte (a
device without input reports) makes `hid_read_timeout` return 0 although the
call never waited and no read is pending afterwards; and a wait that fails
(`WAIT_FAILED`), which is a failure of the system and not a timeout, returns 0
as well. -/
theorem hid_read_timeout_zero_without_timeout :
    (read_completes sample_dev_no_input sample_read_empty [] ∧
      (hid_read_timeout sample_dev_no_input (some [1, 1]) 2 0 sample_read_empty []).ret = 0 ∧
      (hid_read_timeout sample_dev_no_input (some [1, 1]) 2 0 sample_read_empty []).calls
        = [os_call.ResetEvent 11, os_call.ReadFile 7 0] ∧
      (hid_read_timeout sample_dev_no_input (some [1, 1]) 2 0
        sample_read_empty []).dev.read_pending = false) ∧
    (sample_read_wait_failed.Wait_res = 0xFFFFFFFF ∧
      (hid_read_timeout sample_dev (some [1, 1]) 2 0 sample_read_wait_failed []).ret = 0) := by
  refine ⟨⟨Or.inl ⟨rfl, rfl⟩, ?_, ?_, ?_⟩, rfl, ?_⟩ <;> decide

/-- C6, amended: for a non-empty caller buffer (byte counts being `DWORD`
values), `hid_read_timeout` returns 0 only when the wait was not signalled,
the read still pending, or when a read completed successfully with nothing to
deliver: it transferred no byte, or only the byte 0 that is stripped. Every
failure of `ReadFile` or of `GetOverlappedResult` returns -1, so no failed
read returns 0. -/
theorem hid_read_timeout_zero_cases (dev : hid_device) (data : List Nat) (L : Nat)
    (milliseconds : Int) (env : read_env) (errs : List device_error)
    (hL : 0 < L) (hcount : ∀ raw, read_completes dev env raw → raw.length < 2 ^ 32) :
    ((hid_read_timeout dev (some data) L milliseconds env errs).ret = 0 →
      (read_waits dev env ∧ env.Wait_res ≠ WAIT_OBJECT_0 ∧
        (hid_read_timeout dev (some data) L milliseconds env errs).dev.read_pending = true) ∨
      (∃ raw, read_completes dev env raw ∧ (raw = [] ∨ raw = [0]))) ∧
    (read_fails dev env →
      (hid_read_timeout dev (some data) L milliseconds env errs).ret = -1) := by
  refine ⟨fun h0 => ?_, hid_read_timeout_failed dev data L milliseconds env errs hL⟩
  rcases read_trichotomy dev env with ⟨raw, hdone⟩ | ⟨hw, ht⟩ | hfail
  · exact Or.inr ⟨raw, hdone,
      hid_read_timeout_completed_zero dev data L milliseconds env errs raw hL hdone
        (hcount raw hdone) h0⟩
  · exact Or.inl ⟨hw, ht,
      (hid_read_timeout_unsignalled dev data L milliseconds env errs hL hw ht).2.1⟩
  · rw [hid_read_timeout_failed dev data L milliseconds env errs hL hfail] at h0
    exact absurd h0 (by decide)

/-- Witness of the amended C6: the read that completes without a byte. -/
theorem hid_read_timeout_zero_cases_witness :
    0 < 2 ∧
    ((read_waits sample_dev_no_input sample_read_empty ∧
        sample_read_empty.Wait_res ≠ WAIT_OBJECT_0 ∧
        (hid_read_timeout sample_dev_no_input (some [1, 1]) 2 0
          sample_read_empty []).dev.read_pending = true) ∨
      (∃ raw, read_completes sample_dev_no_input sample_read_empty raw ∧
        (raw = [] ∨ raw = [0]))) :=
  ⟨by decide,
   (hid_read_timeout_zero_cases sample_dev_no_input [1, 1] 2 0 sample_read_empty []
      (by decide)
      (by
        intro raw h
        rcases h with ⟨_, hr⟩ | ⟨_, _, ho⟩
        · have : raw = [] := by
            have h2 : some ([] : List Nat) = some raw := hr
            exact (Option.some.inj h2).symm
          rw [this]; decide
        · exact absurd ho (by simp [sample_read_empty]))).1 (by decide)⟩

/-- The result of a successful `hid_get_report`: the caller's buffer holds in
front what the exchange stored, and the return value is the byte count `r`
that the system reports, plus one when the first byte of that buffer is 0. -/
theorem hid_get_report_ok (dev : hid_device) (report_type : Nat) (data : List Nat)
    (length : Nat) (env : report_env) (errs : List device_error)
    (hpos : 0 < length)
    (hio : env.DeviceIoControl_res = true ∨ env.DeviceIoControl_err = ERROR_IO_PENDING)
    (hok : env.Overlapped_res = true) (hfit : env.bytes_returned + 1 < 2 ^ 31) :
    (hid_get_report dev report_type (some data) length env errs).data
      = some (memcpy data env.transferred env.transferred.length) ∧
    ((memcpy data env.transferred env.transferred.length).head? = some 0 →
      (hid_get_report dev report_type (some data) length env errs).ret
        = (env.bytes_returned : Int) + 1) ∧
    ((memcpy data env.transferred env.transferred.length).head? ≠ some 0 →
      (hid_get_report dev report_type (some data) length env errs).ret
        = (env.bytes_returned : Int)) := by
  have hne : length ≠ 0 := by omega
  have hgo : (!env.DeviceIoControl_res && env.DeviceIoControl_err != ERROR_IO_PENDING)
      = false := by
    rcases hio with h | h <;> simp [h]
  have hd : DWORD env.bytes_returned = env.bytes_returned := by unfold DWORD; omega
  have hd1 : DWORD (env.bytes_returned + 1) = env.bytes_returned + 1 := by unfold DWORD; omega
  have h1 : to_int (env.bytes_returned + 1) = (env.bytes_returned : Int) + 1 := by
    rw [to_int_small _ hfit]; push_cast; rfl
  have h2 : to_int env.bytes_returned = (env.bytes_returned : Int) :=
    to_int_small _ (by omega)
  simp only [hid_get_report, hne, if_false, hgo, Bool.false_eq_true, hok, Bool.not_true, hd]
  refine ⟨trivial, fun h => ?_, fun h => ?_⟩
  · rw [if_pos h, hd1, h1]
  · rw [if_neg h, h2]

/-- C9: a `hid_get_feature_report` or `hid_get_input_report` that succeeds
(`DeviceIoControl` returns `TRUE` or goes pending, `GetOverlappedResult`
returns `TRUE`), the system reporting `r` bytes returned with `r + 1`
fitting an `int`: the result is `r + 1` when the first byte of the caller's
buffer after the exchange is 0, and `r` otherwise. -/
theorem hid_get_report_adjusts_length (dev : hid_device) (data : List Nat)
    (length : Nat) (env : report_env) (errs : List device_error)
    (hpos : 0 < length)
    (hio : env.DeviceIoControl_res = true ∨ env.DeviceIoControl_err = ERROR_IO_PENDING)
    (hok : env.Overlapped_res = true) (hfit : env.bytes_returned + 1 < 2 ^ 31) :
    ((hid_get_feature_report dev (some data) length env errs).data
        = some (memcpy data env.transferred env.transferred.length) ∧
      ((memcpy data env.transferred env.transferred.length).head? = some 0 →
        (hid_get_feature_report dev (some data) length env errs).ret
          = (env.bytes_returned : Int) + 1) ∧
      ((memcpy data env.transferred env.transferred.length).head? ≠ some 0 →
        (hid_get_feature_report dev (some data) length env errs).ret
          = (env.bytes_returned : Int))) ∧
    ((hid_get_input_report dev (some data) length env errs).data
        = some (memcpy data env.transferred env.transferred.length) ∧
      ((memcpy data env.transferred env.transferred.length).head? = some 0 →
        (hid_get_input_report dev (some data) length env errs).ret
          = (env.bytes_returned : Int) + 1) ∧
      ((memcpy data env.transferred env.transferred.length).head? ≠ some 0 →
        (hid_get_input_report dev (some data) length env errs).ret
          = (env.bytes_returned : Int))) :=
  ⟨hid_get_report_ok dev IOCTL_HID_GET_FEATURE data length env errs hpos hio hok hfit,
   hid_get_report_ok dev IOCTL_HID_GET_INPUT_REPORT data length env errs hpos hio hok hfit⟩

/-- Witness of C9: the device stores `0 5 6`, the system reports 2 bytes, the
call returns 3. -/
theorem hid_get_report_adjusts_length_witness :
    (0 < 4 ∧
      (sample_report_env.DeviceIoControl_res = true ∨
        sample_report_env.DeviceIoControl_err = ERROR_IO_PENDING) ∧
      sample_report_env.Overlapped_res = true ∧
      sample_report_env.bytes_returned + 1 < 2 ^ 31) ∧
    (hid_get_feature_report sample_dev (some [0, 1, 1, 1]) 4 sample_report_env []).data
      = some [0, 5, 6, 1] ∧
    (hid_get_feature_report sample_dev (some [0, 1, 1, 1]) 4 sample_report_env []).ret = 3 :=
  ⟨⟨by decide, Or.inl rfl, rfl, by decide⟩,
   (hid_get_report_adjusts_length sample_dev [0, 1, 1, 1] 4 sample_report_env []
      (by decide) (Or.inl rfl) rfl (by decide)).1.1,
   (hid_get_report_adjusts_length sample_dev [0, 1, 1, 1] 4 sample_report_env []
      (by decide) (Or.inl rfl) rfl (by decide)).1.2.1 rfl⟩

/-! ## Error registry: keys never written -/

/-- A node belongs to a key exactly when its handle is the key's handle. -/
theorem device_error_matches_iff (dev : Option hid_device) (e : device_error) :
    device_error_matches dev e = true ↔ e.device_handle = key_handle dev := by
  cases dev with
  | none => simp [device_error_matches, key_handle]
  | some d =>
    simp only [device_error_matches, key_handle, beq_iff_eq]
    exact eq_comm

/-- No node with the key's handle in the list: the lookup finds nothing. -/
theorem find_device_error_none (dev : Option hid_device) (errs : List device_error)
    (h : ∀ e ∈ errs, e.device_handle ≠ key_handle dev) :
    find_device_error dev errs = none := by
  induction errs with
  | nil => rfl
  | cons c rest ih =>
    have hc : ¬ device_error_matches dev c = true := by
      rw [device_error_matches_iff]; exact h c (List.mem_cons_self _ _)
    simp only [find_device_error, hc, if_false]
    exact ih (fun e he => h e (List.mem_cons_of_mem _ he))

/-- The handles in the list after a write through `get_device_error`: those
that were there, and the handle of the key written. -/
theorem handle_after_update (dev : Option hid_device) (f : device_error → device_error)
    (hf : ∀ e, (f e).device_handle = e.device_handle) (errs : List device_error)
    (e : device_error)
    (he : e ∈ update_node f (get_device_error dev errs).1 (get_device_error dev errs).2) :
    (∃ e0 ∈ errs, e.device_handle = e0.device_handle) ∨ e.device_handle = key_handle dev := by
  induction errs with
  | nil =>
    simp only [get_device_error, update_node, List.mem_singleton] at he
    right
    rw [he, hf]
    cases dev <;> rfl
  | cons c rest ih =>
    by_cases hm : device_error_matches dev c = true
    · simp only [get_device_error, hm, if_true, update_node, List.mem_cons] at he
      rcases he with he | he
      · exact Or.inl ⟨c, List.mem_cons_self _ _, by rw [he, hf]⟩
      · exact Or.inl ⟨e, List.mem_cons_of_mem _ he, rfl⟩
    · simp only [get_device_error, hm, if_false, update_node, List.mem_cons] at he
      rcases he with he | he
      · exact Or.inl ⟨c, List.mem_cons_self _ _, by rw [he]⟩
      · rcases ih he with ⟨e0, h0, h1⟩ | h
        · exact Or.inl ⟨e0, List.mem_cons_of_mem _ h0, h1⟩
        · exact Or.inr h

/-- A write to another key leaves the list without a node for the key. -/
theorem apply_error_write_other (k : Nat) (errs : List device_error) (w : error_write)
    (hw : w.key ≠ k) (h : ∀ e ∈ errs, e.device_handle ≠ k) :
    ∀ e ∈ apply_error_write errs w, e.device_handle ≠ k := by
  intro e he
  cases w with
  | string dev m =>
    have := handle_after_update dev _ (fun e => by cases m <;> rfl) errs e he
    rcases this with ⟨e0, h0, h1⟩ | h1
    · rw [h1]; exact h e0 h0
    · rw [h1]; exact hw
  | winapi dev op code m =>
    have hf : ∀ e, (register_winapi_error_to_device e op code m).device_handle
        = e.device_handle := by
      intro e
      unfold register_winapi_error_to_device
      cases op with
      | none => rfl
      | some o => dsimp only; split_ifs <;> rfl
    have := handle_after_update dev _ hf errs e he
    rcases this with ⟨e0, h0, h1⟩ | h1
    · rw [h1]; exact h e0 h0
    · rw [h1]; exact hw

/-- A sequence of writes to other keys leaves the list without a node for the
key. -/
theorem error_writes_other (k : Nat) (writes : List error_write)
    (hw : ∀ w ∈ writes, w.key ≠ k) (errs : List device_error)
    (h : ∀ e ∈ errs, e.device_handle ≠ k) :
    ∀ e ∈ writes.foldl apply_error_write errs, e.device_handle ≠ k := by
  induction writes generalizing errs with
  | nil => exact h
  | cons w rest ih =>
    simp only [List.foldl_cons]
    exact ih (fun w' hw' => hw w' (List.mem_cons_of_mem _ hw')) _
      (apply_error_write_other k errs w (hw w (List.mem_cons_self _ _)) h)

/-- C11: for a key never written on the calling thread (every write of the
thread, from its start, addressed another key), `hid_error` returns "Success"
and `hid_error_code` returns 0, and the list holds no node for the key: the
lookup, made by `find_device_error`, finds none and creates none. -/
theorem hid_error_never_written (key : Option hid_device) (writes : List error_write)
    (hnever : ∀ w ∈ writes, w.key ≠ key_handle key) :
    hid_error key (error_writes writes) = "Success" ∧
    hid_error_code key (error_writes writes) = 0 ∧
    find_device_error key (error_writes writes) = none ∧
    ∀ e ∈ error_writes writes, e.device_handle ≠ key_handle key := by
  have hno := error_writes_other (key_handle key) writes hnever [] (by simp)
  have hfind := find_device_error_none key (error_writes writes) hno
  refine ⟨?_, ?_, hfind, hno⟩
  · simp [hid_error, hfind]
  · simp [hid_error_code, hfind, EC_SUCCESS]

/-- Witness of C11: the thread wrote the global key and the session with
handle 7; the session with handle 8 reads as no error. -/
theorem hid_error_never_written_witness :
    (∀ w ∈ [error_write.string none (some "x"),
        error_write.string (some sample_dev) (some "y")],
      w.key ≠ key_handle (some { sample_dev with device_handle := 8 })) ∧
    hid_error (some { sample_dev with device_handle := 8 })
      (error_writes [error_write.string none (some "x"),
        error_write.string (some sample_dev) (some "y")]) = "Success" :=
  ⟨by decide,
   (hid_error_never_written (some { sample_dev with device_handle := 8 })
      [error_write.string none (some "x"), error_write.string (some sample_dev) (some "y")]
      (by decide)).1⟩

/-! ## Hotplug registry: theorems -/

/-- C12: `hid_hotplug_register_callback` returns -1 whenever `events` is 0,
`events` has a bit outside the two events, `flags` has a bit outside
`HID_API_HOTPLUG_ENUMERATE`, or `callback` is null; the globals (callback
list, cached device list, subscription handle, `next_handle`) are unchanged,
no callback is called, and the error list and `*callback_handle` are
untouched. -/
theorem register_rejects_invalid (g : globals) (vendor_id product_id : Nat)
    (events flags : Int) (callback user_data : Nat) (callback_handle : Option Int)
    (env : register_env) (errs : List device_error)
    (hbad : events = 0
      ∨ int_and events (int_not (int_or HID_API_HOTPLUG_EVENT_DEVICE_ARRIVED
          HID_API_HOTPLUG_EVENT_DEVICE_LEFT)) ≠ 0
      ∨ int_and flags (int_not HID_API_HOTPLUG_ENUMERATE) ≠ 0
      ∨ callback = 0) :
    (hid_hotplug_register_callback g vendor_id product_id events flags callback user_data
      callback_handle env errs).ret = -1 ∧
    (hid_hotplug_register_callback g vendor_id product_id events flags callback user_data
      callback_handle env errs).g = g ∧
    (hid_hotplug_register_callback g vendor_id product_id events flags callback user_data
      callback_handle env errs).invoked = [] ∧
    (hid_hotplug_register_callback g vendor_id product_id events flags callback user_data
      callback_handle env errs).errs = errs ∧
    (hid_hotplug_register_callback g vendor_id product_id events flags callback user_data
      callback_handle env errs).callback_handle = callback_handle := by
  unfold hid_hotplug_register_callback
  rw [if_pos hbad]
  exact ⟨rfl, rfl, rfl, rfl, rfl⟩

/-- Witness of C12: the event mask 4 has a bit outside the two events. -/
theorem register_rejects_invalid_witness :
    ((4 : Int) = 0
      ∨ int_and 4 (int_not (int_or HID_API_HOTPLUG_EVENT_DEVICE_ARRIVED
          HID_API_HOTPLUG_EVENT_DEVICE_LEFT)) ≠ 0
      ∨ int_and 1 (int_not HID_API_HOTPLUG_ENUMERATE) ≠ 0
      ∨ (500 : Nat) = 0) ∧
    (hid_hotplug_register_callback sample_globals_one 0 0 4 1 500 9 (some 0)
      sample_register_env []).ret = -1 ∧
    (hid_hotplug_register_callback sample_globals_one 0 0 4 1 500 9 (some 0)
      sample_register_env []).g = sample_globals_one :=
  ⟨Or.inr (Or.inl (by decide)),
   (register_rejects_invalid sample_globals_one 0 0 4 1 500 9 (some 0) sample_register_env []
      (Or.inr (Or.inl (by decide)))).1,
   (register_rejects_invalid sample_globals_one 0 0 4 1 500 9 (some 0) sample_register_env []
      (Or.inr (Or.inl (by decide)))).2.1⟩

/-- C13, evaluated: the first registration, from the initial globals, in
which `CM_Register_Notification` fails. The call returns -1, the global error
is set and there is no subscription handle, as C13 says; but the new callback
stays in the callback list (with the handle 1 it was given), the list is not
empty. -/
theorem register_subscription_failure_keeps_node :
    (hid_hotplug_register_callback globals_init 0x1234 0 1 1 500 9 (some 0)
      sample_register_failed []).ret = -1 ∧
    hid_error none (hid_hotplug_register_callback globals_init 0x1234 0 1 1 500 9 (some 0)
      sample_register_failed []).errs
      = "hid_hotplug_register_callback/CM_Register_Notification" ∧
    (hid_hotplug_register_callback globals_init 0x1234 0 1 1 500 9 (some 0)
      sample_register_failed []).g.hotplug.notify_handle = 0 ∧
    (hid_hotplug_register_callback globals_init 0x1234 0 1 1 500 9 (some 0)
      sample_register_failed []).g.hotplug.hotplug_cbs
      = [{ handle := 1, vendor_id := 0x1234, product_id := 0, events := 1, user_data := 9,
           callback := 500 }] ∧
    (hid_hotplug_register_callback globals_init 0x1234 0 1 1 500 9 (some 0)
      sample_register_failed []).g.hotplug.hotplug_cbs ≠ [] := by
  decide

/-- C14, evaluated: one callback is registered, with handle 1. The handle 2
is held by no callback, yet `hid_hotplug_deregister_callback(2)` returns 0
and not -1; the globals are unchanged. With no callback registered the same
call returns -1. -/
theorem deregister_unknown_handle_returns_zero :
    handles sample_globals_one = [1] ∧
    (hid_hotplug_deregister_callback sample_globals_one 2 sample_cleanup_failed []).ret = 0 ∧
    (hid_hotplug_deregister_callback sample_globals_one 2 sample_cleanup_failed []).g
      = sample_globals_one ∧
    (hid_hotplug_deregister_callback
      { sample_globals_one with
        hotplug := { sample_globals_one.hotplug with hotplug_cbs := [] } }
      2 sample_cleanup_failed []).ret = -1 := by
  decide

/-! ## Hotplug registry: effect of the operations -/

/-- A value in the range of `int` is not changed by the wrap. -/
theorem int_wrap_small (z : Int) (h1 : -(2 ^ 31) ≤ z) (h2 : z < 2 ^ 31) : int_wrap z = z := by
  unfold int_wrap bits to_int
  have hnn : 0 ≤ z % 2 ^ 32 := Int.emod_nonneg _ (by norm_num)
  have hlt : z % 2 ^ 32 < 2 ^ 32 := Int.emod_lt_of_pos _ (by norm_num)
  have hcast : (((z % 2 ^ 32).toNat : Nat) : Int) = z % 2 ^ 32 := Int.toNat_of_nonneg hnn
  have hmod : (z % 2 ^ 32).toNat % 2 ^ 32 = (z % 2 ^ 32).toNat := by
    apply Nat.mod_eq_of_lt
    omega
  rw [hmod]
  split_ifs with h <;> omega

/-- The counter after a registration: one more, or 1 after `INT_MAX`. -/
theorem next_handle_after_eq (n : Int) (h1 : 1 ≤ n) (h2 : n ≤ INT_MAX) :
    next_handle_after n = if n = INT_MAX then 1 else n + 1 := by
  unfold INT_MAX at h2 ⊢
  unfold next_handle_after
  by_cases h : n = 2 ^ 31 - 1
  · subst h
    rw [if_pos rfl]
    decide
  · rw [if_neg h, int_wrap_small (n + 1) (by omega) (by omega), if_neg (by omega)]

/-- The cleanup leaves the callback list, the counter and the readiness flag
as they are. -/
theorem cleanup_keeps (ctx : hid_hotplug_context) (env : cleanup_env)
    (errs : List device_error) :
    (hid_internal_hotplug_cleanup ctx env errs).1.hotplug_cbs = ctx.hotplug_cbs ∧
    (hid_internal_hotplug_cleanup ctx env errs).1.next_handle = ctx.next_handle ∧
    (hid_internal_hotplug_cleanup ctx env errs).1.critical_section_ready
      = ctx.critical_section_ready := by
  unfold hid_internal_hotplug_cleanup
  by_cases h : ctx.hotplug_cbs ≠ []
  · rw [if_pos h]; exact ⟨rfl, rfl, rfl⟩
  · rw [if_neg h]
    by_cases hd : ctx.devs ≠ [] <;> simp [hd]

/-- The cleanup does nothing while a callback is registered. -/
theorem cleanup_nonempty (ctx : hid_hotplug_context) (env : cleanup_env)
    (errs : List device_error) (h : ctx.hotplug_cbs ≠ []) :
    hid_internal_hotplug_cleanup ctx env errs = (ctx, errs) := by
  unfold hid_internal_hotplug_cleanup
  rw [if_pos h]

/-- The cleanup with no callback registered: the cached device list is empty
and the subscription handle null afterwards, whatever
`CM_Unregister_Notification` returns. -/
theorem cleanup_empty (ctx : hid_hotplug_context) (env : cleanup_env)
    (errs : List device_error) (h : ctx.hotplug_cbs = []) :
    (hid_internal_hotplug_cleanup ctx env errs).1.devs = [] ∧
    (hid_internal_hotplug_cleanup ctx env errs).1.notify_handle = 0 := by
  unfold hid_internal_hotplug_cleanup
  rw [if_neg (by simp [h])]
  by_cases hd : ctx.devs = [] <;> simp [hd]

/-- Unlinking the first match leaves a sublist. -/
theorem unlink_first_sublist {α : Type} (p : α → Bool) (l : List α) :
    (unlink_first p l).Sublist l := by
  induction l with
  | nil => exact List.Sublist.refl _
  | cons x rest ih =>
    unfold unlink_first
    by_cases h : p x = true
    · rw [if_pos h]; exact List.sublist_cons_self _ _
    · rw [if_neg h]; exact List.Sublist.cons₂ _ ih

/-- Unlinking the first match: the list is split at the first element that
satisfies `p`, and that element is dropped. -/
theorem unlink_first_split {α : Type} (p : α → Bool) (l : List α)
    (h : ∃ x ∈ l, p x = true) :
    ∃ pre x post, l = pre ++ x :: post ∧ p x = true ∧ (∀ y ∈ pre, p y = false) ∧
      unlink_first p l = pre ++ post := by
  induction l with
  | nil => obtain ⟨x, hx, _⟩ := h; simp at hx
  | cons a rest ih =>
    by_cases ha : p a = true
    · exact ⟨[], a, rest, rfl, ha, by simp, by simp [unlink_first, ha]⟩
    · have h2 : ∃ x ∈ rest, p x = true := by
        obtain ⟨x, hx, hp⟩ := h
        rcases List.mem_cons.mp hx with rfl | hx
        · exact absurd hp ha
        · exact ⟨x, hx, hp⟩
      obtain ⟨pre, x, post, h1, h3, h4, h5⟩ := ih h2
      refine ⟨a :: pre, x, post, by rw [h1]; rfl, h3, ?_, by simp [unlink_first, ha, h5]⟩
      intro y hy
      rcases List.mem_cons.mp hy with rfl | hy
      · simpa using ha
      · exact h4 y hy

/-- The dispatch loop leaves a sublist of the callback list. -/
theorem dispatch_sublist (user : user_code) (device : hid_device_info) (ev : Int)
    (l : List hid_hotplug_callback) (made : List invocation) :
    (dispatch user device ev l made).1.Sublist l := by
  induction l generalizing made with
  | nil => exact List.Sublist.refl _
  | cons c rest ih =>
    unfold dispatch
    dsimp only
    split_ifs
    · exact List.Sublist.cons _ (ih _)
    · exact List.Sublist.cons₂ _ (ih _)
    · exact List.Sublist.cons₂ _ (ih _)

/-- A registration that does not pass the parameter check or the allocation
leaves the globals as they are. -/
theorem register_refused (g : globals) (vendor_id product_id : Nat) (events flags : Int)
    (callback user_data : Nat) (callback_handle : Option Int) (env : register_env)
    (errs : List device_error)
    (h : ¬ (valid_registration events flags callback ∧ env.calloc_ok = true)) :
    (hid_hotplug_register_callback g vendor_id product_id events flags callback user_data
      callback_handle env errs).g = g := by
  unfold hid_hotplug_register_callback
  by_cases hv : valid_registration events flags callback
  · have hc : env.calloc_ok = false := by
      cases hcc : env.calloc_ok
      · rfl
      · exact absurd ⟨hv, hcc⟩ h
    unfold valid_registration at hv
    rw [if_neg hv]
    simp [hc]
  · unfold valid_registration at hv
    rw [if_pos (not_not.mp hv)]

/-- A registration that passes the parameter check and the allocation: its
node, carrying the value of the counter as handle, is at the tail of the
callback list, also when the call then fails; the counter has advanced, the
critical section is ready and `*callback_handle`, if given, holds the handle. -/
theorem register_effect (g : globals) (vendor_id product_id : Nat) (events flags : Int)
    (callback user_data : Nat) (callback_handle : Option Int) (env : register_env)
    (errs : List device_error)
    (hv : valid_registration events flags callback) (hc : env.calloc_ok = true) :
    (hid_hotplug_register_callback g vendor_id product_id events flags callback user_data
      callback_handle env errs).g.hotplug.hotplug_cbs
      = g.hotplug.hotplug_cbs ++
        [{ handle := g.hotplug.next_handle, vendor_id := vendor_id, product_id := product_id,
           events := events, user_data := user_data, callback := callback }] ∧
    (hid_hotplug_register_callback g vendor_id product_id events flags callback user_data
      callback_handle env errs).g.hotplug.next_handle
      = next_handle_after g.hotplug.next_handle ∧
    (hid_hotplug_register_callback g vendor_id product_id events flags callback user_data
      callback_handle env errs).g.hotplug.critical_section_ready = true ∧
    (hid_hotplug_register_callback g vendor_id product_id events flags callback user_data
      callback_handle env errs).callback_handle
      = callback_handle.map (fun _ => g.hotplug.next_handle) := by
  unfold valid_registration at hv
  unfold hid_hotplug_register_callback next_handle_after
  rw [if_neg hv]
  simp only [hc, Bool.not_true, Bool.false_eq_true, if_false]
  have hh : (match callback_handle with
      | some _ => some g.hotplug.next_handle
      | none => none) = callback_handle.map (fun _ => g.hotplug.next_handle) := by
    cases callback_handle <;> rfl
  by_cases hw : int_wrap (g.hotplug.next_handle + 1) < 0 <;>
  by_cases hcb : g.hotplug.hotplug_cbs = [] <;>
  by_cases hn : g.hotplug.notify_handle = 0 <;>
  cases hcm : env.CM_Register_Notification <;>
  simp [hw, hcb, hn, hcm, hh, hid_hotplug_register_finish]

/-- The update of the cached device list touches neither the counter, the
readiness flag nor the callback list. -/
theorem notify_locate_keeps (ctx : hid_hotplug_context) (action : Nat) (env : notify_env) :
    (notify_locate ctx action env).2.2.next_handle = ctx.next_handle ∧
    (notify_locate ctx action env).2.2.critical_section_ready = ctx.critical_section_ready ∧
    (notify_locate ctx action env).2.2.hotplug_cbs = ctx.hotplug_cbs := by
  unfold notify_locate
  split_ifs
  · exact ⟨rfl, rfl, rfl⟩
  · exact ⟨rfl, rfl, rfl⟩
  · cases env.path <;> exact ⟨rfl, rfl, rfl⟩
  · exact ⟨rfl, rfl, rfl⟩

/-- The dispatch part leaves the counter and the readiness flag as they are,
and a sublist of the callback list. -/
theorem notify_dispatch_keeps (g : globals) (device : Option hid_device_info) (ev : Int)
    (ctx : hid_hotplug_context) (env : notify_env) (errs : List device_error) :
    (notify_dispatch g device ev ctx env errs).g.hotplug.next_handle = ctx.next_handle ∧
    (notify_dispatch g device ev ctx env errs).g.hotplug.critical_section_ready
      = ctx.critical_section_ready ∧
    (notify_dispatch g device ev ctx env errs).g.hotplug.hotplug_cbs.Sublist
      ctx.hotplug_cbs := by
  cases device with
  | none => exact ⟨rfl, rfl, List.Sublist.refl _⟩
  | some device =>
    have hk := cleanup_keeps
      { ctx with hotplug_cbs := (dispatch env.user device ev ctx.hotplug_cbs []).1 }
      env.cleanup errs
    refine ⟨hk.2.1, hk.2.2, ?_⟩
    show (hid_internal_hotplug_cleanup _ env.cleanup errs).1.hotplug_cbs.Sublist _
    rw [hk.1]
    exact dispatch_sublist _ _ _ _ _

/-- The notification callback leaves the counter and the readiness flag as
they are, and a sublist of the callback list. -/
theorem notify_keeps (g : globals) (action : Nat) (event_data : Option notify_event_data)
    (env : notify_env) (errs : List device_error) :
    (hid_internal_notify_callback g action event_data env errs).g.hotplug.next_handle
      = g.hotplug.next_handle ∧
    (hid_internal_notify_callback g action event_data env errs).g.hotplug.critical_section_ready
      = g.hotplug.critical_section_ready ∧
    (hid_internal_notify_callback g action event_data env errs).g.hotplug.hotplug_cbs.Sublist
      g.hotplug.hotplug_cbs := by
  cases event_data with
  | none => exact ⟨rfl, rfl, List.Sublist.refl _⟩
  | some ed =>
    unfold hid_internal_notify_callback
    dsimp only
    by_cases hf : ed.FilterType ≠ CM_NOTIFY_FILTER_TYPE_DEVICEINTERFACE
    · rw [if_pos hf]
      exact ⟨rfl, rfl, List.Sublist.refl _⟩
    · rw [if_neg hf]
      obtain ⟨l1, l2, l3⟩ := notify_locate_keeps g.hotplug action env
      obtain ⟨d1, d2, d3⟩ := notify_dispatch_keeps g (notify_locate g.hotplug action env).1
        (notify_locate g.hotplug action env).2.1 (notify_locate g.hotplug action env).2.2 env errs
      exact ⟨d1.trans l1, d2.trans l2, l3 ▸ d3⟩

/-- The deregistration leaves the counter and the readiness flag as they are,
and a sublist of the callback list. -/
theorem deregister_keeps (g : globals) (h : Int) (env : cleanup_env)
    (errs : List device_error) :
    (hid_hotplug_deregister_callback g h env errs).g.hotplug.next_handle
      = g.hotplug.next_handle ∧
    (hid_hotplug_deregister_callback g h env errs).g.hotplug.critical_section_ready
      = g.hotplug.critical_section_ready ∧
    (hid_hotplug_deregister_callback g h env errs).g.hotplug.hotplug_cbs.Sublist
      g.hotplug.hotplug_cbs := by
  unfold hid_hotplug_deregister_callback
  split_ifs
  · exact ⟨rfl, rfl, List.Sublist.refl _⟩
  · exact ⟨rfl, rfl, List.Sublist.refl _⟩
  · have hk := cleanup_keeps
      { g.hotplug with
        hotplug_cbs := (unlink_first (fun c => c.handle == h) g.hotplug.hotplug_cbs) }
      env errs
    refine ⟨hk.2.1, hk.2.2, ?_⟩
    show (hid_internal_hotplug_cleanup _ env errs).1.hotplug_cbs.Sublist _
    rw [hk.1]
    exact unlink_first_sublist _ _

/-- The exit leaves the counter as it is and either changes nothing in the
registry (the critical section was not ready) or empties the callback list
and clears the readiness flag. -/
theorem exit_keeps (ctx : hid_hotplug_context) (env : cleanup_env)
    (errs : List device_error) :
    (hid_internal_hotplug_exit ctx env errs).1.next_handle = ctx.next_handle ∧
    ((hid_internal_hotplug_exit ctx env errs).1 = ctx ∨
      ((hid_internal_hotplug_exit ctx env errs).1.hotplug_cbs = [] ∧
       (hid_internal_hotplug_exit ctx env errs).1.critical_section_ready = false)) := by
  unfold hid_internal_hotplug_exit
  by_cases hr : ctx.critical_section_ready = true
  · have hk := cleanup_keeps { ctx with hotplug_cbs := [] } env errs
    rw [if_neg (show ¬ ((!ctx.critical_section_ready) = true) by simp [hr])]
    exact ⟨hk.2.1, Or.inr ⟨hk.1, rfl⟩⟩
  · rw [if_pos (show (!ctx.critical_section_ready) = true by simpa using hr)]
    exact ⟨rfl, Or.inl rfl⟩

/-- Every operation keeps `registry_inv`. -/
theorem registry_inv_step (g : globals) (op : registry_op) (h : registry_inv g) :
    registry_inv (registry_step g op) := by
  obtain ⟨h1, h2, h3, h4⟩ := h
  cases op with
  | register vendor_id product_id events flags callback user_data callback_handle env errs =>
    by_cases hi : valid_registration events flags callback ∧ env.calloc_ok = true
    · obtain ⟨e1, e2, e3, _⟩ := register_effect g vendor_id product_id events flags callback
        user_data callback_handle env errs hi.1 hi.2
      simp only [registry_step, registry_inv]
      rw [e1, e2, e3, next_handle_after_eq _ h3 h4]
      refine ⟨fun _ => rfl, ?_, ?_, ?_⟩
      · intro c hc
        rcases List.mem_append.mp hc with hc | hc
        · exact h2 c hc
        · rw [List.mem_singleton.mp hc]; exact h3
      · split_ifs <;> omega
      · unfold INT_MAX at h4 ⊢
        split_ifs <;> omega
    · simp only [registry_step]
      rw [register_refused g vendor_id product_id events flags callback user_data
        callback_handle env errs hi]
      exact ⟨h1, h2, h3, h4⟩
  | deregister hdl env errs =>
    obtain ⟨e1, e2, e3⟩ := deregister_keeps g hdl env errs
    simp only [registry_step, registry_inv]
    rw [e1, e2]
    refine ⟨fun hne => h1 ?_, fun c hc => h2 c (e3.subset hc), h3, h4⟩
    intro hnil
    rw [hnil] at e3
    exact hne (List.sublist_nil.mp e3)
  | notify action event_data env errs =>
    obtain ⟨e1, e2, e3⟩ := notify_keeps g action event_data env errs
    simp only [registry_step, registry_inv]
    rw [e1, e2]
    refine ⟨fun hne => h1 ?_, fun c hc => h2 c (e3.subset hc), h3, h4⟩
    intro hnil
    rw [hnil] at e3
    exact hne (List.sublist_nil.mp e3)
  | exit env errs =>
    obtain ⟨e1, e2⟩ := exit_keeps g.hotplug env errs
    simp only [registry_step, registry_inv]
    rw [e1]
    rcases e2 with e2 | ⟨e2, e3⟩
    · rw [e2]; exact ⟨h1, h2, h3, h4⟩
    · rw [e2]
      exact ⟨fun hne => absurd rfl hne, fun c hc => by simp at hc, h3, h4⟩

/-- The initial globals satisfy `registry_inv`, and so does every state a run
reaches from a state that does. -/
theorem registry_inv_run (ops : List registry_op) (g : globals) (h : registry_inv g) :
    registry_inv (registry_run ops g) := by
  induction ops generalizing g with
  | nil => exact h
  | cons op rest ih => exact ih _ (registry_inv_step g op h)

/-- Every reachable state satisfies `registry_inv`. -/
theorem registry_inv_reachable (g : globals) (h : registry_reachable g) : registry_inv g := by
  obtain ⟨ops, rfl⟩ := h
  apply registry_inv_run
  refine ⟨fun hne => absurd rfl hne, fun c hc => by simp [globals_init, hid_hotplug_context_init] at hc, ?_, ?_⟩ <;> decide

/-- An operation that is given no handle leaves the counter as it is. -/
theorem step_counter_other (g : globals) (op : registry_op) (h : ¬ issues_handle op) :
    (registry_step g op).hotplug.next_handle = g.hotplug.next_handle := by
  cases op with
  | register vendor_id product_id events flags callback user_data callback_handle env errs =>
    simp only [registry_step]
    rw [register_refused g vendor_id product_id events flags callback user_data
      callback_handle env errs h]
  | deregister hdl env errs => exact (deregister_keeps g hdl env errs).1
  | notify action event_data env errs => exact (notify_keeps g action event_data env errs).1
  | exit env errs => exact (exit_keeps g.hotplug env errs).1

/-- C15: in every reachable state, for every handle `h` held by a registered
callback, `hid_hotplug_deregister_callback(h)` returns 0 and the callback
list afterwards is the list before without the first node whose handle is
`h`: the nodes in front of it and behind it are kept, in their order. -/
theorem deregister_removes_first (g : globals) (h : Int) (env : cleanup_env)
    (errs : List device_error)
    (hreach : registry_reachable g) (hmem : h ∈ handles g) :
    (hid_hotplug_deregister_callback g h env errs).ret = 0 ∧
    ∃ pre cb post, g.hotplug.hotplug_cbs = pre ++ cb :: post ∧ cb.handle = h ∧
      (∀ c ∈ pre, c.handle ≠ h) ∧
      (hid_hotplug_deregister_callback g h env errs).g.hotplug.hotplug_cbs = pre ++ post := by
  obtain ⟨i1, i2, _, _⟩ := registry_inv_reachable g hreach
  obtain ⟨c0, hc0, hh0⟩ := List.mem_map.mp hmem
  have hne : g.hotplug.hotplug_cbs ≠ [] := List.ne_nil_of_mem hc0
  have hready := i1 hne
  have hpos : ¬ (h ≤ 0 ∨ (!g.hotplug.critical_section_ready) = true) := by
    have := i2 c0 hc0
    rw [hready]
    simp
    omega
  obtain ⟨pre, cb, post, s1, s2, s3, s4⟩ :=
    unlink_first_split (fun c : hid_hotplug_callback => c.handle == h) g.hotplug.hotplug_cbs
      ⟨c0, hc0, by simpa using hh0⟩
  have hk := cleanup_keeps
    { g.hotplug with
      hotplug_cbs := (unlink_first (fun c => c.handle == h) g.hotplug.hotplug_cbs) }
    env errs
  unfold hid_hotplug_deregister_callback
  rw [if_neg hpos, if_neg hne]
  refine ⟨rfl, pre, cb, post, s1, by simpa using s2, ?_, ?_⟩
  · intro c hc
    simpa using s3 c hc
  · show (hid_internal_hotplug_cleanup _ env errs).1.hotplug_cbs = _
    rw [hk.1]
    exact s4

/-- Witness of C15: the handle 1 in the state after one registration. -/
theorem deregister_removes_first_witness :
    (registry_reachable sample_globals_one ∧ (1 : Int) ∈ handles sample_globals_one) ∧
    (hid_hotplug_deregister_callback sample_globals_one 1 sample_cleanup_failed []).ret = 0 :=
  ⟨⟨⟨[sample_register_op], rfl⟩, by decide⟩,
   (deregister_removes_first sample_globals_one 1 sample_cleanup_failed []
      ⟨[sample_register_op], rfl⟩ (by decide)).1⟩

/-- C16: in every reachable state in which one callback remains, its
deregistration returns 0 and leaves an empty callback list, an empty cached
device list and a null subscription handle, whatever
`CM_Unregister_Notification` answers (`env` is arbitrary). -/
theorem deregister_last_tears_down (g : globals) (cb : hid_hotplug_callback)
    (env : cleanup_env) (errs : List device_error)
    (hreach : registry_reachable g) (hone : g.hotplug.hotplug_cbs = [cb]) :
    (hid_hotplug_deregister_callback g cb.handle env errs).ret = 0 ∧
    (hid_hotplug_deregister_callback g cb.handle env errs).g.hotplug.hotplug_cbs = [] ∧
    (hid_hotplug_deregister_callback g cb.handle env errs).g.hotplug.devs = [] ∧
    (hid_hotplug_deregister_callback g cb.handle env errs).g.hotplug.notify_handle = 0 := by
  obtain ⟨i1, i2, _, _⟩ := registry_inv_reachable g hreach
  have hne : g.hotplug.hotplug_cbs ≠ [] := by rw [hone]; simp
  have hready := i1 hne
  have hpos : ¬ (cb.handle ≤ 0 ∨ (!g.hotplug.critical_section_ready) = true) := by
    have := i2 cb (by rw [hone]; simp)
    rw [hready]
    simp
    omega
  have hun : unlink_first (fun c : hid_hotplug_callback => c.handle == cb.handle)
      g.hotplug.hotplug_cbs = [] := by
    rw [hone]; simp [unlink_first]
  have hk := cleanup_keeps { g.hotplug with hotplug_cbs := [] } env errs
  have he := cleanup_empty { g.hotplug with hotplug_cbs := [] } env errs rfl
  unfold hid_hotplug_deregister_callback
  rw [if_neg hpos, if_neg hne, hun]
  exact ⟨rfl, hk.1, he.1, he.2⟩

/-- Witness of C16: the one callback of the sample state is deregistered
while `CM_Unregister_Notification` fails. -/
theorem deregister_last_tears_down_witness :
    (registry_reachable sample_globals_one ∧
      sample_globals_one.hotplug.hotplug_cbs
        = [{ handle := 1, vendor_id := 0, product_id := 0, events := 3, user_data := 9,
             callback := 500 }]) ∧
    (hid_hotplug_deregister_callback sample_globals_one 1 sample_cleanup_failed []).g.hotplug.devs
      = [] ∧
    (hid_hotplug_deregister_callback sample_globals_one 1
      sample_cleanup_failed []).g.hotplug.notify_handle = 0 :=
  ⟨⟨⟨[sample_register_op], rfl⟩, by decide⟩,
   (deregister_last_tears_down sample_globals_one
      { handle := 1, vendor_id := 0, product_id := 0, events := 3, user_data := 9,
        callback := 500 }
      sample_cleanup_failed [] ⟨[sample_register_op], rfl⟩ (by decide)).2.2.1,
   (deregister_last_tears_down sample_globals_one
      { handle := 1, vendor_id := 0, product_id := 0, events := 3, user_data := 9,
        callback := 500 }
      sample_cleanup_failed [] ⟨[sample_register_op], rfl⟩ (by decide)).2.2.2⟩

/-- C17, evaluated: the state after a first registration in which
`CM_Register_Notification` fails is reachable, its callback list is not empty
and its subscription handle is null. A second registration in that state
returns 0 and still no subscription exists. -/
theorem subscription_invariant_broken :
    registry_reachable sample_globals_failed ∧
    sample_globals_failed.hotplug.hotplug_cbs ≠ [] ∧
    sample_globals_failed.hotplug.notify_handle = 0 ∧
    (hid_hotplug_register_callback sample_globals_failed 0 0 3 0 501 9 (some 0)
      sample_register_env []).ret = 0 ∧
    (hid_hotplug_register_callback sample_globals_failed 0 0 3 0 501 9 (some 0)
      sample_register_env []).g.hotplug.notify_handle = 0 := by
  refine ⟨⟨[registry_op.register 0x1234 0 1 1 500 9 (some 0) sample_register_failed []], rfl⟩,
    ?_, ?_, ?_, ?_⟩ <;> decide

/-- C18: the handle sequence. The counter starts at 1 and, in every reachable
state, lies between 1 and `INT_MAX`. A registration that passes the parameter
check (and the allocation of its node) is given the value of the counter as
handle, which is therefore at least 1, and leaves the counter at that value
plus one, or at 1 when the value was `INT_MAX`. Every other operation leaves
the counter as it is, so the first handle given is 1. -/
theorem handle_sequence :
    globals_init.hotplug.next_handle = 1 ∧
    (∀ g, registry_reachable g →
      1 ≤ g.hotplug.next_handle ∧ g.hotplug.next_handle ≤ INT_MAX) ∧
    (∀ (g : globals) (vendor_id product_id : Nat) (events flags : Int)
        (callback user_data : Nat) (callback_handle : Option Int) (env : register_env)
        (errs : List device_error),
      registry_reachable g → valid_registration events flags callback →
      env.calloc_ok = true →
      (hid_hotplug_register_callback g vendor_id product_id events flags callback user_data
        callback_handle env errs).g.hotplug.hotplug_cbs
        = g.hotplug.hotplug_cbs ++
          [{ handle := g.hotplug.next_handle, vendor_id := vendor_id,
             product_id := product_id, events := events, user_data := user_data,
             callback := callback }] ∧
      (hid_hotplug_register_callback g vendor_id product_id events flags callback user_data
        callback_handle env errs).callback_handle
        = callback_handle.map (fun _ => g.hotplug.next_handle) ∧
      (hid_hotplug_register_callback g vendor_id product_id events flags callback user_data
        callback_handle env errs).g.hotplug.next_handle
        = (if g.hotplug.next_handle = INT_MAX then 1 else g.hotplug.next_handle + 1)) ∧
    (∀ g op, ¬ issues_handle op →
      (registry_step g op).hotplug.next_handle = g.hotplug.next_handle) ∧
    (∀ ops, (∀ op ∈ ops, ¬ issues_handle op) →
      (registry_run ops globals_init).hotplug.next_handle = 1) := by
  refine ⟨rfl, ?_, ?_, step_counter_other, ?_⟩
  · intro g hg
    obtain ⟨_, _, h3, h4⟩ := registry_inv_reachable g hg
    exact ⟨h3, h4⟩
  · intro g vendor_id product_id events flags callback user_data callback_handle env errs
      hg hv hc
    obtain ⟨_, _, h3, h4⟩ := registry_inv_reachable g hg
    obtain ⟨e1, e2, _, e4⟩ := register_effect g vendor_id product_id events flags callback
      user_data callback_handle env errs hv hc
    exact ⟨e1, e4, by rw [e2, next_handle_after_eq _ h3 h4]⟩
  · intro ops
    have key : ∀ (l : List registry_op) (g : globals), (∀ op ∈ l, ¬ issues_handle op) →
        (registry_run l g).hotplug.next_handle = g.hotplug.next_handle := by
      intro l
      induction l with
      | nil => intro g _; rfl
      | cons op rest ih =>
        intro g h
        have h1 := ih (registry_step g op) (fun o ho => h o (List.mem_cons_of_mem _ ho))
        have h2 := step_counter_other g op (h op (List.mem_cons_self _ _))
        simp only [registry_run, List.foldl_cons] at h1 ⊢
        rw [h1, h2]
    intro h
    rw [key ops globals_init h]
    rfl

/-- Witness of C18: the first registration, from the initial globals, is given
the handle 1 and leaves the counter at 2. -/
theorem handle_sequence_witness :
    (registry_reachable globals_init ∧ valid_registration 3 0 500 ∧
      sample_register_env.calloc_ok = true) ∧
    (hid_hotplug_register_callback globals_init 0 0 3 0 500 9 (some 0)
      sample_register_env []).callback_handle = some 1 ∧
    (hid_hotplug_register_callback globals_init 0 0 3 0 500 9 (some 0)
      sample_register_env []).g.hotplug.next_handle = 2 :=
  ⟨⟨⟨[], rfl⟩, by unfold valid_registration; decide, rfl⟩,
   (handle_sequence.2.2.1 globals_init 0 0 3 0 500 9 (some 0) sample_register_env []
      ⟨[], rfl⟩ (by unfold valid_registration; decide) rfl).2.1,
   (handle_sequence.2.2.1 globals_init 0 0 3 0 500 9 (some 0) sample_register_env []
      ⟨[], rfl⟩ (by unfold valid_registration; decide) rfl).2.2⟩

/-! ## Hotplug registry: distinct handles -/

/-- The registration time pass calls the callback for the matching devices of
the list, once each and in list order. -/
theorem enumerate_pass_eq (cb : hid_hotplug_callback) (devs : List hid_device_info) :
    enumerate_pass cb devs
      = (devs.filter fun d =>
          hid_internal_match_device_id d.vendor_id d.product_id cb.vendor_id cb.product_id).map
        fun d => { callback := cb.callback, handle := cb.handle, device := d,
                   event := HID_API_HOTPLUG_EVENT_DEVICE_ARRIVED, user_data := cb.user_data } := by
  induction devs with
  | nil => rfl
  | cons d rest ih =>
    unfold enumerate_pass
    by_cases h : hid_internal_match_device_id d.vendor_id d.product_id cb.vendor_id
        cb.product_id = true
    · rw [if_pos h, ih]
      simp [List.filter_cons, h]
    · rw [if_neg h, ih]
      simp [List.filter_cons, h]

/-- The value stored through `callback_handle` when the pointer is not null. -/
theorem stored_handle_eq (callback_handle : Option Int) (n : Int) :
    (match callback_handle with
      | some _ => some n
      | none => none) = callback_handle.map (fun _ => n) := by
  cases callback_handle <;> rfl

/-- C20: a `hid_hotplug_register_callback` that returns 0. The cached device
list afterwards is the result of `hid_enumerate(0, 0)` when this is the first
callback and the list as it was otherwise. With the flag
`HID_API_HOTPLUG_ENUMERATE` and the event `HID_API_HOTPLUG_EVENT_DEVICE_ARRIVED`
in `events`, the calls of user callbacks made before the return are, in the
order of the cached list, one call of the new callback for each cached device
that matches its filter, with the event `DEVICE_ARRIVED`, the new handle and
the given `user_data`, and no other call; without the flag or without the
event no call is made. -/
theorem register_reports_present_devices (g : globals) (vendor_id product_id : Nat)
    (events flags : Int) (callback user_data : Nat) (callback_handle : Option Int)
    (env : register_env) (errs : List device_error)
    (hok : (hid_hotplug_register_callback g vendor_id product_id events flags callback
      user_data callback_handle env errs).ret = 0) :
    (hid_hotplug_register_callback g vendor_id product_id events flags callback user_data
      callback_handle env errs).g.hotplug.devs
      = (if g.hotplug.hotplug_cbs = [] then
          (hid_enumerate 0 0 g.hidapi_initialized env.enumerate errs).1
         else g.hotplug.devs) ∧
    (hid_hotplug_register_callback g vendor_id product_id events flags callback user_data
      callback_handle env errs).callback_handle
      = callback_handle.map (fun _ => g.hotplug.next_handle) ∧
    (hid_hotplug_register_callback g vendor_id product_id events flags callback user_data
      callback_handle env errs).invoked
      = (if int_and flags HID_API_HOTPLUG_ENUMERATE ≠ 0 ∧
            int_and events HID_API_HOTPLUG_EVENT_DEVICE_ARRIVED ≠ 0 then
          ((hid_hotplug_register_callback g vendor_id product_id events flags callback
              user_data callback_handle env errs).g.hotplug.devs.filter fun d =>
            hid_internal_match_device_id d.vendor_id d.product_id vendor_id product_id).map
          fun d => { callback := callback, handle := g.hotplug.next_handle, device := d,
                     event := HID_API_HOTPLUG_EVENT_DEVICE_ARRIVED, user_data := user_data }
         else []) := by
  have hh := stored_handle_eq callback_handle g.hotplug.next_handle
  have hbad : ¬ (events = 0
      ∨ int_and events (int_not (int_or HID_API_HOTPLUG_EVENT_DEVICE_ARRIVED
          HID_API_HOTPLUG_EVENT_DEVICE_LEFT)) ≠ 0
      ∨ int_and flags (int_not HID_API_HOTPLUG_ENUMERATE) ≠ 0
      ∨ callback = 0) := by
    intro hb
    unfold hid_hotplug_register_callback at hok
    rw [if_pos hb] at hok
    simp at hok
  have hc : env.calloc_ok = true := by
    cases hcc : env.calloc_ok with
    | true => rfl
    | false =>
      unfold hid_hotplug_register_callback at hok
      rw [if_neg hbad] at hok
      simp [hcc] at hok
  unfold hid_hotplug_register_callback at hok ⊢
  rw [if_neg hbad] at hok ⊢
  simp only [hc, Bool.not_true, Bool.false_eq_true, if_false] at hok ⊢
  by_cases hw : int_wrap (g.hotplug.next_handle + 1) < 0 <;>
  by_cases hcb : g.hotplug.hotplug_cbs = [] <;>
  by_cases hn : g.hotplug.notify_handle = 0 <;>
  cases hcm : env.CM_Register_Notification <;>
  simp [hw, hcb, hn, hcm, hh, hid_hotplug_register_finish, enumerate_pass_eq] at hok ⊢

/-- Witness of C20: the first callback, registered for vendor `0x1234` with
the flag and the arrival event, is called once, for the one cached device of
that vendor. -/
theorem register_reports_present_devices_witness :
    (hid_hotplug_register_callback globals_init 0x1234 0 1 1 500 9 (some 0)
      sample_register_env []).ret = 0 ∧
    (hid_hotplug_register_callback globals_init 0x1234 0 1 1 500 9 (some 0)
      sample_register_env []).g.hotplug.devs = [sample_info_a, sample_info_b] ∧
    (hid_hotplug_register_callback globals_init 0x1234 0 1 1 500 9 (some 0)
      sample_register_env []).invoked
      = [{ callback := 500, handle := 1, device := sample_info_a, event := 1, user_data := 9 }] :=
  ⟨by decide,
   ((register_reports_present_devices globals_init 0x1234 0 1 1 500 9 (some 0)
      sample_register_env [] (by decide)).1).trans (by decide),
   ((register_reports_present_devices globals_init 0x1234 0 1 1 500 9 (some 0)
      sample_register_env [] (by decide)).2.2).trans (by decide)⟩

/-! ## Notification callback: theorems -/

/-- The dispatch loop against the wording of the spec: the calls made are
those of the matching callbacks, in list order, and the list left is
`callbacks_after`. -/
theorem dispatch_eq (user : user_code) (device : hid_device_info) (ev : Int)
    (front cbs : List hid_hotplug_callback) :
    dispatch user device ev cbs
        ((front.filter (callback_matches device ev)).map (call_of device ev))
      = (callbacks_after user device ev front cbs,
         ((front ++ cbs).filter (callback_matches device ev)).map (call_of device ev)) := by
  induction cbs generalizing front with
  | nil => simp [dispatch, callbacks_after]
  | cons c rest ih =>
    have hnext : ∀ (hm : callback_matches device ev c = true),
        (front.filter (callback_matches device ev)).map (call_of device ev)
            ++ [call_of device ev c]
          = ((front ++ [c]).filter (callback_matches device ev)).map (call_of device ev) := by
      intro hm
      simp [List.filter_append, List.filter_cons, hm]
    have hskip : ∀ (hm : ¬ callback_matches device ev c = true),
        (front.filter (callback_matches device ev)).map (call_of device ev)
          = ((front ++ [c]).filter (callback_matches device ev)).map (call_of device ev) := by
      intro hm
      simp [List.filter_append, List.filter_cons, hm]
    have happ : front ++ c :: rest = (front ++ [c]) ++ rest := by simp
    by_cases hm : callback_matches device ev c = true
    · have hcond : int_and c.events ev ≠ 0 ∧
          hid_internal_match_device_id device.vendor_id device.product_id
            c.vendor_id c.product_id = true := by
        simpa [callback_matches] using hm
      unfold dispatch callbacks_after
      dsimp only
      rw [if_pos hcond]
      by_cases hr : returned user device ev front c ≠ 0
      · have hr2 : user ((front.filter (callback_matches device ev)).map (call_of device ev))
            { callback := c.callback, handle := c.handle, device := device, event := ev,
              user_data := c.user_data } ≠ 0 := hr
        rw [if_pos hr2, if_pos ⟨hm, hr⟩]
        have h := ih (front ++ [c])
        rw [← hnext hm] at h
        rw [happ]
        exact h
      · have hr2 : ¬ user ((front.filter (callback_matches device ev)).map (call_of device ev))
            { callback := c.callback, handle := c.handle, device := device, event := ev,
              user_data := c.user_data } ≠ 0 := hr
        rw [if_neg hr2, if_neg (fun h => hr h.2)]
        have h := ih (front ++ [c])
        rw [← hnext hm] at h
        rw [happ]
        show (c :: (dispatch user device ev rest _).1, (dispatch user device ev rest _).2) = _
        have h' : dispatch user device ev rest
            ((front.filter (callback_matches device ev)).map (call_of device ev)
              ++ [{ callback := c.callback, handle := c.handle, device := device, event := ev,
                    user_data := c.user_data }]) = _ := h
        rw [h']
    · have hcond : ¬ (int_and c.events ev ≠ 0 ∧
          hid_internal_match_device_id device.vendor_id device.product_id
            c.vendor_id c.product_id = true) := by
        simpa [callback_matches] using hm
      unfold dispatch callbacks_after
      dsimp only
      rw [if_neg hcond, if_neg (fun h => hm h.1)]
      have h := ih (front ++ [c])
      rw [← hskip hm] at h
      rw [happ, h]

/-- A notification about a device interface is the located part followed by
the dispatch part. -/
theorem notify_eq (g : globals) (action : Nat) (ed : notify_event_data) (env : notify_env)
    (errs : List device_error)
    (hfilter : ed.FilterType = CM_NOTIFY_FILTER_TYPE_DEVICEINTERFACE) :
    hid_internal_notify_callback g action (some ed) env errs
      = notify_dispatch g (notify_locate g.hotplug action env).1
          (notify_locate g.hotplug action env).2.1
          (notify_locate g.hotplug action env).2.2 env errs := by
  unfold hid_internal_notify_callback
  dsimp only
  rw [if_neg (by simp [hfilter])]

/-- The dispatch part for a device: the calls, the callback list and what the
cleanup leaves of the cached device list and the subscription handle. -/
theorem notify_dispatch_some (g : globals) (d : hid_device_info) (ev : Int)
    (ctx : hid_hotplug_context) (env : notify_env) (errs : List device_error) :
    (notify_dispatch g (some d) ev ctx env errs).invoked
      = (dispatch env.user d ev ctx.hotplug_cbs []).2 ∧
    (notify_dispatch g (some d) ev ctx env errs).g.hotplug.hotplug_cbs
      = (dispatch env.user d ev ctx.hotplug_cbs []).1 ∧
    ((notify_dispatch g (some d) ev ctx env errs).g.hotplug.hotplug_cbs = [] →
      (notify_dispatch g (some d) ev ctx env errs).g.hotplug.devs = [] ∧
      (notify_dispatch g (some d) ev ctx env errs).g.hotplug.notify_handle = 0) ∧
    ((notify_dispatch g (some d) ev ctx env errs).g.hotplug.hotplug_cbs ≠ [] →
      (notify_dispatch g (some d) ev ctx env errs).g.hotplug.devs = ctx.devs ∧
      (notify_dispatch g (some d) ev ctx env errs).g.hotplug.notify_handle
        = ctx.notify_handle) := by
  have hk := cleanup_keeps
    { ctx with hotplug_cbs := (dispatch env.user d ev ctx.hotplug_cbs []).1 } env.cleanup errs
  have hcb : (notify_dispatch g (some d) ev ctx env errs).g.hotplug.hotplug_cbs
      = (dispatch env.user d ev ctx.hotplug_cbs []).1 := hk.1
  refine ⟨rfl, hcb, fun h => ?_, fun h => ?_⟩
  · rw [hcb] at h
    exact cleanup_empty
      { ctx with hotplug_cbs := (dispatch env.user d ev ctx.hotplug_cbs []).1 } env.cleanup
      errs h
  · rw [hcb] at h
    have hn := cleanup_nonempty
      { ctx with hotplug_cbs := (dispatch env.user d ev ctx.hotplug_cbs []).1 } env.cleanup
      errs h
    constructor
    · show (hid_internal_hotplug_cleanup _ env.cleanup errs).1.devs = _
      rw [hn]
    · show (hid_internal_hotplug_cleanup _ env.cleanup errs).1.notify_handle = _
      rw [hn]

/-- The first match of a list splits it: the elements in front of it do not
match, and unlinking the first match drops exactly it. -/
theorem first_match_split {α : Type} (p : α → Bool) (l : List α) (d : α)
    (h : first_match p l = some d) :
    ∃ pre post, l = pre ++ d :: post ∧ p d = true ∧ (∀ y ∈ pre, p y = false) ∧
      unlink_first p l = pre ++ post := by
  induction l with
  | nil => simp [first_match] at h
  | cons a rest ih =>
    by_cases ha : p a = true
    · simp only [first_match, ha, if_true, Option.some.injEq] at h
      subst h
      exact ⟨[], rest, rfl, ha, by simp, by simp [unlink_first, ha]⟩
    · simp only [first_match, ha, if_false] at h
      obtain ⟨pre, post, h1, h2, h3, h4⟩ := ih h
      refine ⟨a :: pre, post, by rw [h1]; rfl, h2, ?_, by simp [unlink_first, ha, h4]⟩
      intro y hy
      rcases List.mem_cons.mp hy with rfl | hy
      · simpa using ha
      · exact h3 y hy

/-- No first match: unlinking changes nothing. -/
theorem unlink_first_none {α : Type} (p : α → Bool) (l : List α)
    (h : first_match p l = none) : unlink_first p l = l := by
  induction l with
  | nil => rfl
  | cons a rest ih =>
    by_cases ha : p a = true
    · simp [first_match, ha] at h
    · simp only [first_match, ha, if_false] at h
      simp [unlink_first, ha, ih h]

/-- What the removal branch locates: the first cached device whose path
equals the notified path, the event `DEVICE_LEFT`, and the context with that
device unlinked. -/
theorem notify_locate_removal (ctx : hid_hotplug_context) (env : notify_env) (path : String)
    (hp : env.path = some path) :
    notify_locate ctx CM_NOTIFY_ACTION_DEVICEINTERFACEREMOVAL env
      = (first_match (fun d => stricmp_eq d.path path) ctx.devs,
         HID_API_HOTPLUG_EVENT_DEVICE_LEFT,
         { ctx with devs := unlink_first (fun d => stricmp_eq d.path path) ctx.devs }) := by
  unfold notify_locate
  rw [if_neg (by decide), if_pos rfl, hp]

/-- C21, as stated, fails: one callback is registered and two devices are
cached; the removal of the first device is notified and the callback returns
1. The cached list afterwards is empty, not the list before without the first
device. -/
theorem removal_can_empty_cache :
    sample_globals_one.hotplug.devs = [sample_info_a, sample_info_b] ∧
    (hid_internal_notify_callback sample_globals_one CM_NOTIFY_ACTION_DEVICEINTERFACEREMOVAL
      (some sample_event_data) sample_notify_removal []).g.hotplug.devs = [] ∧
    (hid_internal_notify_callback sample_globals_one CM_NOTIFY_ACTION_DEVICEINTERFACEREMOVAL
      (some sample_event_data) sample_notify_removal []).g.hotplug.devs ≠ [sample_info_b] := by
  decide

/-- C21, amended: a removal notification with path `p`. If no cached device
has a path equal to `p` under case insensitive comparison, the globals (cached
list and callback list) and the error list are unchanged and no callback is
called. Otherwise the cached list before splits at the first such device, and
afterwards it is that list without this device, the others in their order, as
long as a callback is still registered; when the dispatch leaves no callback
registered, the cached list is empty. -/
theorem removal_unlinks_first (g : globals) (ed : notify_event_data) (env : notify_env)
    (errs : List device_error) (p : String)
    (hfilter : ed.FilterType = CM_NOTIFY_FILTER_TYPE_DEVICEINTERFACE)
    (hp : env.path = some p) :
    (first_match (fun d => stricmp_eq d.path p) g.hotplug.devs = none →
      (hid_internal_notify_callback g CM_NOTIFY_ACTION_DEVICEINTERFACEREMOVAL (some ed)
        env errs).g = g ∧
      (hid_internal_notify_callback g CM_NOTIFY_ACTION_DEVICEINTERFACEREMOVAL (some ed)
        env errs).invoked = [] ∧
      (hid_internal_notify_callback g CM_NOTIFY_ACTION_DEVICEINTERFACEREMOVAL (some ed)
        env errs).errs = errs) ∧
    (∀ d, first_match (fun d => stricmp_eq d.path p) g.hotplug.devs = some d →
      ∃ pre post, g.hotplug.devs = pre ++ d :: post ∧ stricmp_eq d.path p = true ∧
        (∀ x ∈ pre, stricmp_eq x.path p = false) ∧
        ((hid_internal_notify_callback g CM_NOTIFY_ACTION_DEVICEINTERFACEREMOVAL (some ed)
            env errs).g.hotplug.hotplug_cbs ≠ [] →
          (hid_internal_notify_callback g CM_NOTIFY_ACTION_DEVICEINTERFACEREMOVAL (some ed)
            env errs).g.hotplug.devs = pre ++ post) ∧
        ((hid_internal_notify_callback g CM_NOTIFY_ACTION_DEVICEINTERFACEREMOVAL (some ed)
            env errs).g.hotplug.hotplug_cbs = [] →
          (hid_internal_notify_callback g CM_NOTIFY_ACTION_DEVICEINTERFACEREMOVAL (some ed)
            env errs).g.hotplug.devs = [])) := by
  rw [notify_eq g _ ed env errs hfilter, notify_locate_removal g.hotplug env p hp]
  constructor
  · intro hnone
    rw [hnone, unlink_first_none _ _ hnone]
    exact ⟨rfl, rfl, rfl⟩
  · intro d hd
    obtain ⟨pre, post, h1, h2, h3, h4⟩ := first_match_split _ _ d hd
    rw [hd]
    obtain ⟨_, _, n1, n2⟩ := notify_dispatch_some g d HID_API_HOTPLUG_EVENT_DEVICE_LEFT
      { g.hotplug with devs := unlink_first (fun d => stricmp_eq d.path p) g.hotplug.devs }
      env errs
    refine ⟨pre, post, h1, h2, h3, fun hne => ?_, fun he => (n1 he).1⟩
    rw [(n2 hne).1]
    exact h4

/-- Witness of the amended C21: the one registered callback returns 0 and so
stays registered; the cached list splits at the removed device and loses it
only. -/
theorem removal_unlinks_first_witness :
    (sample_event_data.FilterType = CM_NOTIFY_FILTER_TYPE_DEVICEINTERFACE ∧
      sample_notify_stay.path = some "HID#VID_1234&PID_5678#A" ∧
      first_match (fun d => stricmp_eq d.path "HID#VID_1234&PID_5678#A")
        sample_globals_one.hotplug.devs = some sample_info_a) ∧
    (∃ pre post, sample_globals_one.hotplug.devs = pre ++ sample_info_a :: post ∧
      stricmp_eq sample_info_a.path "HID#VID_1234&PID_5678#A" = true ∧
      (∀ x ∈ pre, stricmp_eq x.path "HID#VID_1234&PID_5678#A" = false) ∧
      ((hid_internal_notify_callback sample_globals_one
          CM_NOTIFY_ACTION_DEVICEINTERFACEREMOVAL (some sample_event_data)
          sample_notify_stay []).g.hotplug.hotplug_cbs ≠ [] →
        (hid_internal_notify_callback sample_globals_one
          CM_NOTIFY_ACTION_DEVICEINTERFACEREMOVAL (some sample_event_data)
          sample_notify_stay []).g.hotplug.devs = pre ++ post) ∧
      ((hid_internal_notify_callback sample_globals_one
          CM_NOTIFY_ACTION_DEVICEINTERFACEREMOVAL (some sample_event_data)
          sample_notify_stay []).g.hotplug.hotplug_cbs = [] →
        (hid_internal_notify_callback sample_globals_one
          CM_NOTIFY_ACTION_DEVICEINTERFACEREMOVAL (some sample_event_data)
          sample_notify_stay []).g.hotplug.devs = [])) ∧
    (hid_internal_notify_callback sample_globals_one CM_NOTIFY_ACTION_DEVICEINTERFACEREMOVAL
      (some sample_event_data) sample_notify_stay []).g.hotplug.devs = [sample_info_b] :=
  have hf : first_match (fun d => stricmp_eq d.path "HID#VID_1234&PID_5678#A")
      sample_globals_one.hotplug.devs = some sample_info_a := by decide
  ⟨⟨rfl, rfl, hf⟩,
   (removal_unlinks_first sample_globals_one sample_event_data sample_notify_stay []
      "HID#VID_1234&PID_5678#A" rfl rfl).2 sample_info_a hf,
   by decide⟩

/-- The update of the cached device list leaves the subscription handle as it
is. -/
theorem notify_locate_handle (ctx : hid_hotplug_context) (action : Nat) (env : notify_env) :
    (notify_locate ctx action env).2.2.notify_handle = ctx.notify_handle := by
  unfold notify_locate
  split_ifs
  · rfl
  · rfl
  · cases env.path <;> rfl
  · rfl

/-- The callback list as the spec words it is a sublist of the list before. -/
theorem callbacks_after_sublist (user : user_code) (device : hid_device_info) (ev : Int)
    (front cbs : List hid_hotplug_callback) :
    (callbacks_after user device ev front cbs).Sublist cbs := by
  induction cbs generalizing front with
  | nil => exact List.Sublist.refl _
  | cons c rest ih =>
    unfold callbacks_after
    split_ifs
    · exact (ih (front ++ [c])).trans (List.sublist_cons_self c rest)
    · exact (ih (front ++ [c])).cons₂ c

/-- C22: a notification about a device interface that yields the device `d`
(the record created on arrival, or the cached record unlinked on removal) with
its event. The calls made are those of the registered callbacks whose event
mask contains the event and whose vendor/product filter matches `d`, one call
each, in list order, with the handle, the device, the event and the user data
of the callback as arguments. The callback list afterwards is the list before
without the callbacks that were called and returned a value other than 0, the
others in their order. -/
theorem dispatch_invokes_matching (g : globals) (action : Nat) (ed : notify_event_data)
    (env : notify_env) (errs : List device_error) (d : hid_device_info)
    (hfilter : ed.FilterType = CM_NOTIFY_FILTER_TYPE_DEVICEINTERFACE)
    (hd : (notify_locate g.hotplug action env).1 = some d) :
    (hid_internal_notify_callback g action (some ed) env errs).invoked
      = (g.hotplug.hotplug_cbs.filter
          (callback_matches d (notify_locate g.hotplug action env).2.1)).map
          (call_of d (notify_locate g.hotplug action env).2.1) ∧
    (hid_internal_notify_callback g action (some ed) env errs).g.hotplug.hotplug_cbs
      = callbacks_after env.user d (notify_locate g.hotplug action env).2.1 []
          g.hotplug.hotplug_cbs ∧
    (hid_internal_notify_callback g action (some ed) env errs).g.hotplug.hotplug_cbs.Sublist
      g.hotplug.hotplug_cbs := by
  rw [notify_eq g action ed env errs hfilter, hd]
  obtain ⟨h1, h2, _, _⟩ := notify_dispatch_some g d (notify_locate g.hotplug action env).2.1
    (notify_locate g.hotplug action env).2.2 env errs
  have hk := (notify_locate_keeps g.hotplug action env).2.2
  have hq := dispatch_eq env.user d (notify_locate g.hotplug action env).2.1 []
    g.hotplug.hotplug_cbs
  simp only [List.filter_nil, List.map_nil, List.nil_append] at hq
  rw [h1, h2, hk, hq]
  exact ⟨rfl, rfl, callbacks_after_sublist _ _ _ _ _⟩

/-- Witness of C22: two callbacks are registered and the removal of the first
sample device is notified; the first callback called returns 1 and the second
returns 0. Both are called, in list order, and the second alone remains. -/
theorem dispatch_invokes_matching_witness :
    (sample_event_data.FilterType = CM_NOTIFY_FILTER_TYPE_DEVICEINTERFACE ∧
      (notify_locate sample_globals_two.hotplug CM_NOTIFY_ACTION_DEVICEINTERFACEREMOVAL
        sample_notify_first).1 = some sample_info_a) ∧
    (hid_internal_notify_callback sample_globals_two CM_NOTIFY_ACTION_DEVICEINTERFACEREMOVAL
      (some sample_event_data) sample_notify_first []).invoked.map (fun c => c.callback)
      = [500, 501] ∧
    (hid_internal_notify_callback sample_globals_two CM_NOTIFY_ACTION_DEVICEINTERFACEREMOVAL
      (some sample_event_data) sample_notify_first []).g.hotplug.hotplug_cbs.map
        (fun c => c.callback) = [501] := by
  have h := dispatch_invokes_matching sample_globals_two
    CM_NOTIFY_ACTION_DEVICEINTERFACEREMOVAL sample_event_data sample_notify_first []
    sample_info_a rfl (by decide)
  refine ⟨⟨rfl, by decide⟩, ?_, ?_⟩
  · rw [h.1]; decide
  · rw [h.2.1]; decide

/-- C28: a notification about a device interface that yields a device, so
that the dispatch runs. If the callback list is empty afterwards, the cached
device list is empty and the subscription handle is `NULL` on return. If a
callback is still registered afterwards, the subscription handle is the one
before the notification. -/
theorem dispatch_teardown (g : globals) (action : Nat) (ed : notify_event_data)
    (env : notify_env) (errs : List device_error) (d : hid_device_info)
    (hfilter : ed.FilterType = CM_NOTIFY_FILTER_TYPE_DEVICEINTERFACE)
    (hd : (notify_locate g.hotplug action env).1 = some d) :
    ((hid_internal_notify_callback g action (some ed) env errs).g.hotplug.hotplug_cbs = [] →
      (hid_internal_notify_callback g action (some ed) env errs).g.hotplug.devs = [] ∧
      (hid_internal_notify_callback g action (some ed) env errs).g.hotplug.notify_handle
        = 0) ∧
    ((hid_internal_notify_callback g action (some ed) env errs).g.hotplug.hotplug_cbs ≠ [] →
      (hid_internal_notify_callback g action (some ed) env errs).g.hotplug.notify_handle
        = g.hotplug.notify_handle) := by
  rw [notify_eq g action ed env errs hfilter, hd]
  obtain ⟨_, _, n1, n2⟩ := notify_dispatch_some g d (notify_locate g.hotplug action env).2.1
    (notify_locate g.hotplug action env).2.2 env errs
  refine ⟨n1, fun hne => ?_⟩
  rw [(n2 hne).2]
  exact notify_locate_handle g.hotplug action env

/-- Witness of C28: the one registered callback returns 1 when the removal of
the first sample device is notified; the subscription handle 77 and the cached
list are gone on return. -/
theorem dispatch_teardown_witness :
    (sample_event_data.FilterType = CM_NOTIFY_FILTER_TYPE_DEVICEINTERFACE ∧
      (notify_locate sample_globals_one.hotplug CM_NOTIFY_ACTION_DEVICEINTERFACEREMOVAL
        sample_notify_removal).1 = some sample_info_a) ∧
    sample_globals_one.hotplug.notify_handle = 77 ∧
    (hid_internal_notify_callback sample_globals_one CM_NOTIFY_ACTION_DEVICEINTERFACEREMOVAL
      (some sample_event_data) sample_notify_removal []).g.hotplug.hotplug_cbs = [] ∧
    (hid_internal_notify_callback sample_globals_one CM_NOTIFY_ACTION_DEVICEINTERFACEREMOVAL
      (some sample_event_data) sample_notify_removal []).g.hotplug.devs = [] ∧
    (hid_internal_notify_callback sample_globals_one CM_NOTIFY_ACTION_DEVICEINTERFACEREMOVAL
      (some sample_event_data) sample_notify_removal []).g.hotplug.notify_handle = 0 :=
  have hc : (hid_internal_notify_callback sample_globals_one
      CM_NOTIFY_ACTION_DEVICEINTERFACEREMOVAL (some sample_event_data) sample_notify_removal
      []).g.hotplug.hotplug_cbs = [] := by decide
  ⟨⟨rfl, by decide⟩, by decide, hc,
    (dispatch_teardown sample_globals_one CM_NOTIFY_ACTION_DEVICEINTERFACEREMOVAL
      sample_event_data sample_notify_removal [] sample_info_a rfl (by decide)).1 hc⟩

/-! ## Error registry: one record per key -/

/-- The handles of the list after a write through `get_device_error` that
keeps the key of the node: the handles before when the key has a record, the
handles before followed by the key's handle otherwise. -/
theorem handles_after_update (dev : Option hid_device) (f : device_error → device_error)
    (hf : ∀ e, (f e).device_handle = e.device_handle) (errs : List device_error) :
    (update_node f (get_device_error dev errs).1 (get_device_error dev errs).2).map
        (fun e => e.device_handle)
      = if key_handle dev ∈ errs.map (fun e => e.device_handle)
        then errs.map (fun e => e.device_handle)
        else errs.map (fun e => e.device_handle) ++ [key_handle dev] := by
  induction errs with
  | nil =>
    simp only [get_device_error, update_node, List.map_cons, List.map_nil, List.not_mem_nil,
      if_false, List.nil_append, hf]
    cases dev <;> rfl
  | cons c rest ih =>
    by_cases hm : device_error_matches dev c = true
    · have hk := (device_error_matches_iff dev c).mp hm
      simp only [get_device_error, hm, if_true, update_node, List.map_cons, hf, hk,
        List.mem_cons, true_or]
    · have hk : ¬ c.device_handle = key_handle dev :=
        fun h => hm ((device_error_matches_iff dev c).mpr h)
      have hk2 : ¬ key_handle dev = c.device_handle := fun h => hk h.symm
      simp only [get_device_error, hm, if_false, update_node, List.map_cons, ih,
        List.mem_cons, hk2, false_or]
      split_ifs <;> rfl

/-- The handles of the list after one write. -/
theorem handles_after_write (errs : List device_error) (w : error_write) :
    (apply_error_write errs w).map (fun e => e.device_handle)
      = if w.key ∈ errs.map (fun e => e.device_handle)
        then errs.map (fun e => e.device_handle)
        else errs.map (fun e => e.device_handle) ++ [w.key] := by
  cases w with
  | string dev m =>
    exact handles_after_update dev _ (fun e => by cases m <;> rfl) errs
  | winapi dev op code m =>
    refine handles_after_update dev _ (fun e => ?_) errs
    unfold register_winapi_error_to_device
    cases op with
    | none => rfl
    | some o => dsimp only; split_ifs <;> rfl

/-- A sequence of writes keeps the handles of a list distinct. -/
theorem handles_nodup_run (writes : List error_write) (errs : List device_error)
    (h : (errs.map (fun e => e.device_handle)).Nodup) :
    ((writes.foldl apply_error_write errs).map (fun e => e.device_handle)).Nodup := by
  induction writes generalizing errs with
  | nil => exact h
  | cons w rest ih =>
    simp only [List.foldl_cons]
    apply ih
    rw [handles_after_write]
    split_ifs with hk
    · exact h
    · exact List.Nodup.append h (List.nodup_singleton _) (by simpa using hk)

/-- C27: in the list that a thread's writes to the error registry
(`register_string_error` and `register_winapi_error` calls, from the empty
list of a new thread) leave, no two records have the same device handle, so a
key, the global key `NULL` included, has at most one record; and a further
write to a key that has a record leaves the handles of the list, and with
them its length, as they are: the record found is overwritten (what it then
holds is the subject of C10). -/
theorem one_record_per_key (writes : List error_write) :
    ((error_writes writes).map (fun e => e.device_handle)).Nodup ∧
    (∀ k, ((error_writes writes).filter (fun e => e.device_handle == k)).length ≤ 1) ∧
    (∀ w : error_write, w.key ∈ (error_writes writes).map (fun e => e.device_handle) →
      (error_writes (writes ++ [w])).map (fun e => e.device_handle)
        = (error_writes writes).map (fun e => e.device_handle) ∧
      (error_writes (writes ++ [w])).length = (error_writes writes).length) := by
  have hnd := handles_nodup_run writes [] List.nodup_nil
  refine ⟨hnd, fun k => ?_, fun w hw => ?_⟩
  · have hc := List.nodup_iff_count_le_one.mp hnd k
    rw [List.count_eq_countP, List.countP_map, List.countP_eq_length_filter] at hc
    have he : (fun e : device_error => e.device_handle == k)
        = ((fun x => x == k) ∘ fun e : device_error => e.device_handle) := rfl
    rw [he]
    exact hc
  · have h1 : (error_writes (writes ++ [w])).map (fun e => e.device_handle)
        = (error_writes writes).map (fun e => e.device_handle) := by
      unfold error_writes at hw ⊢
      rw [List.foldl_append, List.foldl_cons, List.foldl_nil, handles_after_write, if_pos hw]
    refine ⟨h1, ?_⟩
    have := congrArg List.length h1
    simpa using this

/-- Witness of C27: the thread wrote the global key and the session with
handle 7; a second write to the global key leaves two records. -/
theorem one_record_per_key_witness :
    (error_write.string none (some "y")).key
      ∈ (error_writes [error_write.string none (some "x"),
          error_write.string (some sample_dev) (some "z")]).map (fun e => e.device_handle) ∧
    (error_writes ([error_write.string none (some "x"),
        error_write.string (some sample_dev) (some "z")]
        ++ [error_write.string none (some "y")])).length = 2 ∧
    hid_error none (error_writes ([error_write.string none (some "x"),
        error_write.string (some sample_dev) (some "z")]
        ++ [error_write.string none (some "y")])) = "y" :=
  ⟨by decide,
   ((one_record_per_key [error_write.string none (some "x"),
        error_write.string (some sample_dev) (some "z")]).2.2
      (error_write.string none (some "y")) (by decide)).2.trans (by decide),
   by decide⟩

/-! ## Reads that fail at once -/

/-- A call of `hid_read_timeout` on a session without a pending read, with a
buffer and a length other than 0, issues one `ReadFile`. -/
theorem hid_read_timeout_fresh (dev : hid_device) (data : List Nat) (length : Nat)
    (milliseconds : Int) (env : read_env) (errs : List device_error)
    (hp : dev.read_pending = false) (hpos : 0 < length) :
    reads_issued (hid_read_timeout dev (some data) length milliseconds env errs).calls = 1 := by
  have hl : length ≠ 0 := by omega
  cases hr : env.ReadFile with
  | some raw =>
    simp [hid_read_timeout, hl, hp, hr, hid_read_copy_calls, reads_issued]
  | none =>
    by_cases he : env.ReadFile_err = ERROR_IO_PENDING
    · by_cases hw : env.Wait_res = WAIT_OBJECT_0
      · cases ho : env.Overlapped <;>
          simp [hid_read_timeout, hl, hp, hr, he, hid_read_wait, hw, ho,
            hid_read_copy_calls, reads_issued]
      · have hw2 : (env.Wait_res != WAIT_OBJECT_0) = true := by simpa using hw
        simp [hid_read_timeout, hl, hp, hr, he, hid_read_wait, hw2, reads_issued]
    · have he2 : (env.ReadFile_err != ERROR_IO_PENDING) = true := by simpa using he
      simp [hid_read_timeout, hl, hp, hr, he2, reads_issued]

/-- C29, as stated, fails: `ReadFile` on the sample session fails at once with
`ERROR_DEVICE_NOT_CONNECTED` (1167) and the `calloc` of the message buffer in
`register_winapi_error_to_device` returns `NULL`. The call returns -1 and the
record holds the code 1167, but it holds no string: `hid_error` of the session
is "Success". -/
theorem hid_read_timeout_failure_reads_success :
    (sample_dev.read_pending = false ∧ sample_read_gone_nomem.ReadFile = none ∧
      sample_read_gone_nomem.ReadFile_err ≠ ERROR_IO_PENDING) ∧
    (hid_read_timeout sample_dev (some [1, 1]) 2 0 sample_read_gone_nomem []).ret = -1 ∧
    hid_error (some sample_dev)
      (hid_read_timeout sample_dev (some [1, 1]) 2 0 sample_read_gone_nomem []).errs
      = "Success" ∧
    hid_error_code (some sample_dev)
      (hid_read_timeout sample_dev (some [1, 1]) 2 0 sample_read_gone_nomem []).errs
      = 1167 := by
  decide

/-- C29, amended: a `hid_read_timeout` call with a buffer and a length other
than 0 that starts with `read_pending` clear and whose `ReadFile` returns
`FALSE` with a last error other than `ERROR_IO_PENDING` returns -1; afterwards
`hid_error_code` of the session is the last error; `hid_error` of the session
is not "Success" when the message buffer is allocated, and is "Success" when
its `calloc` returns `NULL`; the operation is cancelled with `CancelIo`;
`read_pending` is clear again, and so the next call with a buffer issues a
`ReadFile` of its own. -/
theorem hid_read_timeout_immediate_failure (dev : hid_device) (data : List Nat) (L : Nat)
    (milliseconds : Int) (env : read_env) (errs : List device_error)
    (hL : 0 < L) (hp : dev.read_pending = false) (hr : env.ReadFile = none)
    (he : env.ReadFile_err ≠ ERROR_IO_PENDING) :
    (hid_read_timeout dev (some data) L milliseconds env errs).ret = -1 ∧
    hid_error_code (some dev) (hid_read_timeout dev (some data) L milliseconds env errs).errs
      = to_int (DWORD env.ReadFile_err) ∧
    (env.msg.calloc_ok = true →
      hid_error (some dev) (hid_read_timeout dev (some data) L milliseconds env errs).errs
        ≠ "Success") ∧
    (env.msg.calloc_ok = false →
      hid_error (some dev) (hid_read_timeout dev (some data) L milliseconds env errs).errs
        = "Success") ∧
    (hid_read_timeout dev (some data) L milliseconds env errs).dev.read_pending = false ∧
    (hid_read_timeout dev (some data) L milliseconds env errs).calls
      = [os_call.ResetEvent dev.ol_hEvent,
         os_call.ReadFile dev.device_handle (DWORD dev.input_report_length),
         os_call.CancelIo dev.device_handle] ∧
    ∀ (data2 : List Nat) (L2 : Nat) (ms2 : Int) (env2 : read_env) (errs2 : List device_error),
      0 < L2 →
      reads_issued (hid_read_timeout
        (hid_read_timeout dev (some data) L milliseconds env errs).dev (some data2) L2 ms2
        env2 errs2).calls = 1 := by
  have hne : L ≠ 0 := by omega
  have he2 : (env.ReadFile_err != ERROR_IO_PENDING) = true := by simpa using he
  have hpend : (hid_read_timeout dev (some data) L milliseconds env errs).dev.read_pending
      = false := by
    simp [hid_read_timeout, hne, hp, hr, he2]
  refine ⟨hid_read_timeout_failed dev data L milliseconds env errs hL (Or.inl ⟨hp, hr, he⟩),
    ?_, fun halloc => ?_, fun halloc => ?_, hpend, ?_, fun data2 L2 ms2 env2 errs2 h2 =>
      hid_read_timeout_fresh _ data2 L2 ms2 env2 errs2 hpend h2⟩
  · simp only [hid_read_timeout, hne, if_false, hp, Bool.not_false, if_true, hr, he2]
    rw [hid_error_code_same_handle dev
      { dev with read_pending := true,
                 read_buf := memset dev.read_buf 0 0 dev.input_report_length } rfl]
    exact hid_error_code_winapi _ _ _ _ _
  · simp only [hid_read_timeout, hne, if_false, hp, Bool.not_false, if_true, hr, he2]
    rw [hid_error_same_handle dev
      { dev with read_pending := true,
                 read_buf := memset dev.read_buf 0 0 dev.input_report_length } rfl]
    exact hid_error_winapi_ne_success _ "ReadFile" 'R' _ _ _ _ rfl (by decide) (by decide)
      halloc
  · simp only [hid_read_timeout, hne, if_false, hp, Bool.not_false, if_true, hr, he2]
    rw [hid_error_same_handle dev
      { dev with read_pending := true,
                 read_buf := memset dev.read_buf 0 0 dev.input_report_length } rfl]
    exact hid_error_winapi_nomem _ _ _ _ _ halloc
  · simp [hid_read_timeout, hne, hp, hr, he2]

/-- Witness of the amended C29: `ReadFile` on the sample session fails with
`ERROR_DEVICE_NOT_CONNECTED` (1167), the message buffer being allocated. -/
theorem hid_read_timeout_immediate_failure_witness :
    (0 < 2 ∧ sample_dev.read_pending = false ∧ sample_read_gone.ReadFile = none ∧
      sample_read_gone.ReadFile_err ≠ ERROR_IO_PENDING ∧
      sample_read_gone.msg.calloc_ok = true) ∧
    (hid_read_timeout sample_dev (some [1, 1]) 2 0 sample_read_gone []).ret = -1 ∧
    hid_error (some sample_dev)
      (hid_read_timeout sample_dev (some [1, 1]) 2 0 sample_read_gone []).errs ≠ "Success" ∧
    hid_error_code (some sample_dev)
      (hid_read_timeout sample_dev (some [1, 1]) 2 0 sample_read_gone []).errs = 1167 ∧
    (hid_read_timeout sample_dev (some [1, 1]) 2 0 sample_read_gone []).dev.read_pending
      = false :=
  have h := hid_read_timeout_immediate_failure sample_dev [1, 1] 2 0 sample_read_gone []
    (by decide) rfl rfl (by decide)
  ⟨⟨by decide, rfl, rfl, by decide, rfl⟩, h.1, h.2.2.1 rfl, by rw [h.2.1]; decide,
    h.2.2.2.2.1⟩

/-! ## Enumeration: theorems -/

/-- The filter as a proposition. -/
theorem match_device_id_iff (v p ev ep : Nat) :
    hid_internal_match_device_id v p ev ep = true ↔ (ev = 0 ∨ v = ev) ∧ (ep = 0 ∨ p = ep) := by
  simp [hid_internal_match_device_id]

/-- The list that `hid_enumerate_list` returns is the result of the `for`
loop over the interfaces retrieved. -/
theorem hid_enumerate_list_eq (ev ep : Nat) (a : interface_list_answer)
    (errs : List device_error) :
    (hid_enumerate_list ev ep a errs).1 = hid_enumerate_interfaces ev ep (interfaces_of a) := by
  induction a with
  | size_failed => rfl
  | calloc_failed => rfl
  | list_failed => rfl
  | buffer_small next ih => exact ih
  | ok interfaces =>
    simp only [hid_enumerate_list, interfaces_of]
    split_ifs <;> rfl

/-- A `hid_init` that finds the library initialised, or the functions it looks
up, returns 0, leaves the library initialised and the global error cleared. -/
theorem hid_init_ok (initialized : Bool) (env : init_env) (errs : List device_error)
    (hinit : initialized = true ∨ env.lookup_functions_ok = true) :
    hid_init initialized env errs = (0, true, register_global_error none errs) := by
  unfold hid_init
  cases hi : initialized with
  | true => simp
  | false =>
    rcases hinit with h | h
    · rw [hi] at h; exact absurd h (by decide)
    · simp [h]

/-- When `hid_init` succeeds, `hid_enumerate` returns the result of the `for`
loop over the interfaces retrieved. -/
theorem hid_enumerate_eq (ev ep : Nat) (initialized : Bool) (env : enumerate_env)
    (errs : List device_error)
    (hinit : initialized = true ∨ env.init.lookup_functions_ok = true) :
    (hid_enumerate ev ep initialized env errs).1
      = hid_enumerate_interfaces ev ep (interfaces_of env.list) := by
  unfold hid_enumerate
  simp only [hid_init_ok initialized env.init errs hinit, lt_self_iff_false, if_false]
  exact hid_enumerate_list_eq ev ep env.list _

/-- A record that `hid_enumerate` returns is one of the loop result: the list
returned is that result, or empty when `hid_init` fails. -/
theorem hid_enumerate_mem (ev ep : Nat) (initialized : Bool) (env : enumerate_env)
    (errs : List device_error) (d : hid_device_info)
    (hd : d ∈ (hid_enumerate ev ep initialized env errs).1) :
    d ∈ hid_enumerate_interfaces ev ep (interfaces_of env.list) := by
  unfold hid_enumerate at hd
  dsimp only at hd
  split_ifs at hd
  · simp at hd
  · rw [hid_enumerate_list_eq] at hd
    exact hd

/-- The `for` loop with a filter yields the records of the loop without a
filter whose identifiers pass the filter, when the two `HidD_GetAttributes`
calls made for an interface give the same answer. -/
theorem hid_enumerate_interfaces_filter (ev ep : Nat) (l : List interface_answer)
    (hstable : ∀ i ∈ l, i.info.attributes = i.attributes) :
    hid_enumerate_interfaces ev ep l
      = (hid_enumerate_interfaces 0 0 l).filter
          (fun d => hid_internal_match_device_id d.vendor_id d.product_id ev ep) := by
  induction l with
  | nil => rfl
  | cons i rest ih =>
    have ih2 := ih (fun j hj => hstable j (List.mem_cons_of_mem _ hj))
    have hs := hstable i (List.mem_cons_self _ _)
    unfold hid_enumerate_interfaces
    cases ho : i.open_ok with
    | false => simpa using ih2
    | true =>
      cases ha : i.attributes with
      | none => simpa using ih2
      | some a =>
        have h00 : hid_internal_match_device_id a.1 a.2 0 0 = true := by
          simp [hid_internal_match_device_id]
        cases hc : i.info.calloc_ok with
        | false =>
          simp only [Bool.not_true, Bool.false_eq_true, if_false, h00, if_true,
            hid_internal_get_device_info, hc, Bool.not_false]
          split_ifs <;> exact ih2
        | true =>
          rw [ha] at hs
          simp only [Bool.not_true, Bool.false_eq_true, if_false, h00, if_true,
            hid_internal_get_device_info, hc, hs]
          by_cases hm : hid_internal_match_device_id a.1 a.2 ev ep = true
          · simp [hm, List.filter_cons, ih2]
          · simp [hm, List.filter_cons, ih2]

/-- The `for` loop without a filter creates a record for every interface that
can be opened and tells its identifiers, in the order of the interfaces. -/
theorem hid_enumerate_interfaces_all (l : List interface_answer) :
    hid_enumerate_interfaces 0 0 l
      = l.filterMap (fun i =>
          if interface_openable i = true then hid_internal_get_device_info i.info else none) := by
  induction l with
  | nil => rfl
  | cons i rest ih =>
    unfold hid_enumerate_interfaces
    cases ho : i.open_ok with
    | false => simp [interface_openable, ho, ih, List.filterMap_cons]
    | true =>
      cases ha : i.attributes with
      | none => simp [interface_openable, ho, ha, ih, List.filterMap_cons]
      | some a =>
        have h00 : hid_internal_match_device_id a.1 a.2 0 0 = true := by
          simp [hid_internal_match_device_id]
        cases hg : hid_internal_get_device_info i.info with
        | none => simp [interface_openable, ho, ha, h00, hg, ih, List.filterMap_cons]
        | some d => simp [interface_openable, ho, ha, h00, hg, ih, List.filterMap_cons]

/-- The `for` loop creates a record for every interface that can be opened,
tells its identifiers and passes the filter with them, in the order of the
interfaces. -/
theorem hid_enumerate_interfaces_eq (ev ep : Nat) (l : List interface_answer) :
    hid_enumerate_interfaces ev ep l
      = l.filterMap (fun i =>
          if interface_matches ev ep i = true then hid_internal_get_device_info i.info
          else none) := by
  induction l with
  | nil => rfl
  | cons i rest ih =>
    unfold hid_enumerate_interfaces
    cases ho : i.open_ok with
    | false => simp [interface_matches, ho, ih, List.filterMap_cons]
    | true =>
      cases ha : i.attributes with
      | none => simp [interface_matches, ho, ha, ih, List.filterMap_cons]
      | some a =>
        cases hm : hid_internal_match_device_id a.1 a.2 ev ep with
        | false => simp [interface_matches, ho, ha, hm, ih, List.filterMap_cons]
        | true =>
          cases hg : hid_internal_get_device_info i.info with
          | none => simp [interface_matches, ho, ha, hm, hg, ih, List.filterMap_cons]
          | some d => simp [interface_matches, ho, ha, hm, hg, ih, List.filterMap_cons]

/-- Without a filter every interface that can be opened and tells its
identifiers matches. -/
theorem interface_matches_all (i : interface_answer) :
    interface_matches 0 0 i = interface_openable i := by
  unfold interface_matches interface_openable
  cases i.attributes <;> simp [hid_internal_match_device_id]

/-- With the library not initialised and its functions not found,
`hid_enumerate` returns no record. -/
theorem hid_enumerate_init_failed (ev ep : Nat) (initialized : Bool) (env : enumerate_env)
    (errs : List device_error)
    (hinit : ¬ (initialized = true ∨ env.init.lookup_functions_ok = true)) :
    (hid_enumerate ev ep initialized env errs).1 = [] := by
  have h1 : initialized = false := by
    cases hi : initialized with
    | false => rfl
    | true => exact absurd (Or.inl hi) hinit
  have h2 : env.init.lookup_functions_ok = false := by
    cases hl : env.init.lookup_functions_ok with
    | false => rfl
    | true => exact absurd (Or.inr hl) hinit
  unfold hid_enumerate hid_init
  simp [h1, h2]

/-- C23, as stated, fails: `hid_enumerate` reads the identifiers `0x1234` and
`0x5678` of the one interface, which pass the filter `(0x1234, 0)`, but the
second `HidD_GetAttributes` call, made by `hid_internal_get_device_info` for
the record, fails. The record returned has the identifiers 0 and 0 and does
not satisfy the predicate. -/
theorem enumerate_record_fails_filter :
    (hid_enumerate 0x1234 0 false sample_enumerate_flaky []).1
      = [{ sample_info_a with vendor_id := 0, product_id := 0 }] ∧
    ∃ d ∈ (hid_enumerate 0x1234 0 false sample_enumerate_flaky []).1,
      hid_internal_match_device_id d.vendor_id d.product_id 0x1234 0 = false ∧
      ¬ ((0x1234 = 0 ∨ d.vendor_id = 0x1234) ∧ (0 = 0 ∨ d.product_id = 0)) :=
  ⟨by decide, { sample_info_a with vendor_id := 0, product_id := 0 }, by decide, by decide,
    by decide⟩

/-- C23, amended: the vendor/product filter. `hid_internal_match_device_id(v,
p, ev, ep)` is true exactly when `(ev = 0 or v = ev) and (ep = 0 or p = ep)`.
When `hid_init` succeeds, `hid_enumerate(ev, ep)` returns, in the order in
which the system lists the interfaces, one record for every interface that can
be opened and whose identifiers, as `hid_enumerate` reads them, satisfy the
predicate (as long as the record can be allocated); `hid_enumerate(0, 0)`
returns one for every interface that can be opened and tells its identifiers.
The identifiers of a record come from a second `HidD_GetAttributes` call: when
it gives for every interface the answer of the first, every record returned
satisfies the predicate and the records returned are those of
`hid_enumerate(0, 0)` that satisfy it, in the same order. -/
theorem enumerate_filters_by_id (ev ep : Nat) (initialized : Bool) (env : enumerate_env)
    (errs : List device_error) :
    (∀ v p : Nat, hid_internal_match_device_id v p ev ep = true
      ↔ (ev = 0 ∨ v = ev) ∧ (ep = 0 ∨ p = ep)) ∧
    (initialized = true ∨ env.init.lookup_functions_ok = true →
      (hid_enumerate ev ep initialized env errs).1
        = (interfaces_of env.list).filterMap (fun i =>
            if interface_matches ev ep i = true then hid_internal_get_device_info i.info
            else none) ∧
      (hid_enumerate 0 0 initialized env errs).1
        = (interfaces_of env.list).filterMap (fun i =>
            if interface_openable i = true then hid_internal_get_device_info i.info
            else none)) ∧
    ((∀ i ∈ interfaces_of env.list, i.info.attributes = i.attributes) →
      (∀ d ∈ (hid_enumerate ev ep initialized env errs).1,
        (ev = 0 ∨ d.vendor_id = ev) ∧ (ep = 0 ∨ d.product_id = ep)) ∧
      (hid_enumerate ev ep initialized env errs).1
        = ((hid_enumerate 0 0 initialized env errs).1).filter
            (fun d => hid_internal_match_device_id d.vendor_id d.product_id ev ep)) := by
  refine ⟨fun v p => match_device_id_iff v p ev ep, fun hinit => ⟨?_, ?_⟩,
    fun hstable => ⟨fun d hd => ?_, ?_⟩⟩
  · rw [hid_enumerate_eq ev ep initialized env errs hinit]
    exact hid_enumerate_interfaces_eq ev ep _
  · rw [hid_enumerate_eq 0 0 initialized env errs hinit]
    exact hid_enumerate_interfaces_all _
  · have h := hid_enumerate_mem ev ep initialized env errs d hd
    rw [hid_enumerate_interfaces_filter ev ep _ hstable] at h
    exact (match_device_id_iff _ _ ev ep).mp (by simpa using (List.mem_filter.mp h).2)
  · by_cases hinit : initialized = true ∨ env.init.lookup_functions_ok = true
    · rw [hid_enumerate_eq ev ep initialized env errs hinit,
        hid_enumerate_eq 0 0 initialized env errs hinit]
      exact hid_enumerate_interfaces_filter ev ep _ hstable
    · rw [hid_enumerate_init_failed ev ep initialized env errs hinit,
        hid_enumerate_init_failed 0 0 initialized env errs hinit]
      rfl

/-- Witness of the amended C23: the enumeration of the two sample devices,
retrieved in the second round, for the vendor `0x1111` returns the second
device alone, and both devices in their order for no filter. -/
theorem enumerate_filters_by_id_witness :
    ((false = true ∨ sample_enumerate_retry.init.lookup_functions_ok = true) ∧
      ∀ i ∈ interfaces_of sample_enumerate_retry.list, i.info.attributes = i.attributes) ∧
    (hid_enumerate 0x1111 0 false sample_enumerate_retry []).1 = [sample_info_b] ∧
    (hid_enumerate 0 0 false sample_enumerate_retry []).1 = [sample_info_a, sample_info_b] ∧
    (∀ d ∈ (hid_enumerate 0x1111 0 false sample_enumerate_retry []).1,
      (0x1111 = 0 ∨ d.vendor_id = 0x1111) ∧ (0 = 0 ∨ d.product_id = 0)) :=
  have hs : ∀ i ∈ interfaces_of sample_enumerate_retry.list,
      i.info.attributes = i.attributes := by decide
  have h := enumerate_filters_by_id 0x1111 0 false sample_enumerate_retry []
  ⟨⟨Or.inr rfl, hs⟩,
   ((h.2.2 hs).2).trans (by decide),
   ((h.2.1 (Or.inr rfl)).2).trans (by decide),
   (h.2.2 hs).1⟩

/-- C30: a registration that passes the parameter check and the allocation
and either joins registered callbacks or, as the first one, obtains the
subscription, with the flag `HID_API_HOTPLUG_ENUMERATE` and the event
`HID_API_HOTPLUG_EVENT_DEVICE_ARRIVED`. Whatever the user's callbacks return
(`user` is any behaviour, also one that returns a value other than 0 for some
or all devices): the outcome is the one of the same registration with any
other behaviour; the call returns 0; the callback is called for every cached
device that matches its filter, in list order; and its node is at the tail of
the callback list afterwards. -/
theorem enumerate_pass_ignores_result (g : globals) (vendor_id product_id : Nat)
    (events flags : Int) (callback user_data : Nat) (callback_handle : Option Int)
    (env : register_env) (errs : List device_error) (user : user_code)
    (hv : valid_registration events flags callback) (hc : env.calloc_ok = true)
    (hsub : g.hotplug.hotplug_cbs ≠ [] ∨
      (g.hotplug.notify_handle = 0 ∧ env.CM_Register_Notification ≠ none))
    (hflag : int_and flags HID_API_HOTPLUG_ENUMERATE ≠ 0)
    (harr : int_and events HID_API_HOTPLUG_EVENT_DEVICE_ARRIVED ≠ 0) :
    hid_hotplug_register_callback g vendor_id product_id events flags callback user_data
        callback_handle { env with user := user } errs
      = hid_hotplug_register_callback g vendor_id product_id events flags callback user_data
          callback_handle env errs ∧
    (hid_hotplug_register_callback g vendor_id product_id events flags callback user_data
      callback_handle { env with user := user } errs).ret = 0 ∧
    (hid_hotplug_register_callback g vendor_id product_id events flags callback user_data
      callback_handle { env with user := user } errs).invoked
      = ((hid_hotplug_register_callback g vendor_id product_id events flags callback
            user_data callback_handle { env with user := user } errs).g.hotplug.devs.filter
          fun d =>
            hid_internal_match_device_id d.vendor_id d.product_id vendor_id product_id).map
          (fun d => { callback := callback, handle := g.hotplug.next_handle, device := d,
                      event := HID_API_HOTPLUG_EVENT_DEVICE_ARRIVED,
                      user_data := user_data }) ∧
    (hid_hotplug_register_callback g vendor_id product_id events flags callback user_data
      callback_handle { env with user := user } errs).g.hotplug.hotplug_cbs
      = g.hotplug.hotplug_cbs ++
        [{ handle := g.hotplug.next_handle, vendor_id := vendor_id, product_id := product_id,
           events := events, user_data := user_data, callback := callback }] := by
  have hsame : hid_hotplug_register_callback g vendor_id product_id events flags callback
      user_data callback_handle { env with user := user } errs
      = hid_hotplug_register_callback g vendor_id product_id events flags callback user_data
          callback_handle env errs := rfl
  refine ⟨hsame, ?_⟩
  rw [hsame]
  have hh := stored_handle_eq callback_handle g.hotplug.next_handle
  unfold valid_registration at hv
  unfold hid_hotplug_register_callback
  rw [if_neg hv]
  simp only [hc, Bool.not_true, Bool.false_eq_true, if_false]
  by_cases hcb : g.hotplug.hotplug_cbs = []
  · rcases hsub with hs | ⟨hn, hcm⟩
    · exact absurd hcb hs
    · cases hcm2 : env.CM_Register_Notification with
      | none => exact absurd hcm2 hcm
      | some h =>
        by_cases hw : int_wrap (g.hotplug.next_handle + 1) < 0 <;>
        simp [hw, hcb, hn, hcm2, hh, hid_hotplug_register_finish, enumerate_pass_eq, hflag,
          harr]
  · by_cases hw : int_wrap (g.hotplug.next_handle + 1) < 0 <;>
    simp [hw, hcb, hh, hid_hotplug_register_finish, enumerate_pass_eq, hflag, harr]

/-- Witness of C30: the first registration, for every device, with the flag
and the arrival event; the callback returns 1 at every call. It is called for
both cached devices, the call returns 0 and the callback is registered. -/
theorem enumerate_pass_ignores_result_witness :
    (valid_registration 1 1 500 ∧ sample_register_env.calloc_ok = true ∧
      (globals_init.hotplug.hotplug_cbs ≠ [] ∨
        (globals_init.hotplug.notify_handle = 0 ∧
          sample_register_env.CM_Register_Notification ≠ none)) ∧
      int_and 1 HID_API_HOTPLUG_ENUMERATE ≠ 0 ∧
      int_and 1 HID_API_HOTPLUG_EVENT_DEVICE_ARRIVED ≠ 0) ∧
    (hid_hotplug_register_callback globals_init 0 0 1 1 500 9 (some 0)
      sample_register_leave []).ret = 0 ∧
    (hid_hotplug_register_callback globals_init 0 0 1 1 500 9 (some 0)
      sample_register_leave []).invoked.map (fun c => c.device)
      = [sample_info_a, sample_info_b] ∧
    (hid_hotplug_register_callback globals_init 0 0 1 1 500 9 (some 0)
      sample_register_leave []).g.hotplug.hotplug_cbs.map (fun c => c.callback) = [500] :=
  have hv : valid_registration 1 1 500 := by unfold valid_registration; decide
  have hs : globals_init.hotplug.hotplug_cbs ≠ [] ∨
      (globals_init.hotplug.notify_handle = 0 ∧
        sample_register_env.CM_Register_Notification ≠ none) := Or.inr ⟨rfl, by decide⟩
  have h := enumerate_pass_ignores_result globals_init 0 0 1 1 500 9 (some 0)
    sample_register_env [] sample_user_leave hv rfl hs (by decide) (by decide)
  ⟨⟨hv, rfl, hs, by decide, by decide⟩, h.2.1, by decide, by decide⟩

/-! ## Opening a device: theorems -/

/-- A notification that yields no device leaves the context as it is. -/
theorem notify_locate_none (ctx : hid_hotplug_context) (action : Nat) (env : notify_env)
    (h : (notify_locate ctx action env).1 = none) :
    (notify_locate ctx action env).2.2 = ctx := by
  unfold notify_locate at h ⊢
  split_ifs at h ⊢
  · dsimp only at h ⊢
    rw [h]
    cases ctx
    simp
  · rfl
  · cases hp : env.path with
    | none => rfl
    | some path =>
      rw [hp] at h
      dsimp only at h ⊢
      rw [unlink_first_none _ _ h]
  · rfl

/-- Every operation keeps `registry_idle`. -/
theorem registry_idle_step (g : globals) (op : registry_op) (h : registry_idle g) :
    registry_idle (registry_step g op) := by
  cases op with
  | register vendor_id product_id events flags callback user_data callback_handle env errs =>
    by_cases hv : valid_registration events flags callback ∧ env.calloc_ok = true
    · intro hr
      have he := (register_effect g vendor_id product_id events flags callback user_data
        callback_handle env errs hv.1 hv.2).2.2.1
      simp only [registry_step] at hr
      rw [he] at hr
      exact absurd hr (by decide)
    · simp only [registry_step]
      rw [register_refused g vendor_id product_id events flags callback user_data
        callback_handle env errs hv]
      exact h
  | deregister callback_handle env errs =>
    intro hr
    simp only [registry_step] at hr ⊢
    rw [(deregister_keeps g callback_handle env errs).2.1] at hr
    have hg : (hid_hotplug_deregister_callback g callback_handle env errs).g = g := by
      unfold hid_hotplug_deregister_callback
      rw [if_pos (Or.inr (by simp [hr]))]
    rw [hg]
    exact h hr
  | notify action event_data env errs =>
    intro hr
    simp only [registry_step] at hr ⊢
    rw [(notify_keeps g action event_data env errs).2.1] at hr
    obtain ⟨hc, hd, hn⟩ := h hr
    cases event_data with
    | none => exact ⟨hc, hd, hn⟩
    | some ed =>
      by_cases hf : ed.FilterType = CM_NOTIFY_FILTER_TYPE_DEVICEINTERFACE
      · rw [notify_eq g action ed env errs hf]
        cases hl : (notify_locate g.hotplug action env).1 with
        | none =>
          rw [notify_locate_none g.hotplug action env hl]
          exact ⟨hc, hd, hn⟩
        | some d =>
          obtain ⟨_, h2, n1, _⟩ := notify_dispatch_some g d
            (notify_locate g.hotplug action env).2.1
            (notify_locate g.hotplug action env).2.2 env errs
          have hs := dispatch_sublist env.user d (notify_locate g.hotplug action env).2.1
            (notify_locate g.hotplug action env).2.2.hotplug_cbs []
          rw [(notify_locate_keeps g.hotplug action env).2.2, hc] at hs
          have he := List.sublist_nil.mp hs
          rw [(notify_locate_keeps g.hotplug action env).2.2, hc] at h2
          rw [he] at h2
          exact ⟨h2, n1 h2⟩
      · have hg : (hid_internal_notify_callback g action (some ed) env errs).g = g := by
          unfold hid_internal_notify_callback
          dsimp only
          rw [if_pos hf]
        rw [hg]
        exact ⟨hc, hd, hn⟩
  | exit env errs =>
    intro _
    simp only [registry_step]
    unfold hid_internal_hotplug_exit
    by_cases hr : g.hotplug.critical_section_ready = true
    · rw [if_neg (show ¬ ((!g.hotplug.critical_section_ready) = true) by simp [hr])]
      have hk := cleanup_keeps { g.hotplug with hotplug_cbs := [] } env errs
      have he := cleanup_empty { g.hotplug with hotplug_cbs := [] } env errs rfl
      exact ⟨hk.1, he.1, he.2⟩
    · have hr2 : g.hotplug.critical_section_ready = false := by simpa using hr
      rw [if_pos (show (!g.hotplug.critical_section_ready) = true by simp [hr2])]
      exact h hr2

/-- In every reachable state `registry_idle` holds. -/
theorem registry_idle_reachable (g : globals) (h : registry_reachable g) : registry_idle g := by
  obtain ⟨ops, rfl⟩ := h
  have key : ∀ (ops : List registry_op) (g0 : globals), registry_idle g0 →
      registry_idle (registry_run ops g0) := by
    intro ops
    induction ops with
    | nil => intro g0 h0; exact h0
    | cons op rest ih =>
      intro g0 h0
      exact ih _ (registry_idle_step g0 op h0)
  exact key ops globals_init (fun _ => ⟨rfl, rfl, rfl⟩)

/-- The registry part of the teardown: after `hid_exit`, from any reachable
state, the callback list is empty, the cached device list is empty, the
subscription handle is `NULL`, the critical section is not ready and the
library is not initialised. -/
theorem exit_clears_registry (g : globals) (env : cleanup_env) (errs : List device_error)
    (h : registry_reachable g) :
    (registry_step g (registry_op.exit env errs)).hotplug.hotplug_cbs = [] ∧
    (registry_step g (registry_op.exit env errs)).hotplug.devs = [] ∧
    (registry_step g (registry_op.exit env errs)).hotplug.notify_handle = 0 ∧
    (registry_step g (registry_op.exit env errs)).hotplug.critical_section_ready = false ∧
    (registry_step g (registry_op.exit env errs)).hidapi_initialized = false := by
  have hi := registry_idle_step g (registry_op.exit env errs) (registry_idle_reachable g h)
  have hr : (registry_step g (registry_op.exit env errs)).hotplug.critical_section_ready
      = false := by
    simp only [registry_step]
    unfold hid_internal_hotplug_exit
    by_cases hr : g.hotplug.critical_section_ready = true
    · rw [if_neg (show ¬ ((!g.hotplug.critical_section_ready) = true) by simp [hr])]
    · have hr2 : g.hotplug.critical_section_ready = false := by simpa using hr
      rw [if_pos (show (!g.hotplug.critical_section_ready) = true by simp [hr2])]
      exact hr2
  obtain ⟨h1, h2, h3⟩ := hi hr
  exact ⟨h1, h2, h3, hr, rfl⟩

/-- The globals that the `hid_exit` of the process leaves are those of the
registry operation `exit`. -/
theorem hid_exit_globals (p : process) (thread_id : Nat) (env : cleanup_env) :
    (hid_exit p thread_id env).2.g
      = registry_step p.g (registry_op.exit env (p.threads thread_id).device_error) := rfl

/-- C26 does not hold of the code. Thread 1 records a global error, thread 2
an error of a session, then thread 1 calls `hid_exit`, which returns 0 and
leaves the registry cleared. With the library linked statically
(`tls_context.critical_section_ready` is never set) `tls_register` and
`tls_free` return at once: both records are still read, with the code -1.
With the library loaded as a DLL `tls_free` frees the records of both threads
and drops its nodes, but the thread local pointers `device_error` still lead
to the freed records: `hid_error` and `hid_error_code` read freed memory, on
the calling thread as on the other. -/
theorem hid_exit_leaves_error_records :
    (hid_exit (sample_thread_writes process_start) 1 { unregister_ok := true }).1 = 0 ∧
    sample_exit_static.g.hotplug = hid_hotplug_context_init ∧
    thread_hid_error sample_exit_static 1 none
      = some "No HID devices with requested VID/PID found in the system." ∧
    thread_hid_error_code sample_exit_static 1 none = some (-1) ∧
    thread_hid_error sample_exit_static 2 (some sample_dev) = some "Zero buffer/length" ∧
    thread_hid_error_code sample_exit_static 2 (some sample_dev) = some (-1) ∧
    sample_exit_dll.g.hotplug = hid_hotplug_context_init ∧
    sample_exit_dll.tls.allocated = [] ∧
    (sample_exit_dll.threads 1).device_error ≠ [] ∧
    (sample_exit_dll.threads 1).freed = true ∧
    (sample_exit_dll.threads 2).device_error ≠ [] ∧
    (sample_exit_dll.threads 2).freed = true ∧
    thread_hid_error sample_exit_dll 1 none = none ∧
    thread_hid_error sample_exit_dll 2 (some sample_dev) = none ∧
    thread_hid_error_code sample_exit_dll 2 (some sample_dev) = none := by
  decide

end Hidapi
